import Mathlib

/-!
Verification of the AnimeWatchOrder static-site generator (`build.py`).

The Python source is shallowly embedded: every string-producing function of
the generator is translated into a Lean function over `String`, mirroring the
source's f-string templates piece by piece.  Occurrence-counting machinery
over `List Char` is developed first, then a verified JSON printer/parser pair
for the JSON-LD round-trip properties, then the embedding itself, and finally
the theorems about the claims.
-/

namespace AWO

/-! ### Substring occurrence counting over character lists -/

/-- Number of (possibly overlapping) occurrences of `p` in `l`. -/
def countL (p : List Char) : List Char → Nat
  | [] => 0
  | c :: l => (if p <+: (c :: l) then 1 else 0) + countL p l

/-- No proper nonempty prefix of `p` is a suffix of `x`; hence no occurrence
of `p` can start inside `x` and continue past its end. -/
def NoCrossL (p x : List Char) : Prop :=
  ∀ i, 1 ≤ i → i < p.length → ¬ (p.take i <:+ x)

/-- Decidable check for `NoCrossL`. -/
def noCrossB (p x : List Char) : Bool :=
  (List.range p.length).all fun i => i == 0 || ! decide (p.take i <:+ x)

theorem noCrossL_of_noCrossB {p x : List Char} (h : noCrossB p x = true) :
    NoCrossL p x := by
  intro i h1 hi hsuf
  have hmem := List.all_eq_true.mp h i (List.mem_range.mpr hi)
  rcases Bool.or_eq_true _ _ |>.mp hmem with hc | hc
  · simp at hc
    omega
  · simp at hc
    exact hc hsuf

theorem countL_append {p : List Char} (a b : List Char) (h : NoCrossL p a) :
    countL p (a ++ b) = countL p a + countL p b := by
  induction a with
  | nil => simp [countL]
  | cons c t ih =>
    have ht : NoCrossL p t := by
      intro i h1 hi hsuf
      exact h i h1 hi (hsuf.trans (List.suffix_cons c t))
    have hiff : (p <+: (c :: t) ++ b) ↔ (p <+: c :: t) := by
      constructor
      · intro hp
        by_cases hlen : p.length ≤ (c :: t).length
        · exact List.prefix_of_prefix_length_le hp (List.prefix_append _ _) hlen
        · exfalso
          have hct : (c :: t) <+: p :=
            List.prefix_of_prefix_length_le (List.prefix_append _ _) hp (by omega)
          have htake : c :: t = p.take (c :: t).length :=
            List.prefix_iff_eq_take.mp hct
          refine h (c :: t).length (by simp) (by omega) ?_
          rw [← htake]
      · intro hp
        exact hp.trans (List.prefix_append _ _)
    show (if p <+: c :: (t ++ b) then 1 else 0) + countL p (t ++ b) = _
    rw [← List.cons_append]
    by_cases hp : p <+: c :: t
    · rw [if_pos (hiff.mpr hp), ih ht]
      simp [countL, if_pos hp]
      omega
    · rw [if_neg (fun hh => hp (hiff.mp hh)), ih ht]
      simp [countL, if_neg hp]

theorem countL_eq_zero_of_head {p : List Char} {c : Char}
    (hc : p.head? = some c) (a : List Char) (h : c ∉ a) : countL p a = 0 := by
  induction a with
  | nil => rfl
  | cons d t ih =>
    have hd : ¬ (p <+: d :: t) := by
      intro hp
      cases p with
      | nil => simp at hc
      | cons c' p' =>
        have hcc : c' = c := by simpa using hc
        have hcd : c' = d := (List.cons_prefix_cons.mp hp).1
        apply h
        rw [← hcc, hcd]
        exact List.mem_cons_self d t
    simp only [countL, if_neg hd, Nat.zero_add]
    exact ih (fun hm => h (List.mem_cons_of_mem d hm))

theorem noCrossL_of_head {p : List Char} {c : Char}
    (hc : p.head? = some c) (a : List Char) (h : c ∉ a) : NoCrossL p a := by
  intro i h1 hi hsuf
  cases p with
  | nil => simp at hi
  | cons c' p' =>
    have hcc : c' = c := by simpa using hc
    subst hcc
    cases i with
    | zero => omega
    | succ j =>
      have : c' ∈ (c' :: p').take (j + 1) := by
        simp [List.take_succ_cons]
      exact h (hsuf.subset this)

/-- Decidable condition on the pattern `p` and a concrete tail `t` ensuring
`NoCrossL p (y ++ t)` for every `y`. -/
def tailCondB (p t : List Char) : Bool :=
  (List.range p.length).all fun i =>
    i == 0 ||
      (if i ≤ t.length then ! decide (p.take i <:+ t) else ! decide (t <:+ p.take i))

theorem noCrossL_append_tail {p t : List Char} (h : tailCondB p t = true)
    (y : List Char) : NoCrossL p (y ++ t) := by
  intro i h1 hi hsuf
  have hmem := List.all_eq_true.mp h i (List.mem_range.mpr hi)
  rcases Bool.or_eq_true _ _ |>.mp hmem with hc | hc
  · simp at hc
    omega
  · have hlen : (p.take i).length = i := by
      simp [List.length_take]
      omega
    by_cases hit : i ≤ t.length
    · rw [if_pos hit] at hc
      have : p.take i <:+ t := by
        rcases List.suffix_or_suffix_of_suffix hsuf (List.suffix_append y t) with hq | hq
        · exact hq
        · have : t = p.take i := hq.eq_of_length_le (by omega)
          exact this ▸ List.suffix_refl t
      exact absurd (decide_eq_true this) (by simpa using hc)
    · rw [if_neg hit] at hc
      have : t <:+ p.take i := by
        rcases List.suffix_or_suffix_of_suffix hsuf (List.suffix_append y t) with hq | hq
        · exfalso
          have := hq.length_le
          omega
        · exact hq
      exact absurd (decide_eq_true this) (by simpa using hc)

theorem countL_pos_iff_contains {p : List Char} (hp : p ≠ []) (l : List Char) :
    0 < countL p l ↔ p <:+: l := by
  induction l with
  | nil =>
    constructor
    · intro hpos
      simp [countL] at hpos
    · intro hinf
      exact absurd (List.sublist_nil.mp hinf.sublist) hp
  | cons c t ih =>
    constructor
    · intro hpos
      by_cases hpre : p <+: c :: t
      · exact hpre.isInfix
      · simp only [countL, if_neg hpre, Nat.zero_add] at hpos
        exact (ih.mp hpos).trans (List.suffix_cons c t).isInfix
    · intro hinf
      rcases hinf with ⟨s, u, hsu⟩
      cases s with
      | nil =>
        have : p <+: c :: t := ⟨u, by simpa using hsu⟩
        simp [countL, if_pos this]
      | cons d s' =>
        have : p <:+: t := by
          refine ⟨s', u, ?_⟩
          have := congrArg List.tail hsu
          simpa using this
        have hpos := ih.mpr this
        simp only [countL]
        omega

theorem not_contains_of_countL_eq_zero {p : List Char} (hp : p ≠ [])
    {l : List Char} (h : countL p l = 0) : ¬ (p <:+: l) := by
  intro hinf
  have := (countL_pos_iff_contains hp l).mpr hinf
  omega

/-! ### Template parts

A Python f-string is a concatenation, in source order, of literal text and
interpolated holes.  `Part` records that structure: `lit` is literal template
text, `hol` is an interpolated data string (proved `<`-free where needed), and
`frag` is an interpolated string built by another renderer, whose counting
facts are established separately. -/

inductive Part where
  | lit (s : String)
  | hol (s : String)
  | frag (s : String)

def Part.str : Part → String
  | .lit s => s
  | .hol s => s
  | .frag s => s

/-- Concatenation of the parts, in order. -/
def partsStr (ps : List Part) : String :=
  ps.foldr (fun pt acc => pt.str ++ acc) ""

/-- Proof obligations for one part with respect to pattern `p` (which must
start with `<`): literal text is checked not to end in a prefix of `p`, holes
are `<`-free, fragments carry their own facts. -/
def partOk (p : List Char) : Part → Prop
  | .lit s => noCrossB p s.data = true
  | .hol s => '<' ∉ s.data
  | .frag s => countL p s.data = 0 ∧ NoCrossL p s.data

/-- Contribution of one part to the occurrence count. -/
def litCount (p : List Char) : Part → Nat
  | .lit s => countL p s.data
  | .hol _ => 0
  | .frag _ => 0

theorem partsStr_cons (pt : Part) (ps : List Part) :
    partsStr (pt :: ps) = pt.str ++ partsStr ps := rfl

theorem partsStr_append (a b : List Part) :
    partsStr (a ++ b) = partsStr a ++ partsStr b := by
  induction a with
  | nil => simp [partsStr]
  | cons pt t ih =>
    simp only [List.cons_append, partsStr_cons, ih, String.append_assoc]

theorem partOk_noCross {p : List Char} (hp : p.head? = some '<')
    {pt : Part} (h : partOk p pt) : NoCrossL p pt.str.data := by
  cases pt with
  | lit s => exact noCrossL_of_noCrossB h
  | hol s => exact noCrossL_of_head hp s.data h
  | frag s => exact h.2

theorem partOk_count {p : List Char} (hp : p.head? = some '<')
    {pt : Part} (h : partOk p pt) : countL p pt.str.data = litCount p pt := by
  cases pt with
  | lit s => rfl
  | hol s => exact countL_eq_zero_of_head hp s.data h
  | frag s => exact h.1

theorem countL_partsStr {p : List Char} (hp : p.head? = some '<')
    (ps : List Part) (h : ∀ pt ∈ ps, partOk p pt) :
    countL p (partsStr ps).data = (ps.map (litCount p)).sum := by
  induction ps with
  | nil => rfl
  | cons pt t ih =>
    have hpt := h pt (List.mem_cons_self pt t)
    have hrest : ∀ q ∈ t, partOk p q := fun q hq => h q (List.mem_cons_of_mem pt hq)
    rw [partsStr_cons, String.data_append,
      countL_append _ _ (partOk_noCross hp hpt), partOk_count hp hpt, ih hrest]
    simp

/-! ### JSON values

`build.py` constructs Python dicts/lists of strings and serializes them with
`json.dumps(..., indent=2, ensure_ascii=False)`.  `JVal` is the value domain
actually used (strings, arrays, objects); `jdump` mirrors the serializer's
output format exactly, and `parseVal` is an ordinary whitespace-tolerant JSON
parser used to state the round-trip property. -/

mutual
inductive JVal where
  | str (s : String)
  | arr (xs : JArr)
  | obj (fs : JObj)
inductive JArr where
  | nil
  | cons (hd : JVal) (tl : JArr)
inductive JObj where
  | nil
  | cons (key : String) (val : JVal) (tl : JObj)
end

def hexDig (m : Nat) : Char := "0123456789abcdef".data.getD m '0'

/-- Escape one character the way Python's `json` encoder does with
`ensure_ascii=False`. -/
def escChar (c : Char) : String :=
  if c = '"' then "\\\""
  else if c = '\\' then "\\\\"
  else if c = '\n' then "\\n"
  else if c = '\r' then "\\r"
  else if c = '\t' then "\\t"
  else if c = '\x08' then "\\b"
  else if c = '\x0c' then "\\f"
  else if c.toNat < 32 then
    "\\u00" ++ String.mk [hexDig (c.toNat / 16), hexDig (c.toNat % 16)]
  else String.singleton c

def escL : List Char → List Char
  | [] => []
  | c :: r => (escChar c).data ++ escL r

/-- JSON string literal for `s`. -/
def jstrDump (s : String) : String := "\"" ++ String.mk (escL s.data) ++ "\""

/-- `n` spaces. -/
def sp (n : Nat) : String := String.mk (List.replicate n ' ')

mutual
/-- Python `json.dumps(v, indent=2, ensure_ascii=False)` at indent `ind`. -/
def jdump (ind : Nat) : JVal → String
  | .str s => jstrDump s
  | .arr .nil => "[]"
  | .arr (.cons h t) =>
      "[\n" ++ sp (ind + 2) ++ jdump (ind + 2) h ++ jdumpArrTail (ind + 2) t
        ++ "\n" ++ sp ind ++ "]"
  | .obj .nil => "\x7b\x7d"
  | .obj (.cons k v t) =>
      "\x7b\n" ++ sp (ind + 2) ++ jstrDump k ++ ": " ++ jdump (ind + 2) v
        ++ jdumpObjTail (ind + 2) t ++ "\n" ++ sp ind ++ "\x7d"
def jdumpArrTail (ind : Nat) : JArr → String
  | .nil => ""
  | .cons h t => ",\n" ++ sp ind ++ jdump ind h ++ jdumpArrTail ind t
def jdumpObjTail (ind : Nat) : JObj → String
  | .nil => ""
  | .cons k v t =>
      ",\n" ++ sp ind ++ jstrDump k ++ ": " ++ jdump ind v ++ jdumpObjTail ind t
end

/-! ### JSON parsing -/

def wsChar (c : Char) : Bool := c = ' ' || c = '\n' || c = '\t' || c = '\r'

def skipWs : List Char → List Char
  | [] => []
  | c :: t => if wsChar c then skipWs t else c :: t

def hexVal (c : Char) : Option Nat :=
  if '0' ≤ c ∧ c ≤ '9' then some (c.toNat - 48)
  else if 'a' ≤ c ∧ c ≤ 'f' then some (c.toNat - 87)
  else if 'A' ≤ c ∧ c ≤ 'F' then some (c.toNat - 55)
  else none

def unescChar (e : Char) : Option Char :=
  if e = '"' then some '"'
  else if e = '\\' then some '\\'
  else if e = '/' then some '/'
  else if e = 'n' then some '\n'
  else if e = 'r' then some '\r'
  else if e = 't' then some '\t'
  else if e = 'b' then some '\x08'
  else if e = 'f' then some '\x0c'
  else none

/-- Body of a JSON string literal (after the opening quote), returning the
unescaped characters and the remainder after the closing quote. -/
def parseStrBody : List Char → Option (List Char × List Char)
  | [] => none
  | c :: r =>
    if c = '"' then some ([], r)
    else if c = '\\' then
      match r with
      | [] => none
      | e :: r' =>
        if e = 'u' then
          match r' with
          | h1 :: h2 :: h3 :: h4 :: r2 =>
            match hexVal h1, hexVal h2, hexVal h3, hexVal h4 with
            | some v1, some v2, some v3, some v4 =>
              (parseStrBody r2).map fun pr =>
                (Char.ofNat (((v1 * 16 + v2) * 16 + v3) * 16 + v4) :: pr.1, pr.2)
            | _, _, _, _ => none
          | _ => none
        else
          match unescChar e with
          | some u => (parseStrBody r').map fun pr => (u :: pr.1, pr.2)
          | none => none
    else (parseStrBody r).map fun pr => (c :: pr.1, pr.2)

mutual
def parseVal : Nat → List Char → Option (JVal × List Char)
  | 0, _ => none
  | fu + 1, l =>
    match skipWs l with
    | [] => none
    | c :: t =>
      if c = '"' then
        (parseStrBody t).map fun pr => (JVal.str (String.mk pr.1), pr.2)
      else if c = '[' then
        match skipWs t with
        | [] => none
        | c' :: t' =>
          if c' = ']' then some (.arr .nil, t')
          else
            (parseVal fu (c' :: t')).bind fun vr =>
              (parseArrTail fu vr.2).map fun ar => (JVal.arr (.cons vr.1 ar.1), ar.2)
      else if c = '\x7b' then
        match skipWs t with
        | [] => none
        | c' :: t' =>
          if c' = '\x7d' then some (.obj .nil, t')
          else
            (parseFieldKV fu (c' :: t')).bind fun fr =>
              (parseObjTail fu fr.2).map fun orr =>
                (JVal.obj (.cons fr.1.1 fr.1.2 orr.1), orr.2)
      else none
def parseArrTail : Nat → List Char → Option (JArr × List Char)
  | 0, _ => none
  | fu + 1, l =>
    match skipWs l with
    | [] => none
    | c :: t =>
      if c = ']' then some (.nil, t)
      else if c = ',' then
        (parseVal fu t).bind fun vr =>
          (parseArrTail fu vr.2).map fun ar => (JArr.cons vr.1 ar.1, ar.2)
      else none
def parseFieldKV : Nat → List Char → Option ((String × JVal) × List Char)
  | 0, _ => none
  | fu + 1, l =>
    match skipWs l with
    | [] => none
    | c :: t =>
      if c = '"' then
        (parseStrBody t).bind fun kr =>
          match skipWs kr.2 with
          | [] => none
          | c' :: t' =>
            if c' = ':' then
              (parseVal fu t').map fun vr => ((String.mk kr.1, vr.1), vr.2)
            else none
      else none
def parseObjTail : Nat → List Char → Option (JObj × List Char)
  | 0, _ => none
  | fu + 1, l =>
    match skipWs l with
    | [] => none
    | c :: t =>
      if c = '\x7d' then some (.nil, t)
      else if c = ',' then
        (parseFieldKV fu t).bind fun fr =>
          (parseObjTail fu fr.2).map fun orr => (JObj.cons fr.1.1 fr.1.2 orr.1, orr.2)
      else none
end

/-- A whole JSON document: one value, possibly surrounded by whitespace. -/
def parseJson (s : String) : Option JVal :=
  match parseVal (s.data.length + 1) s.data with
  | some vr => if skipWs vr.2 = [] then some vr.1 else none
  | none => none

/-! ### Round-trip: the parser inverts the printer -/

mutual
/-- Fuel sufficient for `parseVal` to parse the output of `jdump`. -/
def jfuel : JVal → Nat
  | .str _ => 1
  | .arr a => jfuelA a + 1
  | .obj o => jfuelO o + 1
def jfuelA : JArr → Nat
  | .nil => 1
  | .cons h t => jfuel h + jfuelA t + 1
def jfuelO : JObj → Nat
  | .nil => 1
  | .cons _ v t => jfuel v + jfuelO t + 2
end

theorem jfuel_pos (v : JVal) : 1 ≤ jfuel v := by
  cases v <;> simp [jfuel]

theorem jfuelA_pos (a : JArr) : 1 ≤ jfuelA a := by
  cases a <;> simp [jfuelA]

theorem jfuelO_pos (o : JObj) : 1 ≤ jfuelO o := by
  cases o <;> simp [jfuelO]

theorem mk_data (s : String) : String.mk s.data = s := by
  cases s
  rfl

theorem skipWs_append {w : List Char} (hw : ∀ c ∈ w, wsChar c = true)
    (l : List Char) : skipWs (w ++ l) = skipWs l := by
  induction w with
  | nil => rfl
  | cons c t ih =>
    have hc := hw c (List.mem_cons_self c t)
    rw [List.cons_append]
    show skipWs (c :: (t ++ l)) = skipWs l
    rw [skipWs, if_pos hc]
    exact ih (fun d hd => hw d (List.mem_cons_of_mem c hd))

theorem skipWs_cons_of_not {c : Char} (hc : wsChar c = false) (l : List Char) :
    skipWs (c :: l) = c :: l := by
  rw [skipWs, if_neg (by simp [hc])]

theorem sp_ws (n : Nat) : ∀ c ∈ (sp n).data, wsChar c = true := by
  intro c hc
  have : c = ' ' := List.eq_of_mem_replicate (by simpa [sp] using hc)
  simp [this, wsChar]

theorem hexVal_hexDig : ∀ m : Nat, m < 16 → hexVal (hexDig m) = some m := by
  decide

theorem parseStrBody_esc : ∀ (l rest : List Char),
    parseStrBody (escL l ++ '"' :: rest) = some (l, rest) := by
  intro l
  induction l with
  | nil =>
    intro rest
    show parseStrBody ('"' :: rest) = _
    rw [parseStrBody.eq_def]
    simp
  | cons c r ih =>
    intro rest
    show parseStrBody (((escChar c).data ++ escL r) ++ '"' :: rest) = _
    rw [List.append_assoc]
    by_cases h1 : c = '"'
    · subst h1
      rw [show escChar '"' = "\\\"" from rfl, parseStrBody.eq_def]
      simp [unescChar, ih]
    · by_cases h2 : c = '\\'
      · subst h2
        rw [show escChar '\\' = "\\\\" from rfl, parseStrBody.eq_def]
        simp [unescChar, ih]
      · by_cases h3 : c = '\n'
        · subst h3
          rw [show escChar '\n' = "\\n" from rfl, parseStrBody.eq_def]
          simp [unescChar, ih]
        · by_cases h4 : c = '\r'
          · subst h4
            rw [show escChar '\r' = "\\r" from rfl, parseStrBody.eq_def]
            simp [unescChar, ih]
          · by_cases h5 : c = '\t'
            · subst h5
              rw [show escChar '\t' = "\\t" from rfl, parseStrBody.eq_def]
              simp [unescChar, ih]
            · by_cases h6 : c = '\x08'
              · subst h6
                rw [show escChar '\x08' = "\\b" from rfl, parseStrBody.eq_def]
                simp [unescChar, ih]
              · by_cases h7 : c = '\x0c'
                · subst h7
                  rw [show escChar '\x0c' = "\\f" from rfl, parseStrBody.eq_def]
                  simp [unescChar, ih]
                · by_cases h8 : c.toNat < 32
                  · have hdump : escChar c =
                        "\\u00" ++ String.mk [hexDig (c.toNat / 16), hexDig (c.toNat % 16)] := by
                      rw [escChar, if_neg h1, if_neg h2, if_neg h3, if_neg h4, if_neg h5,
                        if_neg h6, if_neg h7, if_pos h8]
                    rw [hdump]
                    have hq : hexVal (hexDig (c.toNat / 16)) = some (c.toNat / 16) :=
                      hexVal_hexDig _ (by omega)
                    have hr : hexVal (hexDig (c.toNat % 16)) = some (c.toNat % 16) :=
                      hexVal_hexDig _ (by omega)
                    have h00 : hexVal '0' = some 0 := by decide
                    have hchar : Char.ofNat (c.toNat / 16 * 16 + c.toNat % 16) = c := by
                      have harith : c.toNat / 16 * 16 + c.toNat % 16 = c.toNat := by omega
                      rw [harith, Char.ofNat_toNat]
                    rw [parseStrBody.eq_def]
                    simp [h00, hq, hr, hchar, ih]
                  · have hdump : escChar c = String.singleton c := by
                      rw [escChar, if_neg h1, if_neg h2, if_neg h3, if_neg h4, if_neg h5,
                        if_neg h6, if_neg h7, if_neg h8]
                    rw [hdump]
                    rw [show (String.singleton c).data = [c] from rfl]
                    rw [parseStrBody.eq_def]
                    simp [if_neg h1, if_neg h2, ih]

theorem parseVal_str_step (fu : Nat) {l t : List Char} (h : skipWs l = '"' :: t) :
    parseVal (fu + 1) l
      = (parseStrBody t).map fun pr => (JVal.str (String.mk pr.1), pr.2) := by
  rw [parseVal.eq_def]
  simp only [h]
  simp

theorem parseVal_arrNil_step (fu : Nat) {l t t' : List Char}
    (h : skipWs l = '[' :: t) (h2 : skipWs t = ']' :: t') :
    parseVal (fu + 1) l = some (.arr .nil, t') := by
  rw [parseVal.eq_def]
  simp only [h, h2]
  simp

theorem parseVal_arr_step (fu : Nat) {l t t' : List Char} {c' : Char}
    (h : skipWs l = '[' :: t) (h2 : skipWs t = c' :: t') (h3 : ¬ c' = ']') :
    parseVal (fu + 1) l
      = (parseVal fu (c' :: t')).bind fun vr =>
          (parseArrTail fu vr.2).map fun ar => (JVal.arr (.cons vr.1 ar.1), ar.2) := by
  rw [parseVal.eq_def]
  simp only [h, h2]
  simp [h3]

theorem parseVal_objNil_step (fu : Nat) {l t t' : List Char}
    (h : skipWs l = '\x7b' :: t) (h2 : skipWs t = '\x7d' :: t') :
    parseVal (fu + 1) l = some (.obj .nil, t') := by
  rw [parseVal.eq_def]
  simp only [h, h2]
  simp

theorem parseVal_obj_step (fu : Nat) {l t t' : List Char} {c' : Char}
    (h : skipWs l = '\x7b' :: t) (h2 : skipWs t = c' :: t') (h3 : ¬ c' = '\x7d') :
    parseVal (fu + 1) l
      = (parseFieldKV fu (c' :: t')).bind fun fr =>
          (parseObjTail fu fr.2).map fun orr =>
            (JVal.obj (.cons fr.1.1 fr.1.2 orr.1), orr.2) := by
  rw [parseVal.eq_def]
  simp only [h, h2]
  simp [h3]

theorem parseArrTail_nil_step (fu : Nat) {l t : List Char} (h : skipWs l = ']' :: t) :
    parseArrTail (fu + 1) l = some (.nil, t) := by
  rw [parseArrTail.eq_def]
  simp only [h]
  simp

theorem parseArrTail_cons_step (fu : Nat) {l t : List Char} (h : skipWs l = ',' :: t) :
    parseArrTail (fu + 1) l
      = (parseVal fu t).bind fun vr =>
          (parseArrTail fu vr.2).map fun ar => (JArr.cons vr.1 ar.1, ar.2) := by
  rw [parseArrTail.eq_def]
  simp only [h]
  simp

theorem parseFieldKV_step (fu : Nat) {l t r t' : List Char} {kd : List Char}
    (h : skipWs l = '"' :: t) (h2 : parseStrBody t = some (kd, r))
    (h3 : skipWs r = ':' :: t') :
    parseFieldKV (fu + 1) l
      = (parseVal fu t').map fun vr => ((String.mk kd, vr.1), vr.2) := by
  rw [parseFieldKV.eq_def]
  simp only [h, h2]
  simp [h3]

theorem parseObjTail_nil_step (fu : Nat) {l t : List Char} (h : skipWs l = '\x7d' :: t) :
    parseObjTail (fu + 1) l = some (.nil, t) := by
  rw [parseObjTail.eq_def]
  simp only [h]
  simp

theorem parseObjTail_cons_step (fu : Nat) {l t : List Char} (h : skipWs l = ',' :: t) :
    parseObjTail (fu + 1) l
      = (parseFieldKV fu t).bind fun fr =>
          (parseObjTail fu fr.2).map fun orr => (JObj.cons fr.1.1 fr.1.2 orr.1, orr.2) := by
  rw [parseObjTail.eq_def]
  simp only [h]
  simp

theorem parseVal_ws (fu : Nat) {w : List Char} (hw : ∀ c ∈ w, wsChar c = true)
    (l : List Char) : parseVal fu (w ++ l) = parseVal fu l := by
  cases fu with
  | zero => rfl
  | succ fu =>
    rw [parseVal.eq_def]
    conv_rhs => rw [parseVal.eq_def]
    simp only [skipWs_append hw]

theorem parseFieldKV_ws (fu : Nat) {w : List Char} (hw : ∀ c ∈ w, wsChar c = true)
    (l : List Char) : parseFieldKV fu (w ++ l) = parseFieldKV fu l := by
  cases fu with
  | zero => rfl
  | succ fu =>
    rw [parseFieldKV.eq_def]
    conv_rhs => rw [parseFieldKV.eq_def]
    simp only [skipWs_append hw]

theorem skipWs_cons_ws {c : Char} (hc : wsChar c = true) (l : List Char) :
    skipWs (c :: l) = skipWs l := by
  rw [skipWs, if_pos hc]

theorem wsNlSp (n : Nat) : ∀ c ∈ ('\n' :: (sp n).data), wsChar c = true := by
  intro c hc
  rcases List.mem_cons.mp hc with h | h
  · simp [h, wsChar]
  · exact sp_ws n c h

theorem jstrDump_shape (k : String) :
    (jstrDump k).data = '"' :: (escL k.data ++ ['"']) := by
  simp [jstrDump]

theorem jdump_shape (ind : Nat) (v : JVal) :
    ∃ c t2, (jdump ind v).data = c :: t2 ∧ wsChar c = false ∧ c ≠ ']' ∧ c ≠ '\x7d' := by
  cases v with
  | str s =>
    exact ⟨'"', escL s.data ++ ['"'], by simp [jdump, jstrDump], by decide, by decide,
      by decide⟩
  | arr a =>
    cases a with
    | nil => exact ⟨'[', [']'], by simp [jdump], by decide, by decide, by decide⟩
    | cons h t =>
      refine ⟨'[', '\n' :: ((sp (ind + 2)).data ++ ((jdump (ind + 2) h).data
        ++ ((jdumpArrTail (ind + 2) t).data ++ ('\n' :: ((sp ind).data ++ [']']))))),
        by simp [jdump], by decide, by decide, by decide⟩
  | obj o =>
    cases o with
    | nil => exact ⟨'\x7b', ['\x7d'], by simp [jdump], by decide, by decide, by decide⟩
    | cons k v t =>
      refine ⟨'\x7b', '\n' :: ((sp (ind + 2)).data ++ ((jstrDump k).data
        ++ (':' :: (' ' :: ((jdump (ind + 2) v).data
          ++ ((jdumpObjTail (ind + 2) t).data ++ ('\n' :: ((sp ind).data ++ ['\x7d'])))))))),
        by simp [jdump], by decide, by decide, by decide⟩

/-- The parser inverts the printer, given enough fuel: all four parsing
functions read back exactly what the corresponding printer emitted. -/
theorem parse_jdump_aux : ∀ fu : Nat,
    (∀ (v : JVal) (ind : Nat) (rest : List Char), jfuel v ≤ fu →
      parseVal fu ((jdump ind v).data ++ rest) = some (v, rest)) ∧
    (∀ (a : JArr) (ind : Nat) (w rest : List Char), jfuelA a ≤ fu →
      (∀ c ∈ w, wsChar c = true) →
      parseArrTail fu ((jdumpArrTail ind a).data ++ (w ++ (']' :: rest)))
        = some (a, rest)) ∧
    (∀ (k : String) (v : JVal) (ind : Nat) (rest : List Char), jfuel v + 1 ≤ fu →
      parseFieldKV fu ((jstrDump k).data ++ (':' :: (' ' :: ((jdump ind v).data ++ rest))))
        = some ((k, v), rest)) ∧
    (∀ (o : JObj) (ind : Nat) (w rest : List Char), jfuelO o ≤ fu →
      (∀ c ∈ w, wsChar c = true) →
      parseObjTail fu ((jdumpObjTail ind o).data ++ (w ++ ('\x7d' :: rest)))
        = some (o, rest)) := by
  intro fu
  induction fu with
  | zero =>
    refine ⟨?_, ?_, ?_, ?_⟩
    · intro v _ _ hle
      have := jfuel_pos v
      omega
    · intro a _ _ _ hle _
      have := jfuelA_pos a
      omega
    · intro k v _ _ hle
      omega
    · intro o _ _ _ hle _
      have := jfuelO_pos o
      omega
  | succ fu IH =>
    obtain ⟨IH1, IH2, IH3, IH4⟩ := IH
    refine ⟨?_, ?_, ?_, ?_⟩
    · -- parseVal on a printed value
      intro v ind rest hle
      cases v with
      | str s =>
        have hdata : (jdump ind (JVal.str s)).data ++ rest
            = '"' :: (escL s.data ++ ('"' :: rest)) := by
          simp [jdump, jstrDump]
        rw [hdata, parseVal_str_step fu (skipWs_cons_of_not (by decide) _),
          parseStrBody_esc]
        simp [mk_data]
      | arr a =>
        cases a with
        | nil =>
          have hdata : (jdump ind (JVal.arr .nil)).data ++ rest = '[' :: (']' :: rest) := by
            simp [jdump]
          rw [hdata, parseVal_arrNil_step fu (skipWs_cons_of_not (by decide) _)
            (skipWs_cons_of_not (by decide) _)]
        | cons h t =>
          have hp1 := jfuel_pos h
          have hp2 := jfuelA_pos t
          have hf1 : jfuel h ≤ fu := by
            simp [jfuel, jfuelA] at hle
            omega
          have hf2 : jfuelA t ≤ fu := by
            simp [jfuel, jfuelA] at hle
            omega
          obtain ⟨c0, t2, hD, hw0, hne1, hne2⟩ := jdump_shape (ind + 2) h
          have hdata : (jdump ind (JVal.arr (.cons h t))).data ++ rest
              = '[' :: ('\n' :: ((sp (ind + 2)).data ++ ((jdump (ind + 2) h).data
                  ++ ((jdumpArrTail (ind + 2) t).data
                      ++ (('\n' :: (sp ind).data) ++ (']' :: rest)))))) := by
            simp [jdump]
          have hsk2 : skipWs ('\n' :: ((sp (ind + 2)).data ++ ((jdump (ind + 2) h).data
              ++ ((jdumpArrTail (ind + 2) t).data
                  ++ (('\n' :: (sp ind).data) ++ (']' :: rest))))))
              = c0 :: (t2 ++ ((jdumpArrTail (ind + 2) t).data
                  ++ (('\n' :: (sp ind).data) ++ (']' :: rest)))) := by
            rw [skipWs_cons_ws (by decide), skipWs_append (sp_ws _), hD,
              List.cons_append, skipWs_cons_of_not hw0]
          rw [hdata, parseVal_arr_step fu (skipWs_cons_of_not (by decide) _) hsk2 hne1,
            ← List.cons_append, ← hD, IH1 h (ind + 2) _ hf1]
          rw [Option.some_bind, IH2 t (ind + 2) ('\n' :: (sp ind).data) rest hf2 (wsNlSp ind)]
          rfl
      | obj o =>
        cases o with
        | nil =>
          have hdata : (jdump ind (JVal.obj .nil)).data ++ rest
              = '\x7b' :: ('\x7d' :: rest) := by
            simp [jdump]
          rw [hdata, parseVal_objNil_step fu (skipWs_cons_of_not (by decide) _)
            (skipWs_cons_of_not (by decide) _)]
        | cons k v t =>
          have hp1 := jfuel_pos v
          have hp2 := jfuelO_pos t
          have hf1 : jfuel v + 1 ≤ fu := by
            simp [jfuel, jfuelO] at hle
            omega
          have hf2 : jfuelO t ≤ fu := by
            simp [jfuel, jfuelO] at hle
            omega
          have hdata : (jdump ind (JVal.obj (.cons k v t))).data ++ rest
              = '\x7b' :: ('\n' :: ((sp (ind + 2)).data ++ ((jstrDump k).data
                  ++ (':' :: (' ' :: ((jdump (ind + 2) v).data
                      ++ ((jdumpObjTail (ind + 2) t).data
                          ++ (('\n' :: (sp ind).data) ++ ('\x7d' :: rest))))))))) := by
            simp [jdump]
          have hsk2 : skipWs ('\n' :: ((sp (ind + 2)).data ++ ((jstrDump k).data
              ++ (':' :: (' ' :: ((jdump (ind + 2) v).data
                  ++ ((jdumpObjTail (ind + 2) t).data
                      ++ (('\n' :: (sp ind).data) ++ ('\x7d' :: rest)))))))))
              = '"' :: ((escL k.data ++ ['"'])
                  ++ (':' :: (' ' :: ((jdump (ind + 2) v).data
                      ++ ((jdumpObjTail (ind + 2) t).data
                          ++ (('\n' :: (sp ind).data) ++ ('\x7d' :: rest))))))) := by
            rw [skipWs_cons_ws (by decide), skipWs_append (sp_ws _), jstrDump_shape,
              List.cons_append, skipWs_cons_of_not (by decide)]
          rw [hdata, parseVal_obj_step fu (skipWs_cons_of_not (by decide) _) hsk2
            (by decide), ← List.cons_append, ← jstrDump_shape,
            IH3 k v (ind + 2) _ hf1, Option.some_bind,
            IH4 t (ind + 2) ('\n' :: (sp ind).data) rest hf2 (wsNlSp ind)]
          rfl
    · -- parseArrTail on a printed array tail
      intro a ind w rest hle hw
      cases a with
      | nil =>
        have hdata : (jdumpArrTail ind JArr.nil).data ++ (w ++ (']' :: rest))
            = w ++ (']' :: rest) := by
          simp [jdumpArrTail]
        rw [hdata, parseArrTail_nil_step fu
          (by rw [skipWs_append hw, skipWs_cons_of_not (by decide)])]
      | cons h t =>
        have hp1 := jfuel_pos h
        have hp2 := jfuelA_pos t
        have hf1 : jfuel h ≤ fu := by
          simp [jfuelA] at hle
          omega
        have hf2 : jfuelA t ≤ fu := by
          simp [jfuelA] at hle
          omega
        have hdata : (jdumpArrTail ind (JArr.cons h t)).data ++ (w ++ (']' :: rest))
            = ',' :: (('\n' :: (sp ind).data) ++ ((jdump ind h).data
                ++ ((jdumpArrTail ind t).data ++ (w ++ (']' :: rest))))) := by
          simp [jdumpArrTail]
        rw [hdata, parseArrTail_cons_step fu (skipWs_cons_of_not (by decide) _),
          parseVal_ws fu (wsNlSp ind), IH1 h ind _ hf1, Option.some_bind,
          IH2 t ind w rest hf2 hw]
        rfl
    · -- parseFieldKV on a printed field
      intro k v ind rest hle
      have hf1 : jfuel v ≤ fu := by omega
      have hdata : (jstrDump k).data ++ (':' :: (' ' :: ((jdump ind v).data ++ rest)))
          = '"' :: ((escL k.data ++ ['"'])
              ++ (':' :: (' ' :: ((jdump ind v).data ++ rest)))) := by
        rw [jstrDump_shape, List.cons_append]
      have hbody : (escL k.data ++ ['"'])
          ++ (':' :: (' ' :: ((jdump ind v).data ++ rest)))
          = escL k.data ++ ('"' :: (':' :: (' ' :: ((jdump ind v).data ++ rest)))) := by
        simp
      rw [hdata, parseFieldKV_step fu (skipWs_cons_of_not (by decide) _)
        (by rw [hbody, parseStrBody_esc]) (skipWs_cons_of_not (by decide) _)]
      have hws : parseVal fu ([' '] ++ ((jdump ind v).data ++ rest))
          = parseVal fu ((jdump ind v).data ++ rest) :=
        parseVal_ws fu (by intro c hc; simp at hc; simp [hc, wsChar]) _
      simp only [List.singleton_append] at hws
      rw [hws, IH1 v ind rest hf1]
      simp [mk_data]
    · -- parseObjTail on a printed object tail
      intro o ind w rest hle hw
      cases o with
      | nil =>
        have hdata : (jdumpObjTail ind JObj.nil).data ++ (w ++ ('\x7d' :: rest))
            = w ++ ('\x7d' :: rest) := by
          simp [jdumpObjTail]
        rw [hdata, parseObjTail_nil_step fu
          (by rw [skipWs_append hw, skipWs_cons_of_not (by decide)])]
      | cons k v t =>
        have hp1 := jfuel_pos v
        have hp2 := jfuelO_pos t
        have hf1 : jfuel v + 1 ≤ fu := by
          simp [jfuelO] at hle
          omega
        have hf2 : jfuelO t ≤ fu := by
          simp [jfuelO] at hle
          omega
        have hdata : (jdumpObjTail ind (JObj.cons k v t)).data ++ (w ++ ('\x7d' :: rest))
            = ',' :: (('\n' :: (sp ind).data) ++ ((jstrDump k).data
                ++ (':' :: (' ' :: ((jdump ind v).data
                    ++ ((jdumpObjTail ind t).data ++ (w ++ ('\x7d' :: rest)))))))) := by
          simp [jdumpObjTail]
        rw [hdata, parseObjTail_cons_step fu (skipWs_cons_of_not (by decide) _),
          parseFieldKV_ws fu (wsNlSp ind), IH3 k v ind _ hf1, Option.some_bind,
          IH4 t ind w rest hf2 hw]
        rfl

mutual
theorem jfuel_le_len (v : JVal) (ind : Nat) :
    jfuel v ≤ (jdump ind v).data.length := by
  cases v with
  | str s =>
    have : (jdump ind (JVal.str s)).data = '"' :: (escL s.data ++ ['"']) := by
      simp [jdump, jstrDump]
    rw [this]
    simp [jfuel]
  | arr a =>
    cases a with
    | nil =>
      have : (jdump ind (JVal.arr .nil)).data = ['[', ']'] := by simp [jdump]
      rw [this]
      simp [jfuel, jfuelA]
    | cons h t =>
      have hdata : (jdump ind (JVal.arr (.cons h t))).data
          = '[' :: ('\n' :: ((sp (ind + 2)).data ++ ((jdump (ind + 2) h).data
              ++ ((jdumpArrTail (ind + 2) t).data ++ ('\n' :: ((sp ind).data ++ [']'])))))) := by
        simp [jdump]
      have h1 := jfuel_le_len h (ind + 2)
      have h2 := jfuelA_le_len t (ind + 2)
      rw [hdata]
      simp at h1 h2
      simp [jfuel, jfuelA]
      omega
  | obj o =>
    cases o with
    | nil =>
      have : (jdump ind (JVal.obj .nil)).data = ['\x7b', '\x7d'] := by simp [jdump]
      rw [this]
      simp [jfuel, jfuelO]
    | cons k v t =>
      have hdata : (jdump ind (JVal.obj (.cons k v t))).data
          = '\x7b' :: ('\n' :: ((sp (ind + 2)).data ++ ((jstrDump k).data
              ++ (':' :: (' ' :: ((jdump (ind + 2) v).data
                  ++ ((jdumpObjTail (ind + 2) t).data
                      ++ ('\x0a' :: ((sp ind).data ++ ['\x7d']))))))))) := by
        simp [jdump]
      have h1 := jfuel_le_len v (ind + 2)
      have h2 := jfuelO_le_len t (ind + 2)
      rw [hdata]
      simp at h1 h2
      simp [jfuel, jfuelO]
      omega
theorem jfuelA_le_len (a : JArr) (ind : Nat) :
    jfuelA a ≤ (jdumpArrTail ind a).data.length + 2 := by
  cases a with
  | nil => simp [jfuelA]
  | cons h t =>
    have hdata : (jdumpArrTail ind (JArr.cons h t)).data
        = ',' :: ('\n' :: ((sp ind).data
            ++ ((jdump ind h).data ++ (jdumpArrTail ind t).data))) := by
      simp [jdumpArrTail]
    have h1 := jfuel_le_len h ind
    have h2 := jfuelA_le_len t ind
    rw [hdata]
    simp at h1 h2
    simp [jfuelA]
    omega
theorem jfuelO_le_len (o : JObj) (ind : Nat) :
    jfuelO o ≤ (jdumpObjTail ind o).data.length + 2 := by
  cases o with
  | nil => simp [jfuelO]
  | cons k v t =>
    have hdata : (jdumpObjTail ind (JObj.cons k v t)).data
        = ',' :: ('\n' :: ((sp ind).data ++ ((jstrDump k).data
            ++ (':' :: (' ' :: ((jdump ind v).data ++ (jdumpObjTail ind t).data)))))) := by
      simp [jdumpObjTail]
    have h1 := jfuel_le_len v ind
    have h2 := jfuelO_le_len t ind
    rw [hdata]
    simp at h1 h2
    simp [jfuelO]
    omega
end

/-- Round trip at the top level: parsing any printed document succeeds and
returns the original value. -/
theorem parseJson_jdump (v : JVal) : parseJson (jdump 0 v) = some v := by
  have hfu : jfuel v ≤ (jdump 0 v).data.length + 1 := by
    have := jfuel_le_len v 0
    omega
  have h := (parse_jdump_aux ((jdump 0 v).data.length + 1)).1 v 0 [] hfu
  rw [List.append_nil] at h
  rw [parseJson, h]
  rfl

/-! ### The serializer introduces no `<` characters -/

mutual
def jcleanV : JVal → Bool
  | .str s => ! s.data.contains '<'
  | .arr a => jcleanA a
  | .obj o => jcleanO o
def jcleanA : JArr → Bool
  | .nil => true
  | .cons h t => jcleanV h && jcleanA t
def jcleanO : JObj → Bool
  | .nil => true
  | .cons k v t => (! k.data.contains '<' && jcleanV v) && jcleanO t
end

theorem hexDig_ne_lt (m : Nat) : hexDig m ≠ '<' := by
  by_cases h : m < 16
  · revert h
    revert m
    decide
  · have hd : hexDig m = '0' := by
      unfold hexDig
      apply List.getD_eq_default
      have h16 : ("0123456789abcdef".data).length = 16 := rfl
      omega
    rw [hd]
    decide

theorem escChar_no_lt {c : Char} (hc : c ≠ '<') : '<' ∉ (escChar c).data := by
  rw [escChar]
  by_cases h1 : c = '"'
  · rw [if_pos h1]; decide
  · rw [if_neg h1]
    by_cases h2 : c = '\\'
    · rw [if_pos h2]; decide
    · rw [if_neg h2]
      by_cases h3 : c = '\n'
      · rw [if_pos h3]; decide
      · rw [if_neg h3]
        by_cases h4 : c = '\r'
        · rw [if_pos h4]; decide
        · rw [if_neg h4]
          by_cases h5 : c = '\t'
          · rw [if_pos h5]; decide
          · rw [if_neg h5]
            by_cases h6 : c = '\x08'
            · rw [if_pos h6]; decide
            · rw [if_neg h6]
              by_cases h7 : c = '\x0c'
              · rw [if_pos h7]; decide
              · rw [if_neg h7]
                by_cases h8 : c.toNat < 32
                · rw [if_pos h8]
                  have hd : ("\\u00"
                      ++ String.mk [hexDig (c.toNat / 16), hexDig (c.toNat % 16)]).data
                      = ['\\', 'u', '0', '0', hexDig (c.toNat / 16),
                          hexDig (c.toNat % 16)] := rfl
                  rw [hd]
                  have ha := (hexDig_ne_lt (c.toNat / 16)).symm
                  have hb := (hexDig_ne_lt (c.toNat % 16)).symm
                  simp [List.mem_cons, ha, hb]
                · rw [if_neg h8]
                  rw [show (String.singleton c).data = [c] from rfl]
                  simp [List.mem_singleton]
                  exact fun he => hc he.symm

theorem escL_no_lt {l : List Char} (h : '<' ∉ l) : '<' ∉ escL l := by
  induction l with
  | nil => simp [escL]
  | cons c r ih =>
    rw [escL]
    intro hmem
    rcases List.mem_append.mp hmem with hm | hm
    · exact escChar_no_lt (fun he => h (he ▸ List.mem_cons_self c r)) hm
    · exact ih (fun hr => h (List.mem_cons_of_mem c hr)) hm

theorem jstrDump_no_lt {s : String} (h : '<' ∉ s.data) : '<' ∉ (jstrDump s).data := by
  rw [jstrDump_shape]
  have he : '<' ∉ escL s.data := escL_no_lt h
  simp [List.mem_cons, List.mem_append, he]

theorem sp_no_lt (n : Nat) : '<' ∉ (sp n).data := by
  intro hmem
  have hmem2 : '<' ∈ List.replicate n ' ' := hmem
  exact absurd (List.eq_of_mem_replicate hmem2) (by decide)

mutual
theorem jdump_no_lt (v : JVal) (ind : Nat) (h : jcleanV v = true) :
    '<' ∉ (jdump ind v).data := by
  cases v with
  | str s =>
    have hs : '<' ∉ s.data := by
      simp [jcleanV] at h
      simpa using h
    have hdata : (jdump ind (JVal.str s)).data = (jstrDump s).data := by simp [jdump]
    rw [hdata]
    exact jstrDump_no_lt hs
  | arr a =>
    cases a with
    | nil =>
      have hdata : (jdump ind (JVal.arr .nil)).data = ['[', ']'] := by simp [jdump]
      rw [hdata]
      decide
    | cons hh t =>
      have h1 : jcleanV hh = true := by
        simp [jcleanV, jcleanA] at h
        exact h.1
      have h2 : jcleanA t = true := by
        simp [jcleanV, jcleanA] at h
        exact h.2
      have hdata : (jdump ind (JVal.arr (.cons hh t))).data
          = '[' :: ('\n' :: ((sp (ind + 2)).data ++ ((jdump (ind + 2) hh).data
              ++ ((jdumpArrTail (ind + 2) t).data
                  ++ ('\n' :: ((sp ind).data ++ [']'])))))) := by
        simp [jdump]
      rw [hdata]
      have hA := sp_no_lt (ind + 2)
      have hB := jdump_no_lt hh (ind + 2) h1
      have hC := jdumpArrTail_no_lt t (ind + 2) h2
      have hD := sp_no_lt ind
      simp [List.mem_cons, List.mem_append, hA, hB, hC, hD]
  | obj o =>
    cases o with
    | nil =>
      have hdata : (jdump ind (JVal.obj .nil)).data = ['\x7b', '\x7d'] := by simp [jdump]
      rw [hdata]
      decide
    | cons k v t =>
      have h1 : '<' ∉ k.data := by
        simp [jcleanV, jcleanO] at h
        simpa using h.1.1
      have h2 : jcleanV v = true := by
        simp [jcleanV, jcleanO] at h
        exact h.1.2
      have h3 : jcleanO t = true := by
        simp [jcleanV, jcleanO] at h
        exact h.2
      have hdata : (jdump ind (JVal.obj (.cons k v t))).data
          = '\x7b' :: ('\n' :: ((sp (ind + 2)).data ++ ((jstrDump k).data
              ++ (':' :: (' ' :: ((jdump (ind + 2) v).data
                  ++ ((jdumpObjTail (ind + 2) t).data
                      ++ ('\x0a' :: ((sp ind).data ++ ['\x7d']))))))))) := by
        simp [jdump]
      rw [hdata]
      have hA := sp_no_lt (ind + 2)
      have hB := jstrDump_no_lt h1
      have hC := jdump_no_lt v (ind + 2) h2
      have hD := jdumpObjTail_no_lt t (ind + 2) h3
      have hE := sp_no_lt ind
      simp [List.mem_cons, List.mem_append, hA, hB, hC, hD, hE]
theorem jdumpArrTail_no_lt (a : JArr) (ind : Nat) (h : jcleanA a = true) :
    '<' ∉ (jdumpArrTail ind a).data := by
  cases a with
  | nil =>
    have hdata : (jdumpArrTail ind JArr.nil).data = [] := by simp [jdumpArrTail]
    rw [hdata]
    simp
  | cons hh t =>
    have h1 : jcleanV hh = true := by
      simp [jcleanA] at h
      exact h.1
    have h2 : jcleanA t = true := by
      simp [jcleanA] at h
      exact h.2
    have hdata : (jdumpArrTail ind (JArr.cons hh t)).data
        = ',' :: ('\n' :: ((sp ind).data
            ++ ((jdump ind hh).data ++ (jdumpArrTail ind t).data))) := by
      simp [jdumpArrTail]
    rw [hdata]
    have hA := sp_no_lt ind
    have hB := jdump_no_lt hh ind h1
    have hC := jdumpArrTail_no_lt t ind h2
    simp [List.mem_cons, List.mem_append, hA, hB, hC]
theorem jdumpObjTail_no_lt (o : JObj) (ind : Nat) (h : jcleanO o = true) :
    '<' ∉ (jdumpObjTail ind o).data := by
  cases o with
  | nil =>
    have hdata : (jdumpObjTail ind JObj.nil).data = [] := by simp [jdumpObjTail]
    rw [hdata]
    simp
  | cons k v t =>
    have h1 : '<' ∉ k.data := by
      simp [jcleanO] at h
      simpa using h.1.1
    have h2 : jcleanV v = true := by
      simp [jcleanO] at h
      exact h.1.2
    have h3 : jcleanO t = true := by
      simp [jcleanO] at h
      exact h.2
    have hdata : (jdumpObjTail ind (JObj.cons k v t)).data
        = ',' :: ('\n' :: ((sp ind).data ++ ((jstrDump k).data
            ++ (':' :: (' ' :: ((jdump ind v).data ++ (jdumpObjTail ind t).data)))))) := by
      simp [jdumpObjTail]
    rw [hdata]
    have hA := sp_no_lt ind
    have hB := jstrDump_no_lt h1
    have hC := jdump_no_lt v ind h2
    have hD := jdumpObjTail_no_lt t ind h3
    simp [List.mem_cons, List.mem_append, hA, hB, hC, hD]
end

/-! ### Data model

Lean structures mirroring the per-series JSON documents exactly as `build.py`
accesses them.  Fields read with `.get(key, default)` (or truthiness-tested
after `.get(key)`) are `Option`/`Bool`; every other access is a mandatory
field.  Numeric JSON values interpolated into f-strings are modelled as their
decimal string rendering. -/

structure Hero where
  series : String
  films : String
  hours : String
  updated : String

structure Ui where
  must_watch : String
  watchable : String
  skip : String
  canon : String
  mixed : String
  film_canon : String
  non_canon : String
  filler : Option String
  recommended_label : String
  yes : String
  no : String
  why_confusing_label : String
  compare_verdict_label : Option String
  nav_home : String
  lang_switch : String
  quick_answer_label : String
  paths_heading : String
  timeline_heading : String
  col_num : String
  col_title : String
  col_type : String
  col_episodes : String
  col_when : String
  col_path : String
  col_verdict : String
  col_watch : String
  faq_heading : String
  streaming_heading : String
  footer_text : String
  footer_affiliate : String

structure TimelineItem where
  num : String
  title : String
  subtitle : String
  type : String
  episodes : String
  when : String
  path : String
  verdict : String
  recommended : Bool
  watch_url : Option String
  notes : Option String

structure Film where
  title : String
  year : String
  canon : Bool
  placement : String
  verdict : String

structure FillerArc where
  arc : String
  episodes : String
  verdict : String
  notes : String

structure PathCard where
  icon : String
  name : String
  subtitle : String
  description : String
  hours : String
  includes : String
  recommended : Bool

structure FaqItem where
  question : String
  answer : String

structure WhyConfusing where
  content : String

structure CompareStat where
  label : String
  value : String

structure CompareCard where
  title : String
  subtitle : String
  stats : List CompareStat
  recommended : Bool
  color_class : Option String

structure DbzVsKai where
  heading : String
  intro : String
  cards : List CompareCard
  verdict : String

structure StreamingCard where
  icon : String
  platform : String
  available : List String
  url : String
  cta : String

structure Manga where
  title : String
  description : String
  link_url : String
  link_text : String

structure Guide where
  title : String
  meta_title : String
  meta_description : String
  category_tag : String
  hero : Hero
  intro : String
  quick_answer : String
  ui : Ui
  timeline : List TimelineItem
  films : List Film
  fillers : List FillerArc
  paths : List PathCard
  faq : List FaqItem
  why_confusing : WhyConfusing
  dbz_vs_kai : DbzVsKai
  streaming : List StreamingCard
  manga : Manga
  emoji : Option String

/-- One series data document: the `"en"` and `"fr"` halves of the JSON file. -/
structure SeriesRaw where
  en : Guide
  fr : Guide

/-- `raw["en"]` / `raw["fr"]` selection by language tag (the program only ever
uses the tags `"en"` and `"fr"`). -/
def langData (raw : SeriesRaw) (lang : String) : Guide :=
  if lang = "fr" then raw.fr else raw.en

/-! ### Configuration constants (`build.py` lines 13-32) -/

def SITE_URL : String := "https://animewatchorder.com"

def CURRENT_YEAR : String := "2026"

def GTM_HEAD : String :=
  "<!-- Google Tag Manager \x2d\x2d>\n<script>(function(w,d,s,l,i)\x7bw[l]=w[l]||[];w[l].push(\x7b\x27gtm.start\x27:\nnew Date().getTime(),event:\x27gtm.js\x27\x7d);var f=d.getElementsByTagName(s)[0],\nj=d.createElement(s),dl=l!=\x27dataLayer\x27?\x27&l=\x27+l:\x27\x27;j.async=true;j.src=\n\x27https://www.googletagmanager.com/gtm.js?id=\x27+i+dl;f.parentNode.insertBefore(j,f);\n\x7d)(window,document,\x27script\x27,\x27dataLayer\x27,\x27GTM-TJ84SLJX\x27);</script>\n<!-- End Google Tag Manager \x2d\x2d>"

def GOOGLE_SITE_VERIFICATION : String :=
  "<meta name=\"google-site-verification\" content=\"NC4herujRe5TMX77VnhqjvWdJa6XAwBd5iAVIGxwXbk\" />"

def SERIES : List String := ["dragon-ball", "naruto"]

/-! ### Field formatters (`build.py` lines 45-86)

Python's `dict.get(key, default)` over the literal mapping becomes an
if-chain with the same fallback. -/

def badge_class (type_key : String) : String :=
  if type_key = "canon" then "badge--canon"
  else if type_key = "mixed" then "badge--mixed"
  else if type_key = "film_canon" then "badge--film-canon"
  else if type_key = "non_canon" then "badge--non-canon"
  else if type_key = "filler" then "badge--filler"
  else "badge--canon"

def verdict_class (verdict : String) : String :=
  if verdict = "must_watch" then "verdict--must-watch"
  else if verdict = "watchable" then "verdict--watchable"
  else if verdict = "skip" then "verdict--skip"
  else "verdict--watchable"

def verdict_label (verdict : String) (ui : Ui) : String :=
  if verdict = "must_watch" then ui.must_watch
  else if verdict = "watchable" then ui.watchable
  else if verdict = "skip" then ui.skip
  else verdict

def type_label (type_key : String) (ui : Ui) : String :=
  if type_key = "canon" then ui.canon
  else if type_key = "mixed" then ui.mixed
  else if type_key = "film_canon" then ui.film_canon
  else if type_key = "non_canon" then ui.non_canon
  else if type_key = "filler" then ui.filler.getD "Filler"
  else type_key

/-! ### Fragment renderers (`build.py` lines 89-293)

Each Python f-string becomes a `List Part` holding its literal pieces and
interpolated holes in source order; `"\n".join(...)` becomes `joinNl`. -/

/-- Python `"\n".join`. -/
def joinNl : List String → String
  | [] => ""
  | [s] => s
  | s :: rest => s ++ "\n" ++ joinNl rest

/-- Concatenation by repeated `+=`. -/
def joinAll : List String → String
  | [] => ""
  | s :: rest => s ++ joinAll rest

/-- `rec_tag` of `build_timeline_rows`. -/
def recTagParts (item : TimelineItem) (ui : Ui) : List Part :=
  if item.recommended
  then [.lit " <span class=\"tag-recommended\">", .hol ui.recommended_label, .lit "</span>"]
  else []

/-- `rec_class` of `build_timeline_rows`. -/
def recClassParts (item : TimelineItem) : List Part :=
  if item.recommended then [.lit " class=\"row--recommended\""] else []

def timelineRowParts (item : TimelineItem) (ui : Ui) : List Part :=
  [Part.lit "        <tr"] ++ recClassParts item ++
  [Part.lit ">\n          <td class=\"col-num\">", .hol item.num,
   .lit "</td>\n          <td class=\"col-title\">", .hol item.title] ++
  recTagParts item ui ++
  [Part.lit "<small>", .hol item.subtitle,
   .lit "</small></td>\n          <td><span class=\"badge ", .hol (badge_class item.type),
   .lit "\">", .hol (type_label item.type ui),
   .lit "</span></td>\n          <td>", .hol item.episodes,
   .lit "</td>\n          <td>", .hol item.when,
   .lit "</td>\n          <td>", .hol item.path,
   .lit "</td>\n          <td><span class=\"verdict ", .hol (verdict_class item.verdict),
   .lit "\">", .hol (verdict_label item.verdict ui),
   .lit "</span></td>\n          <td><a href=\"", .hol (item.watch_url.getD "#"),
   .lit "\" class=\"stream-link\" rel=\"nofollow noopener\" target=\"_blank\">CR</a></td>\n        </tr>"]

def build_timeline_rows (data : Guide) (ui : Ui) : String :=
  joinNl (data.timeline.map (fun item => partsStr (timelineRowParts item ui)))

def filmRow (film : Film) (ui : Ui) : String :=
  let canon_class := if film.canon then "film-canon-yes" else "film-canon-no"
  let canon_text := if film.canon then ui.yes else ui.no
  let v_class := verdict_class film.verdict
  let v_label := verdict_label film.verdict ui
  "        <tr>\n          <td class=\"film-title\">" ++ film.title
    ++ "</td>\n          <td>" ++ film.year
    ++ "</td>\n          <td class=\"" ++ canon_class ++ "\">" ++ canon_text
    ++ "</td>\n          <td>" ++ film.placement
    ++ "</td>\n          <td><span class=\"verdict " ++ v_class ++ "\">" ++ v_label
    ++ "</span></td>\n        </tr>"

def build_films_rows (data : Guide) (ui : Ui) : String :=
  joinNl (data.films.map (fun film => filmRow film ui))

def fillerRow (filler : FillerArc) (ui : Ui) : String :=
  let v_class := verdict_class filler.verdict
  let v_label := verdict_label filler.verdict ui
  "        <tr>\n          <td>" ++ filler.arc
    ++ "</td>\n          <td>" ++ filler.episodes
    ++ "</td>\n          <td><span class=\"verdict " ++ v_class ++ "\">" ++ v_label
    ++ "</span></td>\n          <td>" ++ filler.notes
    ++ "</td>\n        </tr>"

def build_fillers_rows (data : Guide) (ui : Ui) : String :=
  joinNl (data.fillers.map (fun filler => fillerRow filler ui))

/-- `rec_badge` of `build_paths_html`. -/
def pathBadgeParts (path : PathCard) (ui : Ui) : List Part :=
  if path.recommended
  then [.lit "<span class=\"path-card__badge\">", .hol ui.recommended_label, .lit "</span>"]
  else []

/-- `rec_class` of `build_paths_html`. -/
def pathRecClassParts (path : PathCard) : List Part :=
  if path.recommended then [.lit " path-card--recommended"] else []

def pathCardParts (path : PathCard) (ui : Ui) : List Part :=
  [Part.lit "      <div class=\"path-card"] ++ pathRecClassParts path ++
  [Part.lit "\">\n        "] ++ pathBadgeParts path ui ++
  [Part.lit "\n        <span class=\"path-card__icon\">", .hol path.icon,
   .lit "</span>\n        <div class=\"path-card__name\">", .hol path.name,
   .lit "</div>\n        <div class=\"path-card__subtitle\">", .hol path.subtitle,
   .lit "</div>\n        <p class=\"path-card__desc\">", .hol path.description,
   .lit "</p>\n        <div class=\"path-card__meta\">\n          <span class=\"path-card__hours\">",
   .hol path.hours,
   .lit "</span>\n          ", .hol path.includes,
   .lit "\n        </div>\n      </div>"]

def build_paths_html (data : Guide) (ui : Ui) : String :=
  joinNl (data.paths.map (fun path => partsStr (pathCardParts path ui)))

def faqItemParts (faq : FaqItem) : List Part :=
  [Part.lit "      <div class=\"faq-item\">\n        <h3>", .hol faq.question,
   .lit "</h3>\n        <p>", .hol faq.answer,
   .lit "</p>\n      </div>"]

def build_faq_html (data : Guide) : String :=
  joinNl (data.faq.map (fun faq => partsStr (faqItemParts faq)))

def whyConfusingParts (data : Guide) (ui : Ui) : List Part :=
  [Part.lit "      <div class=\"info-box\">\n        <div class=\"info-box__label\">",
   .hol ui.why_confusing_label,
   .lit "</div>\n        <div class=\"info-box__text\">", .hol data.why_confusing.content,
   .lit "</div>\n      </div>"]

def build_why_confusing_html (data : Guide) (ui : Ui) : String :=
  partsStr (whyConfusingParts data ui)

/-- `rec_badge` of `build_compare_html`. -/
def compareBadgeParts (card : CompareCard) (ui : Ui) : List Part :=
  if card.recommended
  then [.lit "<span class=\"winner-tag\">", .hol ui.recommended_label, .lit "</span>"]
  else []

def compareStatParts (stat : CompareStat) : List Part :=
  [Part.lit "          <div class=\"compare-card__stat\">\n            <span class=\"compare-card__label\">",
   .hol stat.label,
   .lit "</span>\n            <span class=\"compare-card__value\">", .hol stat.value,
   .lit "</span>\n          </div>\n"]

/-- `stats_html`, accumulated with `+=`. -/
def compareStatsHtml (stats : List CompareStat) : String :=
  joinAll (stats.map (fun stat => partsStr (compareStatParts stat)))

def compareCardParts (card : CompareCard) (ui : Ui) : List Part :=
  [Part.lit "      <div class=\"compare-card ", .hol (card.color_class.getD ""),
   .lit "\">\n        "] ++ compareBadgeParts card ui ++
  [Part.lit "\n        <div class=\"compare-card__title\">", .hol card.title,
   .lit "</div>\n        <div class=\"compare-card__subtitle\">", .hol card.subtitle,
   .lit "</div>\n", .frag (compareStatsHtml card.stats),
   .lit "      </div>"]

def build_compare_html (data : Guide) (ui : Ui) : String :=
  let compare := data.dbz_vs_kai
  let cards := compare.cards.map (fun card => partsStr (compareCardParts card ui))
  let grid := "      <div class=\"compare-grid\">\n" ++ joinNl cards ++ "\n      </div>"
  let verdict := "      <div class=\"verdict-box\">\n        <div class=\"verdict-box__label\">"
    ++ (ui.compare_verdict_label.getD "Our Verdict")
    ++ "</div>\n        <p class=\"verdict-box__text\">" ++ compare.verdict
    ++ "</p>\n      </div>"
  grid ++ "\n" ++ verdict

/-- `cta_class` of `build_streaming_html`: only index 0 gets the primary
modifier. -/
def streamCtaClass (i : Nat) : String :=
  if i = 0 then "streaming-card__cta--primary" else ""

def streamCardParts (i : Nat) (s : StreamingCard) : List Part :=
  let available_items :=
    joinNl (s.available.map (fun item => "            <li>" ++ item ++ "</li>"))
  [Part.lit "      <div class=\"streaming-card\">\n        <span class=\"streaming-card__icon\">",
   .hol s.icon,
   .lit "</span>\n        <div class=\"streaming-card__name\">", .hol s.platform,
   .lit "</div>\n        <ul class=\"streaming-card__list\">\n",
   .frag available_items,
   .lit "\n        </ul>\n        <a href=\"", .hol s.url,
   .lit "\" class=\"streaming-card__cta ", .hol (streamCtaClass i),
   .lit "\" target=\"_blank\" rel=\"noopener noreferrer nofollow\">", .hol s.cta,
   .lit "</a>\n      </div>"]

/-- The `enumerate(data["streaming"])` loop. -/
def streamCardsFrom : Nat → List StreamingCard → List String
  | _, [] => []
  | i, s :: rest => partsStr (streamCardParts i s) :: streamCardsFrom (i + 1) rest

def build_streaming_html (data : Guide) (_ui : Ui) : String :=
  joinNl (streamCardsFrom 0 data.streaming)

/-! ### Structured-data builders (`build.py` lines 253-293) -/

def stepVal (item : TimelineItem) : JVal :=
  .obj (.cons "@type" (.str "HowToStep")
    (.cons "name" (.str item.title)
      (.cons "text" (.str (item.notes.getD "")) .nil)))

def stepsOf : List TimelineItem → JArr
  | [] => .nil
  | item :: rest => .cons (stepVal item) (stepsOf rest)

/-- The `schema` dict of `build_schema_json`, with the `step` list already
filled by the append loop. -/
def howtoSchema (data : Guide) (slug lang : String) : JVal :=
  .obj (.cons "@context" (.str "https://schema.org")
    (.cons "@type" (.str "HowTo")
      (.cons "name" (.str (if lang = "en" then data.title ++ " Watch Order Guide"
          else data.title ++ " Guide d\x27Ordre de Visionnage"))
        (.cons "description" (.str data.meta_description)
          (.cons "url" (.str (if lang = "en" then SITE_URL ++ "/" ++ slug ++ "/"
              else SITE_URL ++ "/fr/" ++ slug ++ "/"))
            (.cons "datePublished" (.str "2026-02-12")
              (.cons "dateModified" (.str "2026-02-12")
                (.cons "step" (.arr (stepsOf data.timeline)) .nil))))))))

def build_schema_json (data : Guide) (slug lang : String) : String :=
  jdump 0 (howtoSchema data slug lang)

def faqEntity (faq : FaqItem) : JVal :=
  .obj (.cons "@type" (.str "Question")
    (.cons "name" (.str faq.question)
      (.cons "acceptedAnswer"
        (.obj (.cons "@type" (.str "Answer")
          (.cons "text" (.str faq.answer) .nil))) .nil)))

def faqEntities : List FaqItem → JArr
  | [] => .nil
  | faq :: rest => .cons (faqEntity faq) (faqEntities rest)

def faqSchemaVal (data : Guide) : JVal :=
  .obj (.cons "@context" (.str "https://schema.org")
    (.cons "@type" (.str "FAQPage")
      (.cons "mainEntity" (.arr (faqEntities data.faq)) .nil)))

def build_faq_schema (data : Guide) : String :=
  jdump 0 (faqSchemaVal data)

/-! ### A concrete example guide, used for witnesses and counterexamples -/

def exUi : Ui :=
  { must_watch := "Must Watch", watchable := "Watchable", skip := "Skip",
    canon := "Canon", mixed := "Mixed", film_canon := "Film Canon",
    non_canon := "Non-Canon", filler := some "Filler+",
    recommended_label := "RECOMMENDED", yes := "Yes", no := "No",
    why_confusing_label := "Why So Confusing?",
    compare_verdict_label := some "Our Verdict:",
    nav_home := "Home", lang_switch := "FR", quick_answer_label := "Quick Answer",
    paths_heading := "Choose Your Path", timeline_heading := "Complete Timeline",
    col_num := "#", col_title := "Title", col_type := "Type",
    col_episodes := "Episodes", col_when := "When", col_path := "Path",
    col_verdict := "Verdict", col_watch := "Watch", faq_heading := "FAQ",
    streaming_heading := "Where to Stream", footer_text := "(c) AnimeWatchOrder",
    footer_affiliate := "Affiliate links." }

/-- The timeline entry from the end-to-end example of the specification. -/
def exItem : TimelineItem :=
  { num := "1", title := "Dragon Ball", subtitle := "Ep 1-153", type := "canon",
    episodes := "153", when := "1986", path := "Path A", verdict := "must_watch",
    recommended := true, watch_url := none, notes := some "Start here." }

def exGuide : Guide :=
  { title := "Dragon Ball", meta_title := "Dragon Ball Watch Order",
    meta_description := "The complete Dragon Ball watch order.",
    category_tag := "Shonen",
    hero := { series := "6", films := "20", hours := "600", updated := "Feb 2026" },
    intro := "Welcome.", quick_answer := "Start with Dragon Ball.",
    ui := exUi,
    timeline := [exItem],
    films := [], fillers := [],
    paths := [{ icon := "X", name := "Canon Path", subtitle := "Fastest",
                description := "Just canon.", hours := "120h",
                includes := "Includes: DB, DBZ", recommended := true }],
    faq := [{ question := "Where do I start?", answer := "Start with Dragon Ball." }],
    why_confusing := { content := "Many series." },
    dbz_vs_kai := { heading := "DBZ vs Kai", intro := "Which one?",
                    cards := [{ title := "Kai", subtitle := "Remaster",
                                stats := [{ label := "Episodes", value := "167" }],
                                recommended := true,
                                color_class := some "compare-card--kai" }],
                    verdict := "Watch Kai." },
    streaming := [{ icon := "CR", platform := "Crunchyroll",
                    available := ["Dragon Ball", "DBZ"],
                    url := "https://example.com/cr", cta := "Watch on Crunchyroll" },
                  { icon := "HU", platform := "Hulu", available := ["DBZ"],
                    url := "https://example.com/hulu", cta := "Watch on Hulu" }],
    manga := { title := "Keep Going", description := "Read the manga.",
               link_url := "https://example.com/manga", link_text := "Read Guide" },
    emoji := some "DB" }

/-! ### Page assemblers (`build.py` lines 296-558)

The long f-string of `generate_series_page` is split into four consecutive
chunks (`spParts1` … `spParts4`) purely to keep elaboration tractable; their
concatenation lists the f-string's literals and holes in source order. -/

/-- Series page, head section: doctype through `</head>`. -/
def spParts1 (lang meta_title meta_description canonical en_url fr_url
    howto_schema faq_schema : String) : List Part :=
  [Part.lit "<!DOCTYPE html>\n<html lang=\"", .hol lang,
   .lit "\">\n<head>\n  <meta charset=\"UTF-8\">\n  ", .lit GTM_HEAD,
   .lit "\n  <meta name=\"viewport\" content=\"width=device-width, initial-scale=1.0\">\n  <title>",
   .hol meta_title,
   .lit "</title>\n  <meta name=\"description\" content=\"", .hol meta_description,
   .lit "\">\n  ",
   .lit "<link rel=\"canonical\" href=\"", .hol canonical,
   .lit "\">", .lit "\n  ",
   .lit "<link rel=\"alternate\" hreflang=\"en\" href=\"", .hol en_url,
   .lit "\">", .lit "\n  ",
   .lit "<link rel=\"alternate\" hreflang=\"fr\" href=\"", .hol fr_url,
   .lit "\">", .lit "\n  ",
   .lit "<link rel=\"alternate\" hreflang=\"x-default\" href=\"", .hol en_url,
   .lit "\">", .lit "\n  <link rel=\"preconnect\" href=\"https://fonts.googleapis.com\">\n  <link rel=\"preconnect\" href=\"https://fonts.gstatic.com\" crossorigin>\n  <link href=\"https://fonts.googleapis.com/css2?family=Bebas+Neue&family=Outfit:wght@400;500;600;700&display=swap\" rel=\"stylesheet\">\n  <link rel=\"stylesheet\" href=\"/assets/css/style.css\">\n  <script type=\"application/ld+json\">\n",
   .hol howto_schema,
   .lit "\n  </script>\n  <script type=\"application/ld+json\">\n", .hol faq_schema,
   .lit "\n  </script>\n</head>\n<body>\n"]

/-- Series page, navigation and hero section. -/
def spParts2 (home_url lang_switch_url nav_home lang_switch category_tag title
    wo_label series series_label films hours hours_label updated updated_label
    intro : String) : List Part :=
  [Part.lit "  <!-- Navigation \x2d\x2d>\n  <nav class=\"nav\" aria-label=\"Main navigation\">\n    <div class=\"container nav__inner\">\n      <a href=\"",
   .hol home_url,
   .lit "\" class=\"nav__logo\">Anime<span>Watch</span>Order</a>\n      <ul class=\"nav__links\">\n        <li><a href=\"",
   .hol home_url, .lit "\">", .hol nav_home,
   .lit "</a></li>\n        <li><a href=\"", .hol lang_switch_url,
   .lit "\" class=\"nav__lang\">", .hol lang_switch,
   .lit "</a></li>\n      </ul>\n    </div>\n  </nav>\n\n  <main class=\"container\">\n    <!-- 1. Hero Section \x2d\x2d>\n    <section class=\"hero\" id=\"hero\">\n      <span class=\"hero__tag\">",
   .hol category_tag,
   .lit "</span>\n      <h1>", .hol title, .lit " ", .hol wo_label,
   .lit "</h1>\n      <div class=\"hero__meta\">\n        <div class=\"hero__meta-item\">\n          <span class=\"hero__meta-value\">",
   .hol series,
   .lit "</span>\n          <span class=\"hero__meta-label\">", .hol series_label,
   .lit "</span>\n        </div>\n        <div class=\"hero__meta-item\">\n          <span class=\"hero__meta-value\">",
   .hol films,
   .lit "</span>\n          <span class=\"hero__meta-label\">Films</span>\n        </div>\n        <div class=\"hero__meta-item\">\n          <span class=\"hero__meta-value\">",
   .hol hours,
   .lit "+</span>\n          <span class=\"hero__meta-label\">", .hol hours_label,
   .lit "</span>\n        </div>\n        <div class=\"hero__meta-item\">\n          <span class=\"hero__meta-value\">",
   .hol updated,
   .lit "</span>\n          <span class=\"hero__meta-label\">", .hol updated_label,
   .lit "</span>\n        </div>\n      </div>\n      <p class=\"hero__intro\">",
   .hol intro,
   .lit "</p>\n    </section>\n\n"]

/-- Series page, sections 2-6 (quick answer through timeline). -/
def spParts3 (quick_answer_label quick_answer why_confusing_html paths_heading
    paths_html compare_heading compare_intro compare_html timeline_heading
    col_num col_title col_type col_episodes col_when col_path col_verdict
    col_watch timeline_rows : String) : List Part :=
  [Part.lit "    <!-- 2. Quick Answer Box \x2d\x2d>\n    <section class=\"section\" id=\"quick-answer\">\n      <div class=\"quick-answer\">\n        <div class=\"quick-answer__label\">",
   .hol quick_answer_label,
   .lit "</div>\n        <p class=\"quick-answer__text\">", .hol quick_answer,
   .lit "</p>\n      </div>\n    </section>\n\n    <!-- 3. Why Dragon Ball Is Confusing \x2d\x2d>\n    <section class=\"section\" id=\"why-confusing\">\n",
   .frag why_confusing_html,
   .lit "\n    </section>\n\n    <!-- 4. Watch Paths \x2d\x2d>\n    <section class=\"section\" id=\"paths\">\n      <h2>",
   .hol paths_heading,
   .lit "</h2>\n      <div class=\"paths-grid\">\n", .frag paths_html,
   .lit "\n      </div>\n    </section>\n\n    <!-- 5. DBZ vs Kai Comparison \x2d\x2d>\n    <section class=\"section\" id=\"compare\">\n      <h2>",
   .hol compare_heading,
   .lit "</h2>\n      <p class=\"section__intro\">", .hol compare_intro,
   .lit "</p>\n", .frag compare_html,
   .lit "\n    </section>\n\n    <!-- 6. Complete Dragon Ball Timeline \x2d\x2d>\n    <section class=\"section\" id=\"timeline\">\n      <h2>",
   .hol timeline_heading,
   .lit "</h2>\n      <div class=\"table-wrapper\">\n        <table class=\"timeline-table\">\n          <thead>\n            <tr>\n              <th>",
   .hol col_num, .lit "</th>\n              <th>", .hol col_title,
   .lit "</th>\n              <th>", .hol col_type,
   .lit "</th>\n              <th>", .hol col_episodes,
   .lit "</th>\n              <th>", .hol col_when,
   .lit "</th>\n              <th>", .hol col_path,
   .lit "</th>\n              <th>", .hol col_verdict,
   .lit "</th>\n              <th>", .hol col_watch,
   .lit "</th>\n            </tr>\n          </thead>\n          <tbody>\n",
   .frag timeline_rows,
   .lit "\n          </tbody>\n        </table>\n      </div>\n    </section>\n\n"]

/-- Series page, sections 7-9 and footer. -/
def spParts4 (faq_heading faq_html streaming_heading streaming_html manga_title
    manga_description manga_link_url manga_link_text footer_text
    footer_affiliate : String) : List Part :=
  [Part.lit "    <!-- 7. FAQ Section \x2d\x2d>\n    <section class=\"section\" id=\"faq\">\n      <h2>",
   .hol faq_heading,
   .lit "</h2>\n", .frag faq_html,
   .lit "\n    </section>\n\n    <!-- 8. Streaming Platforms \x2d\x2d>\n    <section class=\"section\" id=\"streaming\">\n      <h2>",
   .hol streaming_heading,
   .lit "</h2>\n      <div class=\"streaming-grid\">\n", .frag streaming_html,
   .lit "\n      </div>\n    </section>\n\n    <!-- 9. Manga Continuation Box \x2d\x2d>\n    <section class=\"section\" id=\"manga\">\n      <div class=\"manga-box\">\n        <span class=\"manga-box__icon\">📚</span>\n        <div class=\"manga-box__title\">",
   .hol manga_title,
   .lit "</div>\n        <p class=\"manga-box__desc\">", .hol manga_description,
   .lit "</p>\n        <a href=\"", .hol manga_link_url,
   .lit "\" class=\"manga-box__link\" target=\"_blank\" rel=\"noopener noreferrer nofollow\">→ ",
   .hol manga_link_text,
   .lit "</a>\n      </div>\n    </section>\n  </main>\n\n  <!-- Footer \x2d\x2d>\n  <footer class=\"footer\">\n    <div class=\"container\">\n      <p class=\"footer__text\">",
   .hol footer_text,
   .lit "</p>\n      <p class=\"footer__affiliate\">", .hol footer_affiliate,
   .lit "</p>\n    </div>\n  </footer>\n</body>\n</html>"]

/-- The f-string of `generate_series_page`, parts in source order, with the
preamble computations of the source inlined at the corresponding holes. -/
def seriesPageParts (slug : String) (data : Guide) (lang : String) : List Part :=
  spParts1 lang data.meta_title data.meta_description
      (if lang = "en" then SITE_URL ++ "/" ++ slug ++ "/"
        else SITE_URL ++ "/fr/" ++ slug ++ "/")
      (SITE_URL ++ "/" ++ slug ++ "/") (SITE_URL ++ "/fr/" ++ slug ++ "/")
      (build_schema_json data slug lang) (build_faq_schema data)
  ++ spParts2 ((if lang = "fr" then "/fr" else "") ++ "/")
      ((if (if lang = "en" then "fr" else "en") = "fr" then "/fr" else "")
        ++ "/" ++ slug ++ "/")
      data.ui.nav_home data.ui.lang_switch data.category_tag data.title
      (if lang = "en" then "Watch Order" else "Ordre de Visionnage")
      data.hero.series (if lang = "en" then "Series" else "Séries")
      data.hero.films data.hero.hours (if lang = "en" then "Hours" else "Heures")
      data.hero.updated (if lang = "en" then "Updated" else "Mis à jour")
      data.intro
  ++ spParts3 data.ui.quick_answer_label data.quick_answer
      (build_why_confusing_html data data.ui) data.ui.paths_heading
      (build_paths_html data data.ui) data.dbz_vs_kai.heading data.dbz_vs_kai.intro
      (build_compare_html data data.ui) data.ui.timeline_heading
      data.ui.col_num data.ui.col_title data.ui.col_type data.ui.col_episodes
      data.ui.col_when data.ui.col_path data.ui.col_verdict data.ui.col_watch
      (build_timeline_rows data data.ui)
  ++ spParts4 data.ui.faq_heading (build_faq_html data) data.ui.streaming_heading
      (build_streaming_html data data.ui) data.manga.title data.manga.description
      data.manga.link_url data.manga.link_text data.ui.footer_text
      data.ui.footer_affiliate

def generate_series_page (slug : String) (data : Guide) (lang : String) : String :=
  partsStr (seriesPageParts slug data lang)

/-- One `series-card` of the homepage loop. -/
def homeCardParts (lpfx cta_text : String) (slug : String) (d : Guide) :
    List Part :=
  [Part.lit "      <a href=\"", .hol (lpfx ++ "/" ++ slug ++ "/"),
   .lit "\" class=\"series-card\">\n        <span class=\"series-card__emoji\">",
   .hol (d.emoji.getD "🎬"),
   .lit "</span>\n        <div class=\"series-card__title\">", .hol d.title,
   .lit "</div>\n        <div class=\"series-card__meta\">", .hol d.category_tag,
   .lit "</div>\n        <span class=\"series-card__cta\">", .hol cta_text,
   .lit " →</span>\n      </a>\n"]

/-- Homepage, head section. -/
def hpParts1 (lang title description canonical en_url fr_url : String) :
    List Part :=
  [Part.lit "<!DOCTYPE html>\n<html lang=\"", .hol lang,
   .lit "\">\n<head>\n  <meta charset=\"UTF-8\">\n  ", .lit GTM_HEAD,
   .lit "\n  ", .lit GOOGLE_SITE_VERIFICATION,
   .lit "\n  <meta name=\"viewport\" content=\"width=device-width, initial-scale=1.0\">\n  <title>",
   .hol title,
   .lit "</title>\n  <meta name=\"description\" content=\"", .hol description,
   .lit "\">\n  ",
   .lit "<link rel=\"canonical\" href=\"", .hol canonical,
   .lit "\">", .lit "\n  ",
   .lit "<link rel=\"alternate\" hreflang=\"en\" href=\"", .hol en_url,
   .lit "\">", .lit "\n  ",
   .lit "<link rel=\"alternate\" hreflang=\"fr\" href=\"", .hol fr_url,
   .lit "\">", .lit "\n  ",
   .lit "<link rel=\"alternate\" hreflang=\"x-default\" href=\"", .hol en_url,
   .lit "\">", .lit "\n  <link rel=\"preconnect\" href=\"https://fonts.googleapis.com\">\n  <link rel=\"preconnect\" href=\"https://fonts.gstatic.com\" crossorigin>\n  <link href=\"https://fonts.googleapis.com/css2?family=Bebas+Neue&family=Outfit:wght@400;500;600;700&display=swap\" rel=\"stylesheet\">\n  <link rel=\"stylesheet\" href=\"/assets/css/style.css\">\n</head>\n<body>\n"]

/-- Homepage, body. -/
def hpParts2 (home_url other_home nav_home other_lang_label h1_text subtitle
    cards_html : String) : List Part :=
  [Part.lit "  <!-- Navigation \x2d\x2d>\n  <nav class=\"nav\" aria-label=\"Main navigation\">\n    <div class=\"container nav__inner\">\n      <a href=\"",
   .hol home_url,
   .lit "\" class=\"nav__logo\">Anime<span>Watch</span>Order</a>\n      <ul class=\"nav__links\">\n        <li><a href=\"",
   .hol home_url, .lit "\">", .hol nav_home,
   .lit "</a></li>\n        <li><a href=\"", .hol other_home,
   .lit "\" class=\"nav__lang\">", .hol other_lang_label,
   .lit "</a></li>\n      </ul>\n    </div>\n  </nav>\n\n  <main class=\"container\">\n    <section class=\"home-hero\">\n      <h1>",
   .hol h1_text,
   .lit "</h1>\n      <p class=\"home-hero__subtitle\">", .hol subtitle,
   .lit "</p>\n      <div class=\"series-grid\">\n", .frag cards_html,
   .lit "\n      </div>\n    </section>\n  </main>\n\n  <footer class=\"footer\">\n    <div class=\"container\">\n      <p class=\"footer__text\">AnimeWatchOrder.com</p>\n    </div>\n  </footer>\n</body>\n</html>"]

/-- The f-string of `generate_homepage`, parts in source order. -/
def homepageParts (lang : String) (series_list : List (String × SeriesRaw)) :
    List Part :=
  hpParts1 lang
      (if lang = "en"
        then "AnimeWatchOrder.com — Complete Anime Watch Order Guides"
        else "AnimeWatchOrder.com — Guides d\x27Ordre de Visionnage Anime")
      (if lang = "en"
        then "Clear, structured watch order guides for the most complex anime franchises. Dragon Ball, Naruto, One Piece, and more."
        else "Des guides clairs et structurés pour les franchises anime les plus complexes. Dragon Ball, Naruto, One Piece et plus.")
      (if lang = "en" then SITE_URL ++ "/" else SITE_URL ++ "/fr/")
      (SITE_URL ++ "/") (SITE_URL ++ "/fr/")
  ++ hpParts2 ((if lang = "fr" then "/fr" else "") ++ "/")
      ((if lang = "en" then "/fr" else "") ++ "/")
      (if lang = "en" then "Home" else "Accueil")
      (if lang = "en" then "FR" else "EN")
      (if lang = "en" then "Anime Watch Order Guides"
        else "Guides d\x27Ordre de Visionnage Anime")
      (if lang = "en"
        then "Clear, structured watch order guides for the most complex anime franchises."
        else "Des guides clairs et structurés pour les franchises anime les plus complexes.")
      (joinAll (series_list.map (fun s =>
        partsStr (homeCardParts (if lang = "fr" then "/fr" else "")
          (if lang = "en" then "View Guide" else "Voir le Guide")
          s.1 (langData s.2 lang)))))

def generate_homepage (lang : String) (series_list : List (String × SeriesRaw)) :
    String :=
  partsStr (homepageParts lang series_list)


/-! ### Sitemap builder (`build.py` lines 561-605) -/

/-- The `urls` list: homepage first, then one entry per slug. -/
def urlPairs (series_slugs : List String) : List (String × String) :=
  (SITE_URL ++ "/", SITE_URL ++ "/fr/")
    :: series_slugs.map (fun slug =>
        (SITE_URL ++ "/" ++ slug ++ "/", SITE_URL ++ "/fr/" ++ slug ++ "/"))

/-- One entry of the sitemap loop: an English and a French `<url>` block. -/
def sitemapEntryParts (u : String × String) : List Part :=
  [Part.lit "  <url>\n    <loc>", .hol u.1,
   .lit "</loc>\n    ",
   .lit "<xhtml:link rel=\"alternate\" hreflang=\"en\" href=\"", .hol u.1,
   .lit "\"/>", .lit "\n    ",
   .lit "<xhtml:link rel=\"alternate\" hreflang=\"fr\" href=\"", .hol u.2,
   .lit "\"/>", .lit "\n    ",
   .lit "<xhtml:link rel=\"alternate\" hreflang=\"x-default\" href=\"", .hol u.1,
   .lit "\"/>", .lit "\n    <lastmod>2026-02-12</lastmod>\n    <changefreq>monthly</changefreq>\n    <priority>1.0</priority>\n  </url>\n  <url>\n    <loc>",
   .hol u.2,
   .lit "</loc>\n    ",
   .lit "<xhtml:link rel=\"alternate\" hreflang=\"en\" href=\"", .hol u.1,
   .lit "\"/>", .lit "\n    ",
   .lit "<xhtml:link rel=\"alternate\" hreflang=\"fr\" href=\"", .hol u.2,
   .lit "\"/>", .lit "\n    ",
   .lit "<xhtml:link rel=\"alternate\" hreflang=\"x-default\" href=\"", .hol u.1,
   .lit "\"/>", .lit "\n    <lastmod>2026-02-12</lastmod>\n    <changefreq>monthly</changefreq>\n    <priority>0.9</priority>\n  </url>"]

def generate_sitemap (series_slugs : List String) : String :=
  "<?xml version=\"1.0\" encoding=\"UTF-8\"?>\n<urlset xmlns=\"http://www.sitemaps.org/schemas/sitemap/0.9\"\n        xmlns:xhtml=\"http://www.w3.org/1999/xhtml\">\n"
    ++ joinNl ((urlPairs series_slugs).map (fun u => partsStr (sitemapEntryParts u)))
    ++ "\n</urlset>"

/-! ### Orchestrator (`build.py` lines 608-659)

`main` is modelled as the sequence of externally visible events it produces:
data loads, file writes, and the process exit.  `load_json` of a missing file
prints a diagnostic naming the path and calls `sys.exit(1)`; a successful run
ends with implicit exit code 0.  Writes carry the output path (relative to the
base directory) and the full content written. -/

inductive Ev where
  | load (slug : String)
  | errorMissing (slug : String)
  | write (path : String) (content : String)
  | exitCode (n : Nat)

def Ev.isWrite : Ev → Bool
  | .write _ _ => true
  | _ => false

/-- The two page writes per loaded series, in loop order. -/
def seriesWrites : List (String × SeriesRaw) → List Ev
  | [] => []
  | (slug, raw) :: rest =>
      Ev.write (slug ++ "/index.html") (generate_series_page slug raw.en "en")
        :: Ev.write ("fr/" ++ slug ++ "/index.html")
            (generate_series_page slug raw.fr "fr")
        :: seriesWrites rest

def homeWrites (loaded : List (String × SeriesRaw)) : List Ev :=
  [Ev.write "index.html" (generate_homepage "en" loaded),
   Ev.write "fr/index.html" (generate_homepage "fr" loaded)]

/-- The load loop of `main`: abort with exit code 1 at the first missing data
file, otherwise proceed to the generation phases. -/
def loadPhase (env : String → Option SeriesRaw) :
    List String → List (String × SeriesRaw) → List Ev
  | [], acc =>
      seriesWrites acc.reverse ++ homeWrites acc.reverse
        ++ [Ev.write "sitemap.xml" (generate_sitemap SERIES), Ev.exitCode 0]
  | slug :: rest, acc =>
      Ev.load slug ::
        match env slug with
        | none => [Ev.errorMissing slug, Ev.exitCode 1]
        | some raw => loadPhase env rest ((slug, raw) :: acc)

/-- `main`, as a function of the data directory contents. -/
def mainTrace (env : String → Option SeriesRaw) : List Ev :=
  loadPhase env SERIES []

/-! ### Counting infrastructure for the renderers -/

theorem countL_cons_ne {p : List Char} {c : Char} (hp : p.head? = some c)
    {d : Char} (hne : c ≠ d) (l : List Char) : countL p (d :: l) = countL p l := by
  have hnp : ¬ (p <+: d :: l) := by
    intro hpre
    cases p with
    | nil => simp at hp
    | cons c' p' =>
      have h1 : c' = c := by simpa using hp
      have h2 : c' = d := (List.cons_prefix_cons.mp hpre).1
      exact hne (h1 ▸ h2)
  simp [countL, if_neg hnp]

theorem noCrossL_of_suffix {p t x : List Char} (hs : t <:+ x)
    (h : tailCondB p t = true) : NoCrossL p x := by
  intro i h1 hi hsuf
  have hmem := List.all_eq_true.mp h i (List.mem_range.mpr hi)
  rcases Bool.or_eq_true _ _ |>.mp hmem with hc | hc
  · simp at hc
    omega
  · have hlen : (p.take i).length = i := by
      simp [List.length_take]
      omega
    by_cases hit : i ≤ t.length
    · rw [if_pos hit] at hc
      have hq : p.take i <:+ t := by
        rcases List.suffix_or_suffix_of_suffix hsuf hs with hq | hq
        · exact hq
        · have : t = p.take i := hq.eq_of_length_le (by omega)
          exact this ▸ List.suffix_refl t
      exact absurd (decide_eq_true hq) (by simpa using hc)
    · rw [if_neg hit] at hc
      have hq : t <:+ p.take i := by
        rcases List.suffix_or_suffix_of_suffix hsuf hs with hq | hq
        · exfalso
          have := hq.length_le
          omega
        · exact hq
      exact absurd (decide_eq_true hq) (by simpa using hc)

theorem partsStr_concat (ps : List Part) (pt : Part) :
    partsStr (ps ++ [pt]) = partsStr ps ++ pt.str := by
  rw [partsStr_append]
  show partsStr ps ++ (pt.str ++ "") = _
  rw [String.append_empty]

theorem lastLit_suffix (ps : List Part) (h : ps ≠ []) :
    (ps.getLast h).str.data <:+ (partsStr ps).data := by
  conv_rhs => rw [(List.dropLast_append_getLast h).symm, partsStr_concat,
    String.data_append]
  exact List.suffix_append _ _

theorem joinNl_getLast_suffix (l : List String) (h : l ≠ []) :
    (l.getLast h).data <:+ (joinNl l).data := by
  induction l with
  | nil => exact absurd rfl h
  | cons s rest ih =>
    cases rest with
    | nil => simp [joinNl]
    | cons s2 rest2 =>
      have hne : s2 :: rest2 ≠ [] := by simp
      have heq : (s :: s2 :: rest2).getLast h = (s2 :: rest2).getLast hne := by
        simp [List.getLast_cons]
      rw [heq]
      show _ <:+ (s ++ "\n" ++ joinNl (s2 :: rest2)).data
      have := ih hne
      rw [String.data_append]
      exact this.trans (List.suffix_append _ _)

theorem joinAll_getLast_suffix (l : List String) (h : l ≠ []) :
    (l.getLast h).data <:+ (joinAll l).data := by
  induction l with
  | nil => exact absurd rfl h
  | cons s rest ih =>
    cases rest with
    | nil =>
      show _ <:+ (s ++ joinAll []).data
      simp [joinAll]
    | cons s2 rest2 =>
      have hne : s2 :: rest2 ≠ [] := by simp
      have heq : (s :: s2 :: rest2).getLast h = (s2 :: rest2).getLast hne := by
        simp [List.getLast_cons]
      rw [heq]
      show _ <:+ (s ++ joinAll (s2 :: rest2)).data
      have := ih hne
      rw [String.data_append]
      exact this.trans (List.suffix_append _ _)

theorem countL_joinNl {p : List Char} (hp : p.head? = some '<') (l : List String)
    (h : ∀ s ∈ l, countL p s.data = 0 ∧ NoCrossL p s.data) :
    countL p (joinNl l).data = 0 := by
  induction l with
  | nil => rfl
  | cons s rest ih =>
    cases rest with
    | nil => exact (h s (List.mem_cons_self s [])).1
    | cons s2 rest2 =>
      have hs := h s (List.mem_cons_self s _)
      have hrest : ∀ x ∈ s2 :: rest2, countL p x.data = 0 ∧ NoCrossL p x.data :=
        fun x hx => h x (List.mem_cons_of_mem s hx)
      show countL p ((s ++ "\n" ++ joinNl (s2 :: rest2))).data = 0
      rw [String.data_append, String.data_append]
      rw [List.append_assoc, countL_append _ _ hs.2, hs.1]
      show 0 + countL p ('\n' :: (joinNl (s2 :: rest2)).data) = 0
      rw [countL_cons_ne hp (by decide), ih hrest]

theorem countL_joinAll {p : List Char} (_hp : p.head? = some '<') (l : List String)
    (h : ∀ s ∈ l, countL p s.data = 0 ∧ NoCrossL p s.data) :
    countL p (joinAll l).data = 0 := by
  induction l with
  | nil => rfl
  | cons s rest ih =>
    have hs := h s (List.mem_cons_self s _)
    have hrest : ∀ x ∈ rest, countL p x.data = 0 ∧ NoCrossL p x.data :=
      fun x hx => h x (List.mem_cons_of_mem s hx)
    show countL p ((s ++ joinAll rest)).data = 0
    rw [String.data_append, countL_append _ _ hs.2, hs.1, ih hrest]

/-- The literal strings of a parts list. -/
def litsOf (ps : List Part) : List String :=
  ps.filterMap fun pt => match pt with
    | .lit s => some s
    | _ => none

/-- The hole strings of a parts list. -/
def holsOf (ps : List Part) : List String :=
  ps.filterMap fun pt => match pt with
    | .hol s => some s
    | _ => none

/-- The fragment strings of a parts list. -/
def fragsOf (ps : List Part) : List String :=
  ps.filterMap fun pt => match pt with
    | .frag s => some s
    | _ => none

theorem partOk_of_split {p : List Char} (ps : List Part)
    (hlit : ∀ s ∈ litsOf ps, noCrossB p s.data = true)
    (hhol : ∀ s ∈ holsOf ps, '<' ∉ s.data)
    (hfrag : ∀ s ∈ fragsOf ps, countL p s.data = 0 ∧ NoCrossL p s.data) :
    ∀ pt ∈ ps, partOk p pt := by
  intro pt hpt
  cases pt with
  | lit s => exact hlit s (List.mem_filterMap.mpr ⟨Part.lit s, hpt, rfl⟩)
  | hol s => exact hhol s (List.mem_filterMap.mpr ⟨Part.hol s, hpt, rfl⟩)
  | frag s => exact hfrag s (List.mem_filterMap.mpr ⟨Part.frag s, hpt, rfl⟩)

/-! ### The formatter outputs contain no `<` -/

theorem badge_class_no_lt (k : String) : '<' ∉ (badge_class k).data := by
  unfold badge_class
  split_ifs <;> decide

theorem verdict_class_no_lt (k : String) : '<' ∉ (verdict_class k).data := by
  unfold verdict_class
  split_ifs <;> decide

theorem verdict_label_no_lt {k : String} (ui : Ui) (hk : '<' ∉ k.data)
    (h1 : '<' ∉ ui.must_watch.data) (h2 : '<' ∉ ui.watchable.data)
    (h3 : '<' ∉ ui.skip.data) : '<' ∉ (verdict_label k ui).data := by
  unfold verdict_label
  split_ifs <;> assumption

theorem type_label_no_lt {k : String} (ui : Ui) (hk : '<' ∉ k.data)
    (h1 : '<' ∉ ui.canon.data) (h2 : '<' ∉ ui.mixed.data)
    (h3 : '<' ∉ ui.film_canon.data) (h4 : '<' ∉ ui.non_canon.data)
    (h5 : '<' ∉ (ui.filler.getD "Filler").data) :
    '<' ∉ (type_label k ui).data := by
  unfold type_label
  split_ifs <;> assumption

theorem streamCtaClass_no_lt (i : Nat) : '<' ∉ (streamCtaClass i).data := by
  unfold streamCtaClass
  split_ifs <;> decide

/-! ### Cleanliness of the data: no `<` in any interpolated field -/

def ItemClean (it : TimelineItem) : Prop :=
  '<' ∉ it.num.data ∧ '<' ∉ it.title.data ∧ '<' ∉ it.subtitle.data
    ∧ '<' ∉ it.type.data ∧ '<' ∉ it.episodes.data ∧ '<' ∉ it.when.data
    ∧ '<' ∉ it.path.data ∧ '<' ∉ it.verdict.data
    ∧ '<' ∉ (it.watch_url.getD "#").data ∧ '<' ∉ (it.notes.getD "").data

def UiClean (ui : Ui) : Prop :=
  '<' ∉ ui.must_watch.data ∧ '<' ∉ ui.watchable.data ∧ '<' ∉ ui.skip.data
    ∧ '<' ∉ ui.canon.data ∧ '<' ∉ ui.mixed.data ∧ '<' ∉ ui.film_canon.data
    ∧ '<' ∉ ui.non_canon.data ∧ '<' ∉ (ui.filler.getD "Filler").data
    ∧ '<' ∉ ui.recommended_label.data ∧ '<' ∉ ui.yes.data ∧ '<' ∉ ui.no.data
    ∧ '<' ∉ ui.why_confusing_label.data
    ∧ '<' ∉ (ui.compare_verdict_label.getD "Our Verdict").data
    ∧ '<' ∉ ui.nav_home.data ∧ '<' ∉ ui.lang_switch.data
    ∧ '<' ∉ ui.quick_answer_label.data ∧ '<' ∉ ui.paths_heading.data
    ∧ '<' ∉ ui.timeline_heading.data ∧ '<' ∉ ui.col_num.data
    ∧ '<' ∉ ui.col_title.data ∧ '<' ∉ ui.col_type.data
    ∧ '<' ∉ ui.col_episodes.data ∧ '<' ∉ ui.col_when.data
    ∧ '<' ∉ ui.col_path.data ∧ '<' ∉ ui.col_verdict.data
    ∧ '<' ∉ ui.col_watch.data ∧ '<' ∉ ui.faq_heading.data
    ∧ '<' ∉ ui.streaming_heading.data ∧ '<' ∉ ui.footer_text.data
    ∧ '<' ∉ ui.footer_affiliate.data

def PathClean (pc : PathCard) : Prop :=
  '<' ∉ pc.icon.data ∧ '<' ∉ pc.name.data ∧ '<' ∉ pc.subtitle.data
    ∧ '<' ∉ pc.description.data ∧ '<' ∉ pc.hours.data ∧ '<' ∉ pc.includes.data

def FaqClean (f : FaqItem) : Prop :=
  '<' ∉ f.question.data ∧ '<' ∉ f.answer.data

def StatClean (st : CompareStat) : Prop :=
  '<' ∉ st.label.data ∧ '<' ∉ st.value.data

def CardClean (c : CompareCard) : Prop :=
  '<' ∉ c.title.data ∧ '<' ∉ c.subtitle.data
    ∧ '<' ∉ (c.color_class.getD "").data ∧ ∀ st ∈ c.stats, StatClean st

def StreamClean (s : StreamingCard) : Prop :=
  '<' ∉ s.icon.data ∧ '<' ∉ s.platform.data ∧ '<' ∉ s.url.data
    ∧ '<' ∉ s.cta.data ∧ ∀ a ∈ s.available, '<' ∉ a.data

def GuideClean (g : Guide) : Prop :=
  '<' ∉ g.title.data ∧ '<' ∉ g.meta_title.data ∧ '<' ∉ g.meta_description.data
    ∧ '<' ∉ g.category_tag.data ∧ '<' ∉ g.hero.series.data
    ∧ '<' ∉ g.hero.films.data ∧ '<' ∉ g.hero.hours.data
    ∧ '<' ∉ g.hero.updated.data ∧ '<' ∉ g.intro.data ∧ '<' ∉ g.quick_answer.data
    ∧ UiClean g.ui ∧ (∀ it ∈ g.timeline, ItemClean it)
    ∧ (∀ pc ∈ g.paths, PathClean pc) ∧ (∀ f ∈ g.faq, FaqClean f)
    ∧ '<' ∉ g.why_confusing.content.data ∧ '<' ∉ g.dbz_vs_kai.heading.data
    ∧ '<' ∉ g.dbz_vs_kai.intro.data ∧ '<' ∉ g.dbz_vs_kai.verdict.data
    ∧ (∀ c ∈ g.dbz_vs_kai.cards, CardClean c)
    ∧ (∀ s ∈ g.streaming, StreamClean s)
    ∧ '<' ∉ g.manga.title.data ∧ '<' ∉ g.manga.description.data
    ∧ '<' ∉ g.manga.link_url.data ∧ '<' ∉ g.manga.link_text.data
    ∧ '<' ∉ (g.emoji.getD "🎬").data

/-! ### Per-fragment counting lemmas

For a pattern `p` starting with `<`, each renderer's output contains as many
occurrences of `p` as its template literals do (zero, for the patterns of
interest) provided the interpolated data is `<`-free; and no proper prefix of
`p` is a suffix of the output. -/

/-- All template literals of a timeline row (both branches). -/
def rowLits : List String :=
  ["        <tr", " class=\"row--recommended\"",
   ">\n          <td class=\"col-num\">", "</td>\n          <td class=\"col-title\">",
   " <span class=\"tag-recommended\">", "</span>", "<small>",
   "</small></td>\n          <td><span class=\"badge ", "\">",
   "</span></td>\n          <td>", "</td>\n          <td>",
   "</td>\n          <td><span class=\"verdict ",
   "</span></td>\n          <td><a href=\"",
   "\" class=\"stream-link\" rel=\"nofollow noopener\" target=\"_blank\">CR</a></td>\n        </tr>"]

def rowTail : String :=
  "\" class=\"stream-link\" rel=\"nofollow noopener\" target=\"_blank\">CR</a></td>\n        </tr>"

def rowChecksB (p : List Char) : Bool :=
  rowLits.all (fun s => noCrossB p s.data && (countL p s.data == 0))
    && tailCondB p rowTail.data

theorem partsStr_tail_suffix (ps : List Part) (t : String)
    (h : ps.getLast? = some (Part.lit t)) : t.data <:+ (partsStr ps).data := by
  have hne : ps ≠ [] := by
    intro heq
    rw [heq] at h
    simp at h
  have hs := lastLit_suffix ps hne
  rw [List.getLast?_eq_getLast ps hne] at h
  have ht : ps.getLast hne = Part.lit t := by
    exact Option.some_injective _ h
  rw [ht] at hs
  exact hs

theorem timelineRow_facts {p : List Char} (hp : p.head? = some '<')
    (hB : rowChecksB p = true) (ui : Ui) (hu : UiClean ui)
    (item : TimelineItem) (hi : ItemClean item) :
    countL p (partsStr (timelineRowParts item ui)).data = 0
      ∧ NoCrossL p (partsStr (timelineRowParts item ui)).data := by
  have hBparts := Bool.and_eq_true _ _ |>.mp hB
  have hall : ∀ s ∈ rowLits, noCrossB p s.data = true ∧ countL p s.data = 0 := by
    intro s hs
    have hx := List.all_eq_true.mp hBparts.1 s hs
    rcases Bool.and_eq_true _ _ |>.mp hx with ⟨ha, hb⟩
    exact ⟨ha, by simpa using hb⟩
  have htail : tailCondB p rowTail.data = true := hBparts.2
  obtain ⟨hn, ht, hsub, hty, hep, hw, hpa, hv, hwu, hno⟩ := hi
  obtain ⟨hu1, hu2, hu3, hu4, hu5, hu6, hu7, hu8, hu9, hurest⟩ := hu
  have hOk2 : ∀ pt ∈ timelineRowParts item ui, partOk p pt ∧ litCount p pt = 0 := by
    intro pt hpt
    cases hrec : item.recommended <;>
      simp only [timelineRowParts, recClassParts, recTagParts, hrec, if_true,
        if_false, Bool.false_eq_true, List.cons_append, List.nil_append,
        List.append_nil, List.mem_cons, List.not_mem_nil, or_false] at hpt <;>
      rcases hpt with rfl | rfl | rfl | rfl | rfl | rfl | rfl | rfl | rfl | rfl
        | rfl | rfl | rfl | rfl | rfl | rfl | rfl | rfl | rfl | rfl | rfl | rfl
        | rfl | rfl | rfl | rfl | rfl | rfl <;>
      first
        | exact ⟨(hall _ (by decide)).1, (hall _ (by decide)).2⟩
        | (refine ⟨?_, rfl⟩
           show '<' ∉ _
           first
            | assumption
            | exact badge_class_no_lt _
            | exact verdict_class_no_lt _
            | exact type_label_no_lt ui hty hu4 hu5 hu6 hu7 hu8
            | exact verdict_label_no_lt ui hv hu1 hu2 hu3)
  have hcount := countL_partsStr hp _ (fun pt hpt => (hOk2 pt hpt).1)
  have hsum : ((timelineRowParts item ui).map (litCount p)).sum = 0 := by
    apply List.sum_eq_zero
    intro x hx
    rcases List.mem_map.mp hx with ⟨pt, hpt, rfl⟩
    exact (hOk2 pt hpt).2
  refine ⟨by rw [hcount, hsum], ?_⟩
  have hsuffix : rowTail.data <:+ (partsStr (timelineRowParts item ui)).data := by
    apply partsStr_tail_suffix
    cases hrec : item.recommended <;>
      simp [timelineRowParts, recClassParts, recTagParts, hrec, rowTail]
  exact noCrossL_of_suffix hsuffix htail

theorem noCrossL_nil (p : List Char) : NoCrossL p [] := by
  intro i h1 hi hsuf
  have hnil : p.take i = [] := List.suffix_nil.mp hsuf
  rcases List.take_eq_nil_iff.mp hnil with h0 | h0
  · omega
  · rw [h0] at hi
    simp at hi

theorem joinNl_facts {p : List Char} (hp : p.head? = some '<') (tail : String)
    (htail : tailCondB p tail.data = true) (l : List String)
    (h : ∀ s ∈ l, countL p s.data = 0 ∧ NoCrossL p s.data)
    (hsuf : ∀ s ∈ l, tail.data <:+ s.data) :
    countL p (joinNl l).data = 0 ∧ NoCrossL p (joinNl l).data := by
  refine ⟨countL_joinNl hp l h, ?_⟩
  by_cases hne : l = []
  · subst hne
    exact noCrossL_nil p
  · have h1 := joinNl_getLast_suffix l hne
    have h2 := hsuf _ (List.getLast_mem hne)
    exact noCrossL_of_suffix (h2.trans h1) htail

theorem joinAll_facts {p : List Char} (hp : p.head? = some '<') (tail : String)
    (htail : tailCondB p tail.data = true) (l : List String)
    (h : ∀ s ∈ l, countL p s.data = 0 ∧ NoCrossL p s.data)
    (hsuf : ∀ s ∈ l, tail.data <:+ s.data) :
    countL p (joinAll l).data = 0 ∧ NoCrossL p (joinAll l).data := by
  refine ⟨countL_joinAll hp l h, ?_⟩
  by_cases hne : l = []
  · subst hne
    exact noCrossL_nil p
  · have h1 := joinAll_getLast_suffix l hne
    have h2 := hsuf _ (List.getLast_mem hne)
    exact noCrossL_of_suffix (h2.trans h1) htail

theorem timelineRow_tail_suffix (item : TimelineItem) (ui : Ui) :
    rowTail.data <:+ (partsStr (timelineRowParts item ui)).data := by
  apply partsStr_tail_suffix
  cases hrec : item.recommended <;>
    simp [timelineRowParts, recClassParts, recTagParts, hrec, rowTail]

theorem timelineRows_facts {p : List Char} (hp : p.head? = some '<')
    (hB : rowChecksB p = true) (data : Guide) (ui : Ui) (hu : UiClean ui)
    (hts : ∀ it ∈ data.timeline, ItemClean it) :
    countL p (build_timeline_rows data ui).data = 0
      ∧ NoCrossL p (build_timeline_rows data ui).data := by
  have htail : tailCondB p rowTail.data = true :=
    (Bool.and_eq_true _ _ |>.mp hB).2
  apply joinNl_facts hp rowTail htail
  · intro s hs
    rcases List.mem_map.mp hs with ⟨item, hit, rfl⟩
    exact timelineRow_facts hp hB ui hu item (hts item hit)
  · intro s hs
    rcases List.mem_map.mp hs with ⟨item, hit, rfl⟩
    exact timelineRow_tail_suffix item ui

/-! ### Per-fragment literal checks, shared form -/

/-- Bundled boolean check: every listed template literal neither contains the
pattern nor ends in a proper prefix of it. -/
def checkLits (p : List Char) (lits : List String) : Bool :=
  lits.all (fun s => noCrossB p s.data && (countL p s.data == 0))

theorem checkLits_all {p : List Char} {lits : List String}
    (h : checkLits p lits = true) :
    ∀ s ∈ lits, noCrossB p s.data = true ∧ countL p s.data = 0 := by
  intro s hs
  have hx := List.all_eq_true.mp h s hs
  rcases Bool.and_eq_true _ _ |>.mp hx with ⟨ha, hb⟩
  exact ⟨ha, by simpa using hb⟩

/-! ### Infix and additive counting helpers -/

theorem partsStr_infix_split (a mid b : List Part) :
    (partsStr mid).data <:+: (partsStr (a ++ (mid ++ b))).data := by
  rw [partsStr_append, partsStr_append]
  refine ⟨(partsStr a).data, (partsStr b).data, ?_⟩
  simp [String.data_append, List.append_assoc]

theorem infix_of_part_mem {pt : Part} {ps : List Part} (h : pt ∈ ps) :
    pt.str.data <:+: (partsStr ps).data := by
  induction ps with
  | nil => simp at h
  | cons q t ih =>
    rw [partsStr_cons, String.data_append]
    rcases List.mem_cons.mp h with rfl | h2
    · exact (List.prefix_append _ _).isInfix
    · exact (ih h2).trans (List.suffix_append _ _).isInfix

theorem joinNl_data_cons (s y : String) (r : List String) :
    (joinNl (s :: y :: r)).data = s.data ++ ("\n".data ++ (joinNl (y :: r)).data) := by
  show ((s ++ "\n") ++ joinNl (y :: r)).data = _
  simp [String.data_append, List.append_assoc]

theorem joinNl_mem_occurs {s : String} {l : List String} (h : s ∈ l) :
    s.data <:+: (joinNl l).data := by
  induction l with
  | nil => simp at h
  | cons x rest ih =>
    rcases List.mem_cons.mp h with rfl | h2
    · cases rest with
      | nil => exact List.infix_refl _
      | cons y r =>
        rw [joinNl_data_cons]
        exact (List.prefix_append _ _).isInfix
    · cases rest with
      | nil => simp at h2
      | cons y r =>
        rw [joinNl_data_cons]
        exact (ih h2).trans
          (((List.suffix_append _ _).trans (List.suffix_append _ _)).isInfix)

theorem countL_joinNl_sum {p : List Char} (hp : p.head? = some '<')
    (l : List String) (h : ∀ s ∈ l, NoCrossL p s.data) :
    countL p (joinNl l).data = (l.map (fun s => countL p s.data)).sum := by
  induction l with
  | nil => rfl
  | cons s rest ih =>
    cases rest with
    | nil => simp [joinNl]
    | cons y r =>
      have hs := h s (List.mem_cons_self s _)
      have hrest : ∀ x ∈ y :: r, NoCrossL p x.data :=
        fun x hx => h x (List.mem_cons_of_mem s hx)
      rw [joinNl_data_cons, countL_append _ _ hs]
      have hnl : "\n".data = ['\n'] := rfl
      rw [hnl, List.singleton_append, countL_cons_ne hp (by decide) _, ih hrest]
      simp

theorem sum_map_const {α : Type} (l : List α) (f : α → Nat) (k : Nat)
    (h : ∀ x ∈ l, f x = k) : (l.map f).sum = l.length * k := by
  induction l with
  | nil => simp
  | cons x t ih =>
    have hx := h x (List.mem_cons_self x t)
    have ht : ∀ y ∈ t, f y = k := fun y hy => h y (List.mem_cons_of_mem x hy)
    simp only [List.map_cons, List.sum_cons, List.length_cons, hx, ih ht,
      Nat.succ_mul]
    omega

theorem append_no_lt {a b : String} (ha : '<' ∉ a.data) (hb : '<' ∉ b.data) :
    '<' ∉ (a ++ b).data := by
  rw [String.data_append]
  intro hm
  rcases List.mem_append.mp hm with hm | hm
  · exact ha hm
  · exact hb hm

theorem ite_no_lt {c : Prop} [Decidable c] {a b : String} (ha : '<' ∉ a.data)
    (hb : '<' ∉ b.data) : '<' ∉ (if c then a else b).data := by
  split_ifs <;> assumption

theorem sandwich_occurs {A B : String} (v : String) {pre suf : List Char}
    (hA : pre <:+ A.data) (hB : suf <+: B.data) (x w y : List Char)
    (hx : x = w ++ (A.data ++ (v.data ++ (B.data ++ y)))) :
    (pre ++ v.data ++ suf) <:+: x := by
  obtain ⟨a0, ha⟩ := hA
  obtain ⟨b0, hb⟩ := hB
  refine ⟨w ++ a0, b0 ++ y, ?_⟩
  rw [hx, ← ha, ← hb]
  simp [List.append_assoc]

/-! ### Path-card fragment facts -/

def pathLits : List String :=
  ["      <div class=\"path-card", " path-card--recommended", "\">\n        ",
   "<span class=\"path-card__badge\">", "</span>",
   "\n        <span class=\"path-card__icon\">",
   "</span>\n        <div class=\"path-card__name\">",
   "</div>\n        <div class=\"path-card__subtitle\">",
   "</div>\n        <p class=\"path-card__desc\">",
   "</p>\n        <div class=\"path-card__meta\">\n          <span class=\"path-card__hours\">",
   "</span>\n          ", "\n        </div>\n      </div>"]

def pathTail : String := "\n        </div>\n      </div>"

def pathChecksB (p : List Char) : Bool :=
  checkLits p pathLits && tailCondB p pathTail.data

theorem pathCard_facts {p : List Char} (hp : p.head? = some '<')
    (hB : pathChecksB p = true) (ui : Ui) (hu : UiClean ui)
    (path : PathCard) (hc : PathClean path) :
    countL p (partsStr (pathCardParts path ui)).data = 0
      ∧ NoCrossL p (partsStr (pathCardParts path ui)).data := by
  have hBparts := Bool.and_eq_true _ _ |>.mp hB
  have hall := checkLits_all hBparts.1
  have htail : tailCondB p pathTail.data = true := hBparts.2
  obtain ⟨hci, hcn, hcs, hcd, hch, hcinc⟩ := hc
  obtain ⟨hu1, hu2, hu3, hu4, hu5, hu6, hu7, hu8, hu9, hurest⟩ := hu
  have hOk2 : ∀ pt ∈ pathCardParts path ui, partOk p pt ∧ litCount p pt = 0 := by
    intro pt hpt
    cases hrec : path.recommended <;>
      simp only [pathCardParts, pathRecClassParts, pathBadgeParts, hrec, if_true,
        if_false, Bool.false_eq_true, List.cons_append, List.nil_append,
        List.append_nil, List.mem_cons, List.not_mem_nil, or_false] at hpt
    · rcases hpt with rfl | rfl | rfl | rfl | rfl | rfl | rfl | rfl | rfl | rfl
        | rfl | rfl | rfl | rfl | rfl <;>
      first
        | exact ⟨(hall _ (by decide)).1, (hall _ (by decide)).2⟩
        | (refine ⟨?_, rfl⟩
           show '<' ∉ _
           assumption)
    · rcases hpt with rfl | rfl | rfl | rfl | rfl | rfl | rfl | rfl | rfl | rfl
        | rfl | rfl | rfl | rfl | rfl | rfl | rfl | rfl | rfl <;>
      first
        | exact ⟨(hall _ (by decide)).1, (hall _ (by decide)).2⟩
        | (refine ⟨?_, rfl⟩
           show '<' ∉ _
           assumption)
  have hcount := countL_partsStr hp _ (fun pt hpt => (hOk2 pt hpt).1)
  have hsum : ((pathCardParts path ui).map (litCount p)).sum = 0 := by
    apply List.sum_eq_zero
    intro x hx
    rcases List.mem_map.mp hx with ⟨pt, hpt, rfl⟩
    exact (hOk2 pt hpt).2
  refine ⟨by rw [hcount, hsum], ?_⟩
  have hsuffix : pathTail.data <:+ (partsStr (pathCardParts path ui)).data := by
    apply partsStr_tail_suffix
    cases hrec : path.recommended <;>
      simp [pathCardParts, pathRecClassParts, pathBadgeParts, hrec, pathTail]
  exact noCrossL_of_suffix hsuffix htail

theorem pathCard_tail (path : PathCard) (ui : Ui) :
    pathTail.data <:+ (partsStr (pathCardParts path ui)).data := by
  apply partsStr_tail_suffix
  cases hrec : path.recommended <;>
    simp [pathCardParts, pathRecClassParts, pathBadgeParts, hrec, pathTail]

theorem paths_html_facts {p : List Char} (hp : p.head? = some '<')
    (hB : pathChecksB p = true) (data : Guide) (ui : Ui) (hu : UiClean ui)
    (hps : ∀ pc ∈ data.paths, PathClean pc) :
    countL p (build_paths_html data ui).data = 0
      ∧ NoCrossL p (build_paths_html data ui).data := by
  have htail : tailCondB p pathTail.data = true :=
    (Bool.and_eq_true _ _ |>.mp hB).2
  apply joinNl_facts hp pathTail htail
  · intro s hs
    rcases List.mem_map.mp hs with ⟨pc, hpc, rfl⟩
    exact pathCard_facts hp hB ui hu pc (hps pc hpc)
  · intro s hs
    rcases List.mem_map.mp hs with ⟨pc, hpc, rfl⟩
    exact pathCard_tail pc ui

/-! ### FAQ and info-box fragment facts -/

def faqLits : List String :=
  ["      <div class=\"faq-item\">\n        <h3>", "</h3>\n        <p>",
   "</p>\n      </div>"]

def faqTail : String := "</p>\n      </div>"

def faqChecksB (p : List Char) : Bool :=
  checkLits p faqLits && tailCondB p faqTail.data

theorem faqItem_facts {p : List Char} (hp : p.head? = some '<')
    (hB : faqChecksB p = true) (faq : FaqItem) (hc : FaqClean faq) :
    countL p (partsStr (faqItemParts faq)).data = 0
      ∧ NoCrossL p (partsStr (faqItemParts faq)).data := by
  have hBparts := Bool.and_eq_true _ _ |>.mp hB
  have hall := checkLits_all hBparts.1
  obtain ⟨hcq, hca⟩ := hc
  have hOk2 : ∀ pt ∈ faqItemParts faq, partOk p pt ∧ litCount p pt = 0 := by
    intro pt hpt
    simp only [faqItemParts, List.mem_cons, List.not_mem_nil, or_false] at hpt
    rcases hpt with rfl | rfl | rfl | rfl | rfl <;>
    first
      | exact ⟨(hall _ (by decide)).1, (hall _ (by decide)).2⟩
      | (refine ⟨?_, rfl⟩
         show '<' ∉ _
         assumption)
  have hcount := countL_partsStr hp _ (fun pt hpt => (hOk2 pt hpt).1)
  have hsum : ((faqItemParts faq).map (litCount p)).sum = 0 := by
    apply List.sum_eq_zero
    intro x hx
    rcases List.mem_map.mp hx with ⟨pt, hpt, rfl⟩
    exact (hOk2 pt hpt).2
  refine ⟨by rw [hcount, hsum], ?_⟩
  have hsuffix : faqTail.data <:+ (partsStr (faqItemParts faq)).data := by
    apply partsStr_tail_suffix
    simp [faqItemParts, faqTail]
  exact noCrossL_of_suffix hsuffix hBparts.2

theorem faqItem_tail (faq : FaqItem) :
    faqTail.data <:+ (partsStr (faqItemParts faq)).data := by
  apply partsStr_tail_suffix
  simp [faqItemParts, faqTail]

theorem faq_html_facts {p : List Char} (hp : p.head? = some '<')
    (hB : faqChecksB p = true) (data : Guide)
    (hfs : ∀ f ∈ data.faq, FaqClean f) :
    countL p (build_faq_html data).data = 0
      ∧ NoCrossL p (build_faq_html data).data := by
  have htail : tailCondB p faqTail.data = true :=
    (Bool.and_eq_true _ _ |>.mp hB).2
  apply joinNl_facts hp faqTail htail
  · intro s hs
    rcases List.mem_map.mp hs with ⟨f, hf, rfl⟩
    exact faqItem_facts hp hB f (hfs f hf)
  · intro s hs
    rcases List.mem_map.mp hs with ⟨f, hf, rfl⟩
    exact faqItem_tail f

def whyLits : List String :=
  ["      <div class=\"info-box\">\n        <div class=\"info-box__label\">",
   "</div>\n        <div class=\"info-box__text\">", "</div>\n      </div>"]

def whyTail : String := "</div>\n      </div>"

def whyChecksB (p : List Char) : Bool :=
  checkLits p whyLits && tailCondB p whyTail.data

theorem why_html_facts {p : List Char} (hp : p.head? = some '<')
    (hB : whyChecksB p = true) (data : Guide) (ui : Ui)
    (hl : '<' ∉ ui.why_confusing_label.data)
    (hc : '<' ∉ data.why_confusing.content.data) :
    countL p (build_why_confusing_html data ui).data = 0
      ∧ NoCrossL p (build_why_confusing_html data ui).data := by
  have hBparts := Bool.and_eq_true _ _ |>.mp hB
  have hall := checkLits_all hBparts.1
  have hOk2 : ∀ pt ∈ whyConfusingParts data ui, partOk p pt ∧ litCount p pt = 0 := by
    intro pt hpt
    simp only [whyConfusingParts, List.mem_cons, List.not_mem_nil, or_false] at hpt
    rcases hpt with rfl | rfl | rfl | rfl | rfl <;>
    first
      | exact ⟨(hall _ (by decide)).1, (hall _ (by decide)).2⟩
      | (refine ⟨?_, rfl⟩
         show '<' ∉ _
         assumption)
  have hcount := countL_partsStr hp _ (fun pt hpt => (hOk2 pt hpt).1)
  have hsum : ((whyConfusingParts data ui).map (litCount p)).sum = 0 := by
    apply List.sum_eq_zero
    intro x hx
    rcases List.mem_map.mp hx with ⟨pt, hpt, rfl⟩
    exact (hOk2 pt hpt).2
  refine ⟨by rw [show build_why_confusing_html data ui
      = partsStr (whyConfusingParts data ui) from rfl, hcount, hsum], ?_⟩
  have hsuffix : whyTail.data <:+ (partsStr (whyConfusingParts data ui)).data := by
    apply partsStr_tail_suffix
    simp [whyConfusingParts, whyTail]
  exact noCrossL_of_suffix hsuffix hBparts.2

/-! ### Comparison-section fragment facts -/

def statLits : List String :=
  ["          <div class=\"compare-card__stat\">\n            <span class=\"compare-card__label\">",
   "</span>\n            <span class=\"compare-card__value\">",
   "</span>\n          </div>\n"]

def statTail : String := "</span>\n          </div>\n"

def cmpCardLits : List String :=
  ["      <div class=\"compare-card ", "\">\n        ",
   "<span class=\"winner-tag\">", "</span>",
   "\n        <div class=\"compare-card__title\">",
   "</div>\n        <div class=\"compare-card__subtitle\">", "</div>\n",
   "      </div>"]

def cmpCardTail : String := "      </div>"

def cmpHtmlLits : List String :=
  ["      <div class=\"compare-grid\">\n", "\n      </div>\n",
   "      <div class=\"verdict-box\">\n        <div class=\"verdict-box__label\">",
   "</div>\n        <p class=\"verdict-box__text\">", "</p>\n      </div>"]

def cmpHtmlTail : String := "</p>\n      </div>"

def cmpChecksB (p : List Char) : Bool :=
  ((checkLits p statLits && tailCondB p statTail.data)
    && (checkLits p cmpCardLits && tailCondB p cmpCardTail.data))
    && (checkLits p cmpHtmlLits && tailCondB p cmpHtmlTail.data)

theorem compareStat_facts {p : List Char} (hp : p.head? = some '<')
    (hL : checkLits p statLits = true) (hT : tailCondB p statTail.data = true)
    (stat : CompareStat) (hc : StatClean stat) :
    countL p (partsStr (compareStatParts stat)).data = 0
      ∧ NoCrossL p (partsStr (compareStatParts stat)).data := by
  have hall := checkLits_all hL
  obtain ⟨hcl, hcv⟩ := hc
  have hOk2 : ∀ pt ∈ compareStatParts stat, partOk p pt ∧ litCount p pt = 0 := by
    intro pt hpt
    simp only [compareStatParts, List.mem_cons, List.not_mem_nil, or_false] at hpt
    rcases hpt with rfl | rfl | rfl | rfl | rfl <;>
    first
      | exact ⟨(hall _ (by decide)).1, (hall _ (by decide)).2⟩
      | (refine ⟨?_, rfl⟩
         show '<' ∉ _
         assumption)
  have hcount := countL_partsStr hp _ (fun pt hpt => (hOk2 pt hpt).1)
  have hsum : ((compareStatParts stat).map (litCount p)).sum = 0 := by
    apply List.sum_eq_zero
    intro x hx
    rcases List.mem_map.mp hx with ⟨pt, hpt, rfl⟩
    exact (hOk2 pt hpt).2
  refine ⟨by rw [hcount, hsum], ?_⟩
  have hsuffix : statTail.data <:+ (partsStr (compareStatParts stat)).data := by
    apply partsStr_tail_suffix
    simp [compareStatParts, statTail]
  exact noCrossL_of_suffix hsuffix hT

theorem compareStat_tail (stat : CompareStat) :
    statTail.data <:+ (partsStr (compareStatParts stat)).data := by
  apply partsStr_tail_suffix
  simp [compareStatParts, statTail]

theorem compareStats_facts {p : List Char} (hp : p.head? = some '<')
    (hL : checkLits p statLits = true) (hT : tailCondB p statTail.data = true)
    (stats : List CompareStat) (hc : ∀ st ∈ stats, StatClean st) :
    countL p (compareStatsHtml stats).data = 0
      ∧ NoCrossL p (compareStatsHtml stats).data := by
  apply joinAll_facts hp statTail hT
  · intro s hs
    rcases List.mem_map.mp hs with ⟨st, hst, rfl⟩
    exact compareStat_facts hp hL hT st (hc st hst)
  · intro s hs
    rcases List.mem_map.mp hs with ⟨st, hst, rfl⟩
    exact compareStat_tail st

theorem compareCard_facts {p : List Char} (hp : p.head? = some '<')
    (hB : cmpChecksB p = true) (ui : Ui) (hu : UiClean ui)
    (card : CompareCard) (hc : CardClean card) :
    countL p (partsStr (compareCardParts card ui)).data = 0
      ∧ NoCrossL p (partsStr (compareCardParts card ui)).data := by
  have hB1 := Bool.and_eq_true _ _ |>.mp hB
  have hB2 := Bool.and_eq_true _ _ |>.mp hB1.1
  have hStat := Bool.and_eq_true _ _ |>.mp hB2.1
  have hCard := Bool.and_eq_true _ _ |>.mp hB2.2
  have hall := checkLits_all hCard.1
  obtain ⟨hct, hcs, hcc, hcstats⟩ := hc
  obtain ⟨hu1, hu2, hu3, hu4, hu5, hu6, hu7, hu8, hu9, hurest⟩ := hu
  have hstats := compareStats_facts hp hStat.1 hStat.2 card.stats hcstats
  have hOk2 : ∀ pt ∈ compareCardParts card ui, partOk p pt ∧ litCount p pt = 0 := by
    intro pt hpt
    cases hrec : card.recommended <;>
      simp only [compareCardParts, compareBadgeParts, hrec, if_true,
        if_false, Bool.false_eq_true, List.cons_append, List.nil_append,
        List.append_nil, List.mem_cons, List.not_mem_nil, or_false] at hpt
    · rcases hpt with rfl | rfl | rfl | rfl | rfl | rfl | rfl | rfl | rfl | rfl <;>
      first
        | exact ⟨(hall _ (by decide)).1, (hall _ (by decide)).2⟩
        | exact ⟨hstats, rfl⟩
        | (refine ⟨?_, rfl⟩
           show '<' ∉ _
           assumption)
    · rcases hpt with rfl | rfl | rfl | rfl | rfl | rfl | rfl | rfl | rfl | rfl
        | rfl | rfl | rfl <;>
      first
        | exact ⟨(hall _ (by decide)).1, (hall _ (by decide)).2⟩
        | exact ⟨hstats, rfl⟩
        | (refine ⟨?_, rfl⟩
           show '<' ∉ _
           assumption)
  have hcount := countL_partsStr hp _ (fun pt hpt => (hOk2 pt hpt).1)
  have hsum : ((compareCardParts card ui).map (litCount p)).sum = 0 := by
    apply List.sum_eq_zero
    intro x hx
    rcases List.mem_map.mp hx with ⟨pt, hpt, rfl⟩
    exact (hOk2 pt hpt).2
  refine ⟨by rw [hcount, hsum], ?_⟩
  have hsuffix : cmpCardTail.data <:+ (partsStr (compareCardParts card ui)).data := by
    apply partsStr_tail_suffix
    cases hrec : card.recommended <;>
      simp [compareCardParts, compareBadgeParts, hrec, cmpCardTail]
  exact noCrossL_of_suffix hsuffix hCard.2

theorem compareCard_tail (card : CompareCard) (ui : Ui) :
    cmpCardTail.data <:+ (partsStr (compareCardParts card ui)).data := by
  apply partsStr_tail_suffix
  cases hrec : card.recommended <;>
    simp [compareCardParts, compareBadgeParts, hrec, cmpCardTail]

/-- `build_compare_html` written as one parts list; the grid, separator and
verdict box concatenation of the source, re-associated. -/
def compareHtmlParts (data : Guide) (ui : Ui) : List Part :=
  [Part.lit "      <div class=\"compare-grid\">\n",
   .frag (joinNl (data.dbz_vs_kai.cards.map
     (fun card => partsStr (compareCardParts card ui)))),
   .lit "\n      </div>\n",
   .lit "      <div class=\"verdict-box\">\n        <div class=\"verdict-box__label\">",
   .hol (ui.compare_verdict_label.getD "Our Verdict"),
   .lit "</div>\n        <p class=\"verdict-box__text\">",
   .hol data.dbz_vs_kai.verdict,
   .lit "</p>\n      </div>"]

theorem build_compare_html_eq (data : Guide) (ui : Ui) :
    build_compare_html data ui = partsStr (compareHtmlParts data ui) := by
  simp [build_compare_html, compareHtmlParts, partsStr, Part.str,
    String.append_assoc]

theorem compare_html_facts {p : List Char} (hp : p.head? = some '<')
    (hB : cmpChecksB p = true) (data : Guide) (ui : Ui) (hu : UiClean ui)
    (hv : '<' ∉ data.dbz_vs_kai.verdict.data)
    (hcards : ∀ c ∈ data.dbz_vs_kai.cards, CardClean c) :
    countL p (build_compare_html data ui).data = 0
      ∧ NoCrossL p (build_compare_html data ui).data := by
  rw [build_compare_html_eq]
  have hB1 := Bool.and_eq_true _ _ |>.mp hB
  have hB2 := Bool.and_eq_true _ _ |>.mp hB1.1
  have hHtml := Bool.and_eq_true _ _ |>.mp hB1.2
  have hall := checkLits_all hHtml.1
  have hgrid : countL p (joinNl (data.dbz_vs_kai.cards.map
      (fun card => partsStr (compareCardParts card ui)))).data = 0
      ∧ NoCrossL p (joinNl (data.dbz_vs_kai.cards.map
      (fun card => partsStr (compareCardParts card ui)))).data := by
    have hCard := Bool.and_eq_true _ _ |>.mp hB2.2
    apply joinNl_facts hp cmpCardTail hCard.2
    · intro s hs
      rcases List.mem_map.mp hs with ⟨c, hcm, rfl⟩
      exact compareCard_facts hp hB ui hu c (hcards c hcm)
    · intro s hs
      rcases List.mem_map.mp hs with ⟨c, hcm, rfl⟩
      exact compareCard_tail c ui
  have hlabel : '<' ∉ (ui.compare_verdict_label.getD "Our Verdict").data := by
    obtain ⟨hu1, hu2, hu3, hu4, hu5, hu6, hu7, hu8, hu9, hu10, hu11, hu12,
      hu13, hurest⟩ := hu
    exact hu13
  have hOk2 : ∀ pt ∈ compareHtmlParts data ui, partOk p pt ∧ litCount p pt = 0 := by
    intro pt hpt
    simp only [compareHtmlParts, List.mem_cons, List.not_mem_nil, or_false] at hpt
    rcases hpt with rfl | rfl | rfl | rfl | rfl | rfl | rfl | rfl <;>
    first
      | exact ⟨(hall _ (by decide)).1, (hall _ (by decide)).2⟩
      | exact ⟨hgrid, rfl⟩
      | (refine ⟨?_, rfl⟩
         show '<' ∉ _
         assumption)
  have hcount := countL_partsStr hp _ (fun pt hpt => (hOk2 pt hpt).1)
  have hsum : ((compareHtmlParts data ui).map (litCount p)).sum = 0 := by
    apply List.sum_eq_zero
    intro x hx
    rcases List.mem_map.mp hx with ⟨pt, hpt, rfl⟩
    exact (hOk2 pt hpt).2
  refine ⟨by rw [hcount, hsum], ?_⟩
  have hsuffix : cmpHtmlTail.data <:+ (partsStr (compareHtmlParts data ui)).data := by
    apply partsStr_tail_suffix
    simp [compareHtmlParts, cmpHtmlTail]
  exact noCrossL_of_suffix hsuffix hHtml.2

/-! ### Streaming-section fragment facts -/

def liLits : List String := ["            <li>", "</li>"]

def liTail : String := "</li>"

def streamCardLits : List String :=
  ["      <div class=\"streaming-card\">\n        <span class=\"streaming-card__icon\">",
   "</span>\n        <div class=\"streaming-card__name\">",
   "</div>\n        <ul class=\"streaming-card__list\">\n",
   "\n        </ul>\n        <a href=\"", "\" class=\"streaming-card__cta ",
   "\" target=\"_blank\" rel=\"noopener noreferrer nofollow\">",
   "</a>\n      </div>"]

def streamCardTail : String := "</a>\n      </div>"

def streamChecksB (p : List Char) : Bool :=
  (checkLits p liLits && tailCondB p liTail.data)
    && (checkLits p streamCardLits && tailCondB p streamCardTail.data)

/-- The `<li>` line of one available title, as a parts list. -/
def liParts (item : String) : List Part :=
  [Part.lit "            <li>", .hol item, .lit "</li>"]

theorem li_eq (item : String) :
    "            <li>" ++ item ++ "</li>" = partsStr (liParts item) := by
  simp [liParts, partsStr, Part.str, String.append_assoc]

theorem li_facts {p : List Char} (hp : p.head? = some '<')
    (hL : checkLits p liLits = true) (hT : tailCondB p liTail.data = true)
    (item : String) (hc : '<' ∉ item.data) :
    countL p ("            <li>" ++ item ++ "</li>").data = 0
      ∧ NoCrossL p ("            <li>" ++ item ++ "</li>").data := by
  rw [li_eq]
  have hall := checkLits_all hL
  have hOk2 : ∀ pt ∈ liParts item, partOk p pt ∧ litCount p pt = 0 := by
    intro pt hpt
    simp only [liParts, List.mem_cons, List.not_mem_nil, or_false] at hpt
    rcases hpt with rfl | rfl | rfl <;>
    first
      | exact ⟨(hall _ (by decide)).1, (hall _ (by decide)).2⟩
      | (refine ⟨?_, rfl⟩
         show '<' ∉ _
         assumption)
  have hcount := countL_partsStr hp _ (fun pt hpt => (hOk2 pt hpt).1)
  have hsum : ((liParts item).map (litCount p)).sum = 0 := by
    apply List.sum_eq_zero
    intro x hx
    rcases List.mem_map.mp hx with ⟨pt, hpt, rfl⟩
    exact (hOk2 pt hpt).2
  refine ⟨by rw [hcount, hsum], ?_⟩
  have hsuffix : liTail.data <:+ (partsStr (liParts item)).data := by
    apply partsStr_tail_suffix
    simp [liParts, liTail]
  exact noCrossL_of_suffix hsuffix hT

theorem availItems_facts {p : List Char} (hp : p.head? = some '<')
    (hL : checkLits p liLits = true) (hT : tailCondB p liTail.data = true)
    (l : List String) (hc : ∀ a ∈ l, '<' ∉ a.data) :
    countL p (joinNl (l.map (fun item => "            <li>" ++ item ++ "</li>"))).data = 0
      ∧ NoCrossL p
        (joinNl (l.map (fun item => "            <li>" ++ item ++ "</li>"))).data := by
  apply joinNl_facts hp liTail hT
  · intro s hs
    rcases List.mem_map.mp hs with ⟨a, ha, rfl⟩
    exact li_facts hp hL hT a (hc a ha)
  · intro s hs
    rcases List.mem_map.mp hs with ⟨a, ha, rfl⟩
    rw [li_eq]
    apply partsStr_tail_suffix
    simp [liParts, liTail]

theorem streamCard_facts {p : List Char} (hp : p.head? = some '<')
    (hB : streamChecksB p = true) (i : Nat) (s : StreamingCard)
    (hc : StreamClean s) :
    countL p (partsStr (streamCardParts i s)).data = 0
      ∧ NoCrossL p (partsStr (streamCardParts i s)).data := by
  have hB1 := Bool.and_eq_true _ _ |>.mp hB
  have hLi := Bool.and_eq_true _ _ |>.mp hB1.1
  have hCard := Bool.and_eq_true _ _ |>.mp hB1.2
  have hall := checkLits_all hCard.1
  obtain ⟨hci, hcp, hcu, hcc, hcavail⟩ := hc
  have hitems := availItems_facts hp hLi.1 hLi.2 s.available hcavail
  have hOk2 : ∀ pt ∈ streamCardParts i s, partOk p pt ∧ litCount p pt = 0 := by
    intro pt hpt
    simp only [streamCardParts, List.mem_cons, List.not_mem_nil, or_false] at hpt
    rcases hpt with rfl | rfl | rfl | rfl | rfl | rfl | rfl | rfl | rfl | rfl
      | rfl | rfl | rfl <;>
    first
      | exact ⟨(hall _ (by decide)).1, (hall _ (by decide)).2⟩
      | exact ⟨hitems, rfl⟩
      | exact ⟨streamCtaClass_no_lt i, rfl⟩
      | (refine ⟨?_, rfl⟩
         show '<' ∉ _
         assumption)
  have hcount := countL_partsStr hp _ (fun pt hpt => (hOk2 pt hpt).1)
  have hsum : ((streamCardParts i s).map (litCount p)).sum = 0 := by
    apply List.sum_eq_zero
    intro x hx
    rcases List.mem_map.mp hx with ⟨pt, hpt, rfl⟩
    exact (hOk2 pt hpt).2
  refine ⟨by rw [hcount, hsum], ?_⟩
  have hsuffix : streamCardTail.data <:+ (partsStr (streamCardParts i s)).data := by
    apply partsStr_tail_suffix
    simp [streamCardParts, streamCardTail]
  exact noCrossL_of_suffix hsuffix hCard.2

theorem streamCardsFrom_facts {p : List Char} (hp : p.head? = some '<')
    (hB : streamChecksB p = true) :
    ∀ (cards : List StreamingCard) (i : Nat), (∀ c ∈ cards, StreamClean c) →
      ∀ x ∈ streamCardsFrom i cards,
        countL p x.data = 0 ∧ NoCrossL p x.data
  | [], _, _, x, hx => by simp [streamCardsFrom] at hx
  | c :: rest, i, hc, x, hx => by
    simp only [streamCardsFrom, List.mem_cons] at hx
    rcases hx with rfl | hx
    · exact streamCard_facts hp hB i c (hc c (List.mem_cons_self c rest))
    · exact streamCardsFrom_facts hp hB rest (i + 1)
        (fun d hd => hc d (List.mem_cons_of_mem c hd)) x hx

theorem streamCardsFrom_tail :
    ∀ (cards : List StreamingCard) (i : Nat),
      ∀ x ∈ streamCardsFrom i cards, streamCardTail.data <:+ x.data
  | [], _, x, hx => by simp [streamCardsFrom] at hx
  | c :: rest, i, x, hx => by
    simp only [streamCardsFrom, List.mem_cons] at hx
    rcases hx with rfl | hx
    · apply partsStr_tail_suffix
      simp [streamCardParts, streamCardTail]
    · exact streamCardsFrom_tail rest (i + 1) x hx

theorem streaming_html_facts {p : List Char} (hp : p.head? = some '<')
    (hB : streamChecksB p = true) (data : Guide) (ui : Ui)
    (hc : ∀ c ∈ data.streaming, StreamClean c) :
    countL p (build_streaming_html data ui).data = 0
      ∧ NoCrossL p (build_streaming_html data ui).data := by
  have hCard := Bool.and_eq_true _ _ |>.mp
    (Bool.and_eq_true _ _ |>.mp hB).2
  apply joinNl_facts hp streamCardTail hCard.2
  · exact streamCardsFrom_facts hp hB data.streaming 0 hc
  · exact streamCardsFrom_tail data.streaming 0

/-! ### Homepage series-card fragment facts -/

def homeCardLits : List String :=
  ["      <a href=\"",
   "\" class=\"series-card\">\n        <span class=\"series-card__emoji\">",
   "</span>\n        <div class=\"series-card__title\">",
   "</div>\n        <div class=\"series-card__meta\">",
   "</div>\n        <span class=\"series-card__cta\">",
   " →</span>\n      </a>\n"]

def homeCardTail : String := " →</span>\n      </a>\n"

def homeCardChecksB (p : List Char) : Bool :=
  checkLits p homeCardLits && tailCondB p homeCardTail.data

theorem langData_clean {raw : SeriesRaw} (lang : String)
    (hen : GuideClean raw.en) (hfr : GuideClean raw.fr) :
    GuideClean (langData raw lang) := by
  unfold langData
  split_ifs <;> assumption

theorem homeCard_facts {p : List Char} (hp : p.head? = some '<')
    (hB : homeCardChecksB p = true) (lpfx cta_text slug : String)
    (d : Guide) (hhref : '<' ∉ (lpfx ++ "/" ++ slug ++ "/").data)
    (hem : '<' ∉ (d.emoji.getD "🎬").data) (hti : '<' ∉ d.title.data)
    (hcat : '<' ∉ d.category_tag.data) (hcta : '<' ∉ cta_text.data) :
    countL p (partsStr (homeCardParts lpfx cta_text slug d)).data = 0
      ∧ NoCrossL p (partsStr (homeCardParts lpfx cta_text slug d)).data := by
  have hBparts := Bool.and_eq_true _ _ |>.mp hB
  have hall := checkLits_all hBparts.1
  have hOk2 : ∀ pt ∈ homeCardParts lpfx cta_text slug d,
      partOk p pt ∧ litCount p pt = 0 := by
    intro pt hpt
    simp only [homeCardParts, List.mem_cons, List.not_mem_nil, or_false] at hpt
    rcases hpt with rfl | rfl | rfl | rfl | rfl | rfl | rfl | rfl | rfl | rfl
      | rfl <;>
    first
      | exact ⟨(hall _ (by decide)).1, (hall _ (by decide)).2⟩
      | (refine ⟨?_, rfl⟩
         show '<' ∉ _
         assumption)
  have hcount := countL_partsStr hp _ (fun pt hpt => (hOk2 pt hpt).1)
  have hsum : ((homeCardParts lpfx cta_text slug d).map (litCount p)).sum = 0 := by
    apply List.sum_eq_zero
    intro x hx
    rcases List.mem_map.mp hx with ⟨pt, hpt, rfl⟩
    exact (hOk2 pt hpt).2
  refine ⟨by rw [hcount, hsum], ?_⟩
  have hsuffix : homeCardTail.data
      <:+ (partsStr (homeCardParts lpfx cta_text slug d)).data := by
    apply partsStr_tail_suffix
    simp [homeCardParts, homeCardTail]
  exact noCrossL_of_suffix hsuffix hBparts.2

theorem homeCards_facts {p : List Char} (hp : p.head? = some '<')
    (hB : homeCardChecksB p = true) (lang : String)
    (sl : List (String × SeriesRaw))
    (hsl : ∀ x ∈ sl, '<' ∉ x.1.data ∧ GuideClean x.2.en ∧ GuideClean x.2.fr) :
    countL p (joinAll (sl.map (fun s =>
        partsStr (homeCardParts (if lang = "fr" then "/fr" else "")
          (if lang = "en" then "View Guide" else "Voir le Guide")
          s.1 (langData s.2 lang))))).data = 0
      ∧ NoCrossL p (joinAll (sl.map (fun s =>
        partsStr (homeCardParts (if lang = "fr" then "/fr" else "")
          (if lang = "en" then "View Guide" else "Voir le Guide")
          s.1 (langData s.2 lang))))).data := by
  have hBparts := Bool.and_eq_true _ _ |>.mp hB
  apply joinAll_facts hp homeCardTail hBparts.2
  · intro s hs
    rcases List.mem_map.mp hs with ⟨x, hx, rfl⟩
    obtain ⟨hx1, hx2, hx3⟩ := hsl x hx
    have hd : GuideClean (langData x.2 lang) := langData_clean lang hx2 hx3
    obtain ⟨hg1, hg2, hg3, hg4, hg5, hg6, hg7, hg8, hg9, hg10, hg11, hg12,
      hg13, hg14, hg15, hg16, hg17, hg18, hg19, hg20, hg21, hg22, hg23,
      hg24, hg25⟩ := hd
    apply homeCard_facts hp hB _ _ _ _ ?_ hg25 hg1 hg4
    · exact ite_no_lt (by decide) (by decide)
    · exact append_no_lt (append_no_lt
        (append_no_lt (ite_no_lt (by decide) (by decide)) (by decide)) hx1)
        (by decide)
  · intro s hs
    rcases List.mem_map.mp hs with ⟨x, hx, rfl⟩
    apply partsStr_tail_suffix
    simp [homeCardParts, homeCardTail]

/-! ### The JSON-LD payloads are clean when the guide is -/

theorem stepsOf_clean : ∀ (l : List TimelineItem), (∀ it ∈ l, ItemClean it) →
    jcleanA (stepsOf l) = true
  | [], _ => rfl
  | it :: rest, h => by
    obtain ⟨h1, h2, h3, h4, h5, h6, h7, h8, h9, h10⟩ :=
      h it (List.mem_cons_self it rest)
    have hr := stepsOf_clean rest (fun x hx => h x (List.mem_cons_of_mem it hx))
    simp [stepsOf, jcleanA, stepVal, jcleanV, jcleanO, hr, h2, h10]

theorem howtoSchema_clean (g : Guide) (slug lang : String) (hg : GuideClean g)
    (hslug : '<' ∉ slug.data) : jcleanV (howtoSchema g slug lang) = true := by
  obtain ⟨hg1, hg2, hg3, hg4, hg5, hg6, hg7, hg8, hg9, hg10, hg11, hg12,
    hg13, hg14, hg15, hg16, hg17, hg18, hg19, hg20, hg21, hg22, hg23,
    hg24, hg25⟩ := hg
  have hsteps := stepsOf_clean g.timeline hg12
  have hname : '<' ∉ (if lang = "en" then g.title ++ " Watch Order Guide"
      else g.title ++ " Guide d\x27Ordre de Visionnage").data :=
    ite_no_lt (append_no_lt hg1 (by decide)) (append_no_lt hg1 (by decide))
  have hurl : '<' ∉ (if lang = "en" then SITE_URL ++ "/" ++ slug ++ "/"
      else SITE_URL ++ "/fr/" ++ slug ++ "/").data :=
    ite_no_lt
      (append_no_lt (append_no_lt (append_no_lt (by decide) (by decide)) hslug)
        (by decide))
      (append_no_lt (append_no_lt (append_no_lt (by decide) (by decide)) hslug)
        (by decide))
  simp [howtoSchema, jcleanV, jcleanO, jcleanA, hsteps, hg3, hname, hurl]

theorem schema_json_no_lt (g : Guide) (slug lang : String) (hg : GuideClean g)
    (hslug : '<' ∉ slug.data) : '<' ∉ (build_schema_json g slug lang).data :=
  jdump_no_lt _ 0 (howtoSchema_clean g slug lang hg hslug)

theorem faqEntities_clean : ∀ (l : List FaqItem), (∀ f ∈ l, FaqClean f) →
    jcleanA (faqEntities l) = true
  | [], _ => rfl
  | f :: rest, h => by
    obtain ⟨h1, h2⟩ := h f (List.mem_cons_self f rest)
    have hr := faqEntities_clean rest (fun x hx => h x (List.mem_cons_of_mem f hx))
    simp [faqEntities, jcleanA, faqEntity, jcleanV, jcleanO, hr, h1, h2]

theorem faqSchemaVal_clean (g : Guide) (hfaq : ∀ f ∈ g.faq, FaqClean f) :
    jcleanV (faqSchemaVal g) = true := by
  have hf := faqEntities_clean g.faq hfaq
  simp [faqSchemaVal, jcleanV, jcleanO, jcleanA, hf]

theorem faq_schema_no_lt (g : Guide) (hfaq : ∀ f ∈ g.faq, FaqClean f) :
    '<' ∉ (build_faq_schema g).data :=
  jdump_no_lt _ 0 (faqSchemaVal_clean g hfaq)

/-! ### Projections out of `GuideClean` -/

theorem gcUi {g : Guide} (h : GuideClean g) : UiClean g.ui := by
  obtain ⟨_, _, _, _, _, _, _, _, _, _, hx, _⟩ := h
  exact hx

theorem gcTimeline {g : Guide} (h : GuideClean g) :
    ∀ it ∈ g.timeline, ItemClean it := by
  obtain ⟨_, _, _, _, _, _, _, _, _, _, _, hx, _⟩ := h
  exact hx

theorem gcPaths {g : Guide} (h : GuideClean g) : ∀ pc ∈ g.paths, PathClean pc := by
  obtain ⟨_, _, _, _, _, _, _, _, _, _, _, _, hx, _⟩ := h
  exact hx

theorem gcFaq {g : Guide} (h : GuideClean g) : ∀ f ∈ g.faq, FaqClean f := by
  obtain ⟨_, _, _, _, _, _, _, _, _, _, _, _, _, hx, _⟩ := h
  exact hx

theorem gcWhyContent {g : Guide} (h : GuideClean g) :
    '<' ∉ g.why_confusing.content.data := by
  obtain ⟨_, _, _, _, _, _, _, _, _, _, _, _, _, _, hx, _⟩ := h
  exact hx

theorem gcVerdict {g : Guide} (h : GuideClean g) :
    '<' ∉ g.dbz_vs_kai.verdict.data := by
  obtain ⟨_, _, _, _, _, _, _, _, _, _, _, _, _, _, _, _, _, hx, _⟩ := h
  exact hx

theorem gcCards {g : Guide} (h : GuideClean g) :
    ∀ c ∈ g.dbz_vs_kai.cards, CardClean c := by
  obtain ⟨_, _, _, _, _, _, _, _, _, _, _, _, _, _, _, _, _, _, hx, _⟩ := h
  exact hx

theorem gcStreaming {g : Guide} (h : GuideClean g) :
    ∀ s ∈ g.streaming, StreamClean s := by
  obtain ⟨_, _, _, _, _, _, _, _, _, _, _, _, _, _, _, _, _, _, _, hx, _⟩ := h
  exact hx

theorem gcWhyLabel {g : Guide} (h : GuideClean g) :
    '<' ∉ g.ui.why_confusing_label.data := by
  obtain ⟨_, _, _, _, _, _, _, _, _, _, _, hx, _⟩ := gcUi h
  exact hx

/-! ### Series-page master lemmas -/

/-- Every part of the assembled series page satisfies its counting obligation,
given the boolean literal checks for the pattern and a clean guide. -/
theorem seriesPage_partOk {p : List Char} (hp : p.head? = some '<')
    (hRow : rowChecksB p = true) (hPath : pathChecksB p = true)
    (hFaq : faqChecksB p = true) (hWhy : whyChecksB p = true)
    (hCmp : cmpChecksB p = true) (hStream : streamChecksB p = true)
    (slug : String) (g : Guide) (lang : String)
    (hlit : ∀ s ∈ litsOf (seriesPageParts slug g lang), noCrossB p s.data = true)
    (hg : GuideClean g) (hslug : '<' ∉ slug.data) (hlang : '<' ∉ lang.data) :
    ∀ pt ∈ seriesPageParts slug g lang, partOk p pt := by
  have hschema := schema_json_no_lt g slug lang hg hslug
  have hfaqsch := faq_schema_no_lt g (gcFaq hg)
  have hwhy2 := why_html_facts hp hWhy g g.ui (gcWhyLabel hg) (gcWhyContent hg)
  have hpaths2 := paths_html_facts hp hPath g g.ui (gcUi hg) (gcPaths hg)
  have hcmp2 := compare_html_facts hp hCmp g g.ui (gcUi hg) (gcVerdict hg)
    (gcCards hg)
  have hrows2 := timelineRows_facts hp hRow g g.ui (gcUi hg) (gcTimeline hg)
  have hfaq2 := faq_html_facts hp hFaq g (gcFaq hg)
  have hstream2 := streaming_html_facts hp hStream g g.ui (gcStreaming hg)
  have hen : '<' ∉ (SITE_URL ++ "/" ++ slug ++ "/").data :=
    append_no_lt (append_no_lt (append_no_lt (by decide) (by decide)) hslug)
      (by decide)
  have hfr : '<' ∉ (SITE_URL ++ "/fr/" ++ slug ++ "/").data :=
    append_no_lt (append_no_lt (append_no_lt (by decide) (by decide)) hslug)
      (by decide)
  have hcanon : '<' ∉ (if lang = "en" then SITE_URL ++ "/" ++ slug ++ "/"
      else SITE_URL ++ "/fr/" ++ slug ++ "/").data := ite_no_lt hen hfr
  have hhome : '<' ∉ ((if lang = "fr" then "/fr" else "") ++ "/").data :=
    append_no_lt (ite_no_lt (by decide) (by decide)) (by decide)
  have hswitch : '<' ∉ ((if (if lang = "en" then "fr" else "en") = "fr"
      then "/fr" else "") ++ "/" ++ slug ++ "/").data :=
    append_no_lt (append_no_lt
      (append_no_lt (ite_no_lt (by decide) (by decide)) (by decide)) hslug)
      (by decide)
  have hwo : '<' ∉ (if lang = "en" then "Watch Order"
      else "Ordre de Visionnage").data := ite_no_lt (by decide) (by decide)
  have hsl : '<' ∉ (if lang = "en" then "Series" else "Séries").data :=
    ite_no_lt (by decide) (by decide)
  have hhl : '<' ∉ (if lang = "en" then "Hours" else "Heures").data :=
    ite_no_lt (by decide) (by decide)
  have hul : '<' ∉ (if lang = "en" then "Updated" else "Mis à jour").data :=
    ite_no_lt (by decide) (by decide)
  obtain ⟨hg1, hg2, hg3, hg4, hg5, hg6, hg7, hg8, hg9, hg10, hg11, hg12,
    hg13, hg14, hg15, hg16, hg17, hg18, hg19, hg20, hg21, hg22, hg23,
    hg24, hg25⟩ := hg
  obtain ⟨hu1, hu2, hu3, hu4, hu5, hu6, hu7, hu8, hu9, hu10, hu11, hu12,
    hu13, hu14, hu15, hu16, hu17, hu18, hu19, hu20, hu21, hu22, hu23, hu24,
    hu25, hu26, hu27, hu28, hu29, hu30⟩ := hg11
  apply partOk_of_split
  · exact hlit
  · intro s hs
    have hH : holsOf (seriesPageParts slug g lang) =
      [lang, g.meta_title, g.meta_description,
       (if lang = "en" then SITE_URL ++ "/" ++ slug ++ "/"
         else SITE_URL ++ "/fr/" ++ slug ++ "/"),
       SITE_URL ++ "/" ++ slug ++ "/", SITE_URL ++ "/fr/" ++ slug ++ "/",
       SITE_URL ++ "/" ++ slug ++ "/",
       build_schema_json g slug lang, build_faq_schema g,
       ((if lang = "fr" then "/fr" else "") ++ "/"),
       ((if lang = "fr" then "/fr" else "") ++ "/"),
       g.ui.nav_home,
       ((if (if lang = "en" then "fr" else "en") = "fr" then "/fr" else "")
         ++ "/" ++ slug ++ "/"),
       g.ui.lang_switch, g.category_tag, g.title,
       (if lang = "en" then "Watch Order" else "Ordre de Visionnage"),
       g.hero.series, (if lang = "en" then "Series" else "Séries"),
       g.hero.films, g.hero.hours,
       (if lang = "en" then "Hours" else "Heures"),
       g.hero.updated, (if lang = "en" then "Updated" else "Mis à jour"),
       g.intro,
       g.ui.quick_answer_label, g.quick_answer, g.ui.paths_heading,
       g.dbz_vs_kai.heading, g.dbz_vs_kai.intro, g.ui.timeline_heading,
       g.ui.col_num, g.ui.col_title, g.ui.col_type, g.ui.col_episodes,
       g.ui.col_when, g.ui.col_path, g.ui.col_verdict, g.ui.col_watch,
       g.ui.faq_heading, g.ui.streaming_heading, g.manga.title,
       g.manga.description, g.manga.link_url, g.manga.link_text,
       g.ui.footer_text, g.ui.footer_affiliate] := rfl
    rw [hH] at hs
    simp only [List.mem_cons, List.not_mem_nil, or_false] at hs
    rcases hs with rfl | rfl | rfl | rfl | rfl | rfl | rfl | rfl | rfl | rfl
      | rfl | rfl | rfl | rfl | rfl | rfl | rfl | rfl | rfl | rfl | rfl | rfl
      | rfl | rfl | rfl | rfl | rfl | rfl | rfl | rfl | rfl | rfl | rfl | rfl
      | rfl | rfl | rfl | rfl | rfl | rfl | rfl | rfl | rfl | rfl | rfl | rfl
      | rfl
    exacts [hlang, hg2, hg3, hcanon, hen, hfr, hen, hschema, hfaqsch, hhome,
      hhome, hu14, hswitch, hu15, hg4, hg1, hwo, hg5, hsl, hg6, hg7, hhl, hg8,
      hul, hg9, hu16, hg10, hu17, hg16, hg17, hu18, hu19, hu20, hu21, hu22,
      hu23, hu24, hu25, hu26, hu27, hu28, hg21, hg22, hg23, hg24, hu29, hu30]
  · intro s hs
    have hF : fragsOf (seriesPageParts slug g lang) =
      [build_why_confusing_html g g.ui, build_paths_html g g.ui,
       build_compare_html g g.ui, build_timeline_rows g g.ui,
       build_faq_html g, build_streaming_html g g.ui] := rfl
    rw [hF] at hs
    simp only [List.mem_cons, List.not_mem_nil, or_false] at hs
    rcases hs with rfl | rfl | rfl | rfl | rfl | rfl
    exacts [hwhy2, hpaths2, hcmp2, hrows2, hfaq2, hstream2]

/-- The series page's occurrence count of a `<`-headed pattern is the sum of
the template literals' counts. -/
theorem seriesPage_count {p : List Char} (hp : p.head? = some '<')
    (hRow : rowChecksB p = true) (hPath : pathChecksB p = true)
    (hFaq : faqChecksB p = true) (hWhy : whyChecksB p = true)
    (hCmp : cmpChecksB p = true) (hStream : streamChecksB p = true)
    (slug : String) (g : Guide) (lang : String)
    (hlit : ∀ s ∈ litsOf (seriesPageParts slug g lang), noCrossB p s.data = true)
    (hg : GuideClean g) (hslug : '<' ∉ slug.data) (hlang : '<' ∉ lang.data) :
    countL p (generate_series_page slug g lang).data
      = ((seriesPageParts slug g lang).map (litCount p)).sum :=
  countL_partsStr hp _ (seriesPage_partOk hp hRow hPath hFaq hWhy hCmp hStream
    slug g lang hlit hg hslug hlang)

/-! ### Homepage master lemmas -/

theorem homepage_partOk {p : List Char} (hp : p.head? = some '<')
    (hCard : homeCardChecksB p = true) (lang : String)
    (sl : List (String × SeriesRaw))
    (hlit : ∀ s ∈ litsOf (homepageParts lang sl), noCrossB p s.data = true)
    (hsl : ∀ x ∈ sl, '<' ∉ x.1.data ∧ GuideClean x.2.en ∧ GuideClean x.2.fr)
    (hlang : '<' ∉ lang.data) :
    ∀ pt ∈ homepageParts lang sl, partOk p pt := by
  have hcards := homeCards_facts hp hCard lang sl hsl
  have htitle : '<' ∉ (if lang = "en"
      then "AnimeWatchOrder.com — Complete Anime Watch Order Guides"
      else "AnimeWatchOrder.com — Guides d\x27Ordre de Visionnage Anime").data :=
    ite_no_lt (by decide) (by decide)
  have hdesc : '<' ∉ (if lang = "en"
      then "Clear, structured watch order guides for the most complex anime franchises. Dragon Ball, Naruto, One Piece, and more."
      else "Des guides clairs et structurés pour les franchises anime les plus complexes. Dragon Ball, Naruto, One Piece et plus.").data :=
    ite_no_lt (by decide) (by decide)
  have hcanon : '<' ∉ (if lang = "en" then SITE_URL ++ "/"
      else SITE_URL ++ "/fr/").data :=
    ite_no_lt (append_no_lt (by decide) (by decide))
      (append_no_lt (by decide) (by decide))
  have hen : '<' ∉ (SITE_URL ++ "/").data := append_no_lt (by decide) (by decide)
  have hfr : '<' ∉ (SITE_URL ++ "/fr/").data :=
    append_no_lt (by decide) (by decide)
  have hhome : '<' ∉ ((if lang = "fr" then "/fr" else "") ++ "/").data :=
    append_no_lt (ite_no_lt (by decide) (by decide)) (by decide)
  have hother : '<' ∉ ((if lang = "en" then "/fr" else "") ++ "/").data :=
    append_no_lt (ite_no_lt (by decide) (by decide)) (by decide)
  have hnav : '<' ∉ (if lang = "en" then "Home" else "Accueil").data :=
    ite_no_lt (by decide) (by decide)
  have holl : '<' ∉ (if lang = "en" then "FR" else "EN").data :=
    ite_no_lt (by decide) (by decide)
  have hh1 : '<' ∉ (if lang = "en" then "Anime Watch Order Guides"
      else "Guides d\x27Ordre de Visionnage Anime").data :=
    ite_no_lt (by decide) (by decide)
  have hsub : '<' ∉ (if lang = "en"
      then "Clear, structured watch order guides for the most complex anime franchises."
      else "Des guides clairs et structurés pour les franchises anime les plus complexes.").data :=
    ite_no_lt (by decide) (by decide)
  apply partOk_of_split
  · exact hlit
  · intro s hs
    have hH : holsOf (homepageParts lang sl) =
      [lang,
       (if lang = "en"
         then "AnimeWatchOrder.com — Complete Anime Watch Order Guides"
         else "AnimeWatchOrder.com — Guides d\x27Ordre de Visionnage Anime"),
       (if lang = "en"
         then "Clear, structured watch order guides for the most complex anime franchises. Dragon Ball, Naruto, One Piece, and more."
         else "Des guides clairs et structurés pour les franchises anime les plus complexes. Dragon Ball, Naruto, One Piece et plus."),
       (if lang = "en" then SITE_URL ++ "/" else SITE_URL ++ "/fr/"),
       SITE_URL ++ "/", SITE_URL ++ "/fr/", SITE_URL ++ "/",
       ((if lang = "fr" then "/fr" else "") ++ "/"),
       ((if lang = "fr" then "/fr" else "") ++ "/"),
       (if lang = "en" then "Home" else "Accueil"),
       ((if lang = "en" then "/fr" else "") ++ "/"),
       (if lang = "en" then "FR" else "EN"),
       (if lang = "en" then "Anime Watch Order Guides"
         else "Guides d\x27Ordre de Visionnage Anime"),
       (if lang = "en"
         then "Clear, structured watch order guides for the most complex anime franchises."
         else "Des guides clairs et structurés pour les franchises anime les plus complexes.")] := rfl
    rw [hH] at hs
    simp only [List.mem_cons, List.not_mem_nil, or_false] at hs
    rcases hs with rfl | rfl | rfl | rfl | rfl | rfl | rfl | rfl | rfl | rfl
      | rfl | rfl | rfl | rfl
    exacts [hlang, htitle, hdesc, hcanon, hen, hfr, hen, hhome, hhome, hnav,
      hother, holl, hh1, hsub]
  · intro s hs
    have hF : fragsOf (homepageParts lang sl) =
      [joinAll (sl.map (fun s =>
        partsStr (homeCardParts (if lang = "fr" then "/fr" else "")
          (if lang = "en" then "View Guide" else "Voir le Guide")
          s.1 (langData s.2 lang))))] := rfl
    rw [hF] at hs
    simp only [List.mem_cons, List.not_mem_nil, or_false] at hs
    rcases hs with rfl
    exact hcards

theorem homepage_count {p : List Char} (hp : p.head? = some '<')
    (hCard : homeCardChecksB p = true) (lang : String)
    (sl : List (String × SeriesRaw))
    (hlit : ∀ s ∈ litsOf (homepageParts lang sl), noCrossB p s.data = true)
    (hsl : ∀ x ∈ sl, '<' ∉ x.1.data ∧ GuideClean x.2.en ∧ GuideClean x.2.fr)
    (hlang : '<' ∉ lang.data) :
    countL p (generate_homepage lang sl).data
      = ((homepageParts lang sl).map (litCount p)).sum :=
  countL_partsStr hp _ (homepage_partOk hp hCard lang sl hlit hsl hlang)

/-! ### Sitemap master lemmas -/

def smHdr : String :=
  "<?xml version=\"1.0\" encoding=\"UTF-8\"?>\n<urlset xmlns=\"http://www.sitemaps.org/schemas/sitemap/0.9\"\n        xmlns:xhtml=\"http://www.w3.org/1999/xhtml\">\n"

def smEntryTail : String :=
  "\n    <lastmod>2026-02-12</lastmod>\n    <changefreq>monthly</changefreq>\n    <priority>0.9</priority>\n  </url>"

theorem urlPairs_clean (slugs : List String) (h : ∀ s ∈ slugs, '<' ∉ s.data) :
    ∀ u ∈ urlPairs slugs, '<' ∉ u.1.data ∧ '<' ∉ u.2.data := by
  intro u hu
  simp only [urlPairs, List.mem_cons, List.mem_map] at hu
  rcases hu with rfl | ⟨slug, hslug, rfl⟩
  · exact ⟨append_no_lt (by decide) (by decide),
      append_no_lt (by decide) (by decide)⟩
  · refine ⟨?_, ?_⟩
    · exact append_no_lt (append_no_lt (append_no_lt (by decide) (by decide))
        (h slug hslug)) (by decide)
    · exact append_no_lt (append_no_lt (append_no_lt (by decide) (by decide))
        (h slug hslug)) (by decide)

theorem sitemapEntry_count {p : List Char} (hp : p.head? = some '<')
    (u : String × String)
    (hlit : ∀ s ∈ litsOf (sitemapEntryParts u), noCrossB p s.data = true)
    (hu1 : '<' ∉ u.1.data) (hu2 : '<' ∉ u.2.data) :
    countL p (partsStr (sitemapEntryParts u)).data
      = ((sitemapEntryParts u).map (litCount p)).sum := by
  apply countL_partsStr hp
  apply partOk_of_split
  · exact hlit
  · intro s hs
    have hH : holsOf (sitemapEntryParts u)
        = [u.1, u.1, u.2, u.1, u.2, u.1, u.2, u.1] := rfl
    rw [hH] at hs
    simp only [List.mem_cons, List.not_mem_nil, or_false] at hs
    rcases hs with rfl | rfl | rfl | rfl | rfl | rfl | rfl | rfl
    exacts [hu1, hu1, hu2, hu1, hu2, hu1, hu2, hu1]
  · intro s hs
    have hF : fragsOf (sitemapEntryParts u) = [] := rfl
    rw [hF] at hs
    simp at hs

theorem sitemapEntry_tail (u : String × String) :
    smEntryTail.data <:+ (partsStr (sitemapEntryParts u)).data := by
  apply partsStr_tail_suffix
  simp [sitemapEntryParts, smEntryTail]

theorem sitemap_count {p : List Char} (hp : p.head? = some '<')
    (slugs : List String) (hslugs : ∀ s ∈ slugs, '<' ∉ s.data)
    (hlit : ∀ u ∈ urlPairs slugs,
      ∀ s ∈ litsOf (sitemapEntryParts u), noCrossB p s.data = true)
    (hhdrB : noCrossB p smHdr.data = true) (hhdr0 : countL p smHdr.data = 0)
    (htail0 : countL p "\n</urlset>".data = 0)
    (hT : tailCondB p smEntryTail.data = true) (k : Nat)
    (hk : ∀ u ∈ urlPairs slugs, ((sitemapEntryParts u).map (litCount p)).sum = k) :
    countL p (generate_sitemap slugs).data = (slugs.length + 1) * k := by
  have hdata : (generate_sitemap slugs).data
      = smHdr.data ++ ((joinNl ((urlPairs slugs).map
          (fun u => partsStr (sitemapEntryParts u)))).data
        ++ "\n</urlset>".data) := by
    show ((smHdr ++ joinNl ((urlPairs slugs).map
      (fun u => partsStr (sitemapEntryParts u)))) ++ "\n</urlset>").data = _
    simp [String.data_append, List.append_assoc]
  have hne : (urlPairs slugs).map (fun u => partsStr (sitemapEntryParts u))
      ≠ [] := by simp [urlPairs]
  have hNC : NoCrossL p (joinNl ((urlPairs slugs).map
      (fun u => partsStr (sitemapEntryParts u)))).data := by
    have hsuf1 := joinNl_getLast_suffix _ hne
    have hlastmem := List.getLast_mem hne
    rcases List.mem_map.mp hlastmem with ⟨u', hu', heq⟩
    exact noCrossL_of_suffix ((heq ▸ sitemapEntry_tail u').trans hsuf1) hT
  have hhdrNC : NoCrossL p smHdr.data := noCrossL_of_noCrossB hhdrB
  rw [hdata, countL_append _ _ hhdrNC, countL_append _ _ hNC, hhdr0, htail0,
    countL_joinNl_sum hp _ (fun s hs => by
      rcases List.mem_map.mp hs with ⟨u, hu, rfl⟩
      exact noCrossL_of_suffix (sitemapEntry_tail u) hT)]
  rw [List.map_map]
  have hconst : ((urlPairs slugs).map ((fun s => countL p s.data) ∘
      (fun u => partsStr (sitemapEntryParts u)))).sum
      = (urlPairs slugs).length * k := by
    apply sum_map_const
    intro u hu
    have hcl := urlPairs_clean slugs hslugs u hu
    show countL p (partsStr (sitemapEntryParts u)).data = k
    rw [sitemapEntry_count hp u (hlit u hu) hcl.1 hcl.2, hk u hu]
  rw [hconst]
  have hlen : (urlPairs slugs).length = slugs.length + 1 := by
    simp [urlPairs]
  rw [hlen]
  omega

/-! ### Orchestrator lemmas -/

theorem loadPhase_congr (env₁ env₂ : String → Option SeriesRaw) :
    ∀ (rest : List String) (acc : List (String × SeriesRaw)),
      (∀ s ∈ rest, env₁ s = env₂ s) →
      loadPhase env₁ rest acc = loadPhase env₂ rest acc
  | [], _, _ => rfl
  | slug :: rest, acc, h => by
    have hs := h slug (List.mem_cons_self slug rest)
    simp only [loadPhase, hs]
    cases henv : env₂ slug with
    | none => simp [henv]
    | some raw =>
      simp only [henv]
      exact congrArg _ (loadPhase_congr env₁ env₂ rest ((slug, raw) :: acc)
        (fun s hs2 => h s (List.mem_cons_of_mem slug hs2)))

theorem loadPhase_missing (env : String → Option SeriesRaw) :
    ∀ (rest : List String) (acc : List (String × SeriesRaw)),
      (∃ s ∈ rest, env s = none) →
      (∀ e ∈ loadPhase env rest acc, e.isWrite = false)
      ∧ (∃ s ∈ rest, env s = none ∧ Ev.errorMissing s ∈ loadPhase env rest acc)
      ∧ Ev.exitCode 1 ∈ loadPhase env rest acc
      ∧ Ev.exitCode 0 ∉ loadPhase env rest acc
  | [], _, h => by simp at h
  | slug :: rest, acc, h => by
    cases henv : env slug with
    | none =>
      refine ⟨?_, ⟨slug, List.mem_cons_self slug rest, henv, ?_⟩, ?_, ?_⟩ <;>
        simp [loadPhase, henv, Ev.isWrite]
    | some raw =>
      obtain ⟨s, hsmem, hsnone⟩ := h
      have hsrest : s ∈ rest := by
        rcases List.mem_cons.mp hsmem with rfl | h2
        · rw [henv] at hsnone
          exact absurd hsnone (by simp)
        · exact h2
      obtain ⟨ih1, ⟨s2, hs2mem, hs2none, hs2in⟩, ih3, ih4⟩ :=
        loadPhase_missing env rest ((slug, raw) :: acc) ⟨s, hsrest, hsnone⟩
      refine ⟨?_, ⟨s2, List.mem_cons_of_mem slug hs2mem, hs2none, ?_⟩, ?_, ?_⟩
      · intro e he
        simp only [loadPhase, henv, List.mem_cons] at he
        rcases he with rfl | he
        · rfl
        · exact ih1 e he
      · simp only [loadPhase, henv, List.mem_cons]
        exact Or.inr hs2in
      · simp only [loadPhase, henv, List.mem_cons]
        exact Or.inr ih3
      · simp only [loadPhase, henv, List.mem_cons]
        rintro (h0 | h0)
        · exact Ev.noConfusion h0
        · exact ih4 h0

/-! ### The patterns the claims count -/

def titlePat : List Char := "<title".data

def canonPat : List Char := "<link rel=\"canonical\"".data

def altEnPat : List Char := "<link rel=\"alternate\" hreflang=\"en\"".data

def altFrPat : List Char := "<link rel=\"alternate\" hreflang=\"fr\"".data

def altXdPat : List Char := "<link rel=\"alternate\" hreflang=\"x-default\"".data

def urlPat : List Char := "<url>".data

def xhtmlEnPat : List Char :=
  "<xhtml:link rel=\"alternate\" hreflang=\"en\"".data

def xhtmlFrPat : List Char :=
  "<xhtml:link rel=\"alternate\" hreflang=\"fr\"".data

def xhtmlXdPat : List Char :=
  "<xhtml:link rel=\"alternate\" hreflang=\"x-default\"".data

def trPat : List Char := "<tr".data

/-! ### Location of the head links inside the assembled pages -/

theorem partsStr_lhl (A u B : String) :
    (partsStr [Part.lit A, .hol u, .lit B]).data = ((A ++ u ++ B) : String).data := by
  simp [partsStr, Part.str, String.data_append, List.append_assoc]

theorem occurs_in_first {x : List Char} (a b : List Part)
    (h : x <:+: (partsStr a).data) : x <:+: (partsStr (a ++ b)).data := by
  rw [partsStr_append, String.data_append]
  exact h.trans (List.prefix_append _ _).isInfix

theorem spParts1_canonical_loc (lang mt md canonical en fr hs fs : String) :
    ("<link rel=\"canonical\" href=\"" ++ canonical ++ "\">").data
      <:+: (partsStr (spParts1 lang mt md canonical en fr hs fs)).data := by
  have h := partsStr_infix_split
    ((spParts1 lang mt md canonical en fr hs fs).take 9)
    [Part.lit "<link rel=\"canonical\" href=\"", .hol canonical, .lit "\">"]
    ((spParts1 lang mt md canonical en fr hs fs).drop 12)
  rw [show (spParts1 lang mt md canonical en fr hs fs).take 9
      ++ ([Part.lit "<link rel=\"canonical\" href=\"", .hol canonical, .lit "\">"]
        ++ (spParts1 lang mt md canonical en fr hs fs).drop 12)
      = spParts1 lang mt md canonical en fr hs fs from rfl] at h
  rw [partsStr_lhl] at h
  exact h

theorem spParts1_alt_en_loc (lang mt md canonical en fr hs fs : String) :
    ("<link rel=\"alternate\" hreflang=\"en\" href=\"" ++ en ++ "\">").data
      <:+: (partsStr (spParts1 lang mt md canonical en fr hs fs)).data := by
  have h := partsStr_infix_split
    ((spParts1 lang mt md canonical en fr hs fs).take 13)
    [Part.lit "<link rel=\"alternate\" hreflang=\"en\" href=\"", .hol en, .lit "\">"]
    ((spParts1 lang mt md canonical en fr hs fs).drop 16)
  rw [show (spParts1 lang mt md canonical en fr hs fs).take 13
      ++ ([Part.lit "<link rel=\"alternate\" hreflang=\"en\" href=\"", .hol en,
          .lit "\">"]
        ++ (spParts1 lang mt md canonical en fr hs fs).drop 16)
      = spParts1 lang mt md canonical en fr hs fs from rfl] at h
  rw [partsStr_lhl] at h
  exact h

theorem spParts1_alt_fr_loc (lang mt md canonical en fr hs fs : String) :
    ("<link rel=\"alternate\" hreflang=\"fr\" href=\"" ++ fr ++ "\">").data
      <:+: (partsStr (spParts1 lang mt md canonical en fr hs fs)).data := by
  have h := partsStr_infix_split
    ((spParts1 lang mt md canonical en fr hs fs).take 17)
    [Part.lit "<link rel=\"alternate\" hreflang=\"fr\" href=\"", .hol fr, .lit "\">"]
    ((spParts1 lang mt md canonical en fr hs fs).drop 20)
  rw [show (spParts1 lang mt md canonical en fr hs fs).take 17
      ++ ([Part.lit "<link rel=\"alternate\" hreflang=\"fr\" href=\"", .hol fr,
          .lit "\">"]
        ++ (spParts1 lang mt md canonical en fr hs fs).drop 20)
      = spParts1 lang mt md canonical en fr hs fs from rfl] at h
  rw [partsStr_lhl] at h
  exact h

theorem spParts1_alt_xd_loc (lang mt md canonical en fr hs fs : String) :
    ("<link rel=\"alternate\" hreflang=\"x-default\" href=\"" ++ en ++ "\">").data
      <:+: (partsStr (spParts1 lang mt md canonical en fr hs fs)).data := by
  have h := partsStr_infix_split
    ((spParts1 lang mt md canonical en fr hs fs).take 21)
    [Part.lit "<link rel=\"alternate\" hreflang=\"x-default\" href=\"", .hol en,
     .lit "\">"]
    ((spParts1 lang mt md canonical en fr hs fs).drop 24)
  rw [show (spParts1 lang mt md canonical en fr hs fs).take 21
      ++ ([Part.lit "<link rel=\"alternate\" hreflang=\"x-default\" href=\"",
          .hol en, .lit "\">"]
        ++ (spParts1 lang mt md canonical en fr hs fs).drop 24)
      = spParts1 lang mt md canonical en fr hs fs from rfl] at h
  rw [partsStr_lhl] at h
  exact h

theorem hpParts1_canonical_loc (lang t d canonical en fr : String) :
    ("<link rel=\"canonical\" href=\"" ++ canonical ++ "\">").data
      <:+: (partsStr (hpParts1 lang t d canonical en fr)).data := by
  have h := partsStr_infix_split ((hpParts1 lang t d canonical en fr).take 11)
    [Part.lit "<link rel=\"canonical\" href=\"", .hol canonical, .lit "\">"]
    ((hpParts1 lang t d canonical en fr).drop 14)
  rw [show (hpParts1 lang t d canonical en fr).take 11
      ++ ([Part.lit "<link rel=\"canonical\" href=\"", .hol canonical, .lit "\">"]
        ++ (hpParts1 lang t d canonical en fr).drop 14)
      = hpParts1 lang t d canonical en fr from rfl] at h
  rw [partsStr_lhl] at h
  exact h

theorem hpParts1_alt_en_loc (lang t d canonical en fr : String) :
    ("<link rel=\"alternate\" hreflang=\"en\" href=\"" ++ en ++ "\">").data
      <:+: (partsStr (hpParts1 lang t d canonical en fr)).data := by
  have h := partsStr_infix_split ((hpParts1 lang t d canonical en fr).take 15)
    [Part.lit "<link rel=\"alternate\" hreflang=\"en\" href=\"", .hol en, .lit "\">"]
    ((hpParts1 lang t d canonical en fr).drop 18)
  rw [show (hpParts1 lang t d canonical en fr).take 15
      ++ ([Part.lit "<link rel=\"alternate\" hreflang=\"en\" href=\"", .hol en,
          .lit "\">"]
        ++ (hpParts1 lang t d canonical en fr).drop 18)
      = hpParts1 lang t d canonical en fr from rfl] at h
  rw [partsStr_lhl] at h
  exact h

theorem hpParts1_alt_fr_loc (lang t d canonical en fr : String) :
    ("<link rel=\"alternate\" hreflang=\"fr\" href=\"" ++ fr ++ "\">").data
      <:+: (partsStr (hpParts1 lang t d canonical en fr)).data := by
  have h := partsStr_infix_split ((hpParts1 lang t d canonical en fr).take 19)
    [Part.lit "<link rel=\"alternate\" hreflang=\"fr\" href=\"", .hol fr, .lit "\">"]
    ((hpParts1 lang t d canonical en fr).drop 22)
  rw [show (hpParts1 lang t d canonical en fr).take 19
      ++ ([Part.lit "<link rel=\"alternate\" hreflang=\"fr\" href=\"", .hol fr,
          .lit "\">"]
        ++ (hpParts1 lang t d canonical en fr).drop 22)
      = hpParts1 lang t d canonical en fr from rfl] at h
  rw [partsStr_lhl] at h
  exact h

theorem hpParts1_alt_xd_loc (lang t d canonical en fr : String) :
    ("<link rel=\"alternate\" hreflang=\"x-default\" href=\"" ++ en ++ "\">").data
      <:+: (partsStr (hpParts1 lang t d canonical en fr)).data := by
  have h := partsStr_infix_split ((hpParts1 lang t d canonical en fr).take 23)
    [Part.lit "<link rel=\"alternate\" hreflang=\"x-default\" href=\"", .hol en,
     .lit "\">"]
    ((hpParts1 lang t d canonical en fr).drop 26)
  rw [show (hpParts1 lang t d canonical en fr).take 23
      ++ ([Part.lit "<link rel=\"alternate\" hreflang=\"x-default\" href=\"",
          .hol en, .lit "\">"]
        ++ (hpParts1 lang t d canonical en fr).drop 26)
      = hpParts1 lang t d canonical en fr from rfl] at h
  rw [partsStr_lhl] at h
  exact h

theorem sitemapEntry_xd_loc (u : String × String) :
    ("<xhtml:link rel=\"alternate\" hreflang=\"x-default\" href=\"" ++ u.1
      ++ "\"/>").data <:+: (partsStr (sitemapEntryParts u)).data := by
  have h := partsStr_infix_split ((sitemapEntryParts u).take 11)
    [Part.lit "<xhtml:link rel=\"alternate\" hreflang=\"x-default\" href=\"",
     .hol u.1, .lit "\"/>"]
    ((sitemapEntryParts u).drop 14)
  rw [show (sitemapEntryParts u).take 11
      ++ ([Part.lit "<xhtml:link rel=\"alternate\" hreflang=\"x-default\" href=\"",
          .hol u.1, .lit "\"/>"]
        ++ (sitemapEntryParts u).drop 14)
      = sitemapEntryParts u from rfl] at h
  rw [partsStr_lhl] at h
  exact h

theorem into_seriesPage {x : List Char} (slug : String) (g : Guide) (lang : String)
    (h : x <:+: (partsStr (spParts1 lang g.meta_title g.meta_description
        (if lang = "en" then SITE_URL ++ "/" ++ slug ++ "/"
          else SITE_URL ++ "/fr/" ++ slug ++ "/")
        (SITE_URL ++ "/" ++ slug ++ "/") (SITE_URL ++ "/fr/" ++ slug ++ "/")
        (build_schema_json g slug lang) (build_faq_schema g))).data) :
    x <:+: (generate_series_page slug g lang).data :=
  occurs_in_first _ _ (occurs_in_first _ _ (occurs_in_first _ _ h))

theorem into_homepage {x : List Char} (lang : String)
    (sl : List (String × SeriesRaw))
    (h : x <:+: (partsStr (hpParts1 lang
        (if lang = "en"
          then "AnimeWatchOrder.com — Complete Anime Watch Order Guides"
          else "AnimeWatchOrder.com — Guides d\x27Ordre de Visionnage Anime")
        (if lang = "en"
          then "Clear, structured watch order guides for the most complex anime franchises. Dragon Ball, Naruto, One Piece, and more."
          else "Des guides clairs et structurés pour les franchises anime les plus complexes. Dragon Ball, Naruto, One Piece et plus.")
        (if lang = "en" then SITE_URL ++ "/" else SITE_URL ++ "/fr/")
        (SITE_URL ++ "/") (SITE_URL ++ "/fr/"))).data) :
    x <:+: (generate_homepage lang sl).data :=
  occurs_in_first _ _ h

theorem gtm_in_series (slug : String) (g : Guide) (lang : String) :
    GTM_HEAD.data <:+: (generate_series_page slug g lang).data := by
  apply into_seriesPage
  exact @infix_of_part_mem (Part.lit GTM_HEAD) _ (by simp [spParts1])

theorem gtm_in_home (lang : String) (sl : List (String × SeriesRaw)) :
    GTM_HEAD.data <:+: (generate_homepage lang sl).data := by
  apply into_homepage
  exact @infix_of_part_mem (Part.lit GTM_HEAD) _ (by simp [hpParts1])

theorem gsv_in_home (lang : String) (sl : List (String × SeriesRaw)) :
    GOOGLE_SITE_VERIFICATION.data <:+: (generate_homepage lang sl).data := by
  apply into_homepage
  exact @infix_of_part_mem (Part.lit GOOGLE_SITE_VERIFICATION) _
    (by simp [hpParts1])

/-! ### The stream link of a timeline row -/

/-- The parts of a timeline row before the stream-link cell. -/
def rowPrefixParts (item : TimelineItem) (ui : Ui) : List Part :=
  [Part.lit "        <tr"] ++ recClassParts item ++
  [Part.lit ">\n          <td class=\"col-num\">", .hol item.num,
   .lit "</td>\n          <td class=\"col-title\">", .hol item.title] ++
  recTagParts item ui ++
  [Part.lit "<small>", .hol item.subtitle,
   .lit "</small></td>\n          <td><span class=\"badge ", .hol (badge_class item.type),
   .lit "\">", .hol (type_label item.type ui),
   .lit "</span></td>\n          <td>", .hol item.episodes,
   .lit "</td>\n          <td>", .hol item.when,
   .lit "</td>\n          <td>", .hol item.path,
   .lit "</td>\n          <td><span class=\"verdict ", .hol (verdict_class item.verdict),
   .lit "\">", .hol (verdict_label item.verdict ui)]

theorem timelineRowParts_eq (item : TimelineItem) (ui : Ui) :
    timelineRowParts item ui = rowPrefixParts item ui
      ++ [Part.lit "</span></td>\n          <td><a href=\"",
          .hol (item.watch_url.getD "#"),
          .lit "\" class=\"stream-link\" rel=\"nofollow noopener\" target=\"_blank\">CR</a></td>\n        </tr>"] := by
  simp [timelineRowParts, rowPrefixParts, List.append_assoc]

theorem row_href_occurs (item : TimelineItem) (ui : Ui) :
    ("<a href=\"".data ++ ((item.watch_url.getD "#").data
      ++ "\" class=\"stream-link\" rel=\"nofollow noopener\" target=\"_blank\">".data))
      <:+: (partsStr (timelineRowParts item ui)).data := by
  have h := @sandwich_occurs "</span></td>\n          <td><a href=\""
    "\" class=\"stream-link\" rel=\"nofollow noopener\" target=\"_blank\">CR</a></td>\n        </tr>"
    (item.watch_url.getD "#") ("<a href=\"".data)
    ("\" class=\"stream-link\" rel=\"nofollow noopener\" target=\"_blank\">".data)
    (by decide) (by decide) (partsStr (timelineRowParts item ui)).data
    (partsStr (rowPrefixParts item ui)).data [] ?_
  · exact (by simpa [List.append_assoc] using h)
  · rw [timelineRowParts_eq, partsStr_append, String.data_append]
    simp [partsStr, Part.str, String.data_append]

/-! ### The streaming CTA class by card index -/

theorem streamCard_cta_loc (i : Nat) (s : StreamingCard) :
    ("\" class=\"streaming-card__cta " ++ streamCtaClass i
      ++ "\" target=\"_blank\" rel=\"noopener noreferrer nofollow\">").data
      <:+: (partsStr (streamCardParts i s)).data := by
  have h := partsStr_infix_split ((streamCardParts i s).take 8)
    [Part.lit "\" class=\"streaming-card__cta ", .hol (streamCtaClass i),
     .lit "\" target=\"_blank\" rel=\"noopener noreferrer nofollow\">"]
    ((streamCardParts i s).drop 11)
  rw [show (streamCardParts i s).take 8
      ++ ([Part.lit "\" class=\"streaming-card__cta ", .hol (streamCtaClass i),
          .lit "\" target=\"_blank\" rel=\"noopener noreferrer nofollow\">"]
        ++ (streamCardParts i s).drop 11)
      = streamCardParts i s from rfl] at h
  rw [partsStr_lhl] at h
  exact h

theorem streamCardsFrom_cta_empty :
    ∀ (cards : List StreamingCard) (i : Nat), i ≠ 0 →
      ∀ x ∈ streamCardsFrom i cards,
        ("\" class=\"streaming-card__cta \" target=\"_blank\" rel=\"noopener noreferrer nofollow\">").data
          <:+: x.data
  | [], _, _, x, hx => by simp [streamCardsFrom] at hx
  | c :: rest, i, hi, x, hx => by
    simp only [streamCardsFrom, List.mem_cons] at hx
    rcases hx with rfl | hx
    · have h := streamCard_cta_loc i c
      have hcta : streamCtaClass i = "" := by
        unfold streamCtaClass
        rw [if_neg hi]
      rw [hcta] at h
      have he : (("\" class=\"streaming-card__cta " ++ ""
          ++ "\" target=\"_blank\" rel=\"noopener noreferrer nofollow\">") : String).data
          = ("\" class=\"streaming-card__cta \" target=\"_blank\" rel=\"noopener noreferrer nofollow\">" : String).data := by
        decide
      rw [he] at h
      exact h
    · exact streamCardsFrom_cta_empty rest (i + 1) (by omega) x hx

/-! ### Structural accessors for the JSON-LD values -/

def jarrList : JArr → List JVal
  | .nil => []
  | .cons h t => h :: jarrList t

def jgetO : JObj → String → Option JVal
  | .nil, _ => none
  | .cons k v t, key => if k = key then some v else jgetO t key

def jget : JVal → String → Option JVal
  | .obj o, key => jgetO o key
  | _, _ => none

theorem jarrList_stepsOf : ∀ l : List TimelineItem,
    jarrList (stepsOf l) = l.map stepVal
  | [] => rfl
  | it :: rest => by simp [stepsOf, jarrList, jarrList_stepsOf rest]

theorem jarrList_faqEntities : ∀ l : List FaqItem,
    jarrList (faqEntities l) = l.map faqEntity
  | [] => rfl
  | f :: rest => by simp [faqEntities, jarrList, jarrList_faqEntities rest]

theorem occurs_in_second {x : List Char} (a b : List Part)
    (h : x <:+: (partsStr b).data) : x <:+: (partsStr (a ++ b)).data := by
  rw [partsStr_append, String.data_append]
  exact h.trans (List.suffix_append _ _).isInfix

/-! ### The claims -/

set_option maxRecDepth 3000

/-- C1 (amended): for a key outside the closed set the two style-class
formatters do fall back to the `canon`/`watchable` classes, but the two label
formatters echo the unrecognized key itself (Python's `ui.get(key, key)`),
not a default label of the `canon`/`watchable` category. -/
theorem C1 (t v : String) (ui : Ui)
    (ht1 : t ≠ "canon") (ht2 : t ≠ "mixed") (ht3 : t ≠ "film_canon")
    (ht4 : t ≠ "non_canon") (ht5 : t ≠ "filler")
    (hv1 : v ≠ "must_watch") (hv2 : v ≠ "watchable") (hv3 : v ≠ "skip") :
    badge_class t = "badge--canon" ∧ verdict_class v = "verdict--watchable"
      ∧ verdict_label v ui = v ∧ type_label t ui = t := by
  refine ⟨?_, ?_, ?_, ?_⟩ <;>
    simp [badge_class, verdict_class, verdict_label, type_label,
      ht1, ht2, ht3, ht4, ht5, hv1, hv2, hv3]

theorem C1_witness : badge_class "mystery" = "badge--canon"
    ∧ verdict_class "mystery" = "verdict--watchable"
    ∧ verdict_label "mystery" exUi = "mystery"
    ∧ type_label "mystery" exUi = "mystery" :=
  C1 "mystery" "mystery" exUi (by decide) (by decide) (by decide) (by decide)
    (by decide) (by decide) (by decide) (by decide)

/-- C1, counterexample to the frozen wording: for the unrecognized verdict key
`"mystery"` the label formatters return the key itself, which differs from
every defined label of the example ui dict — they do not return "the
corresponding default label". -/
theorem C1_counterexample : verdict_label "mystery" exUi = "mystery"
    ∧ verdict_label "mystery" exUi ≠ exUi.watchable
    ∧ verdict_label "mystery" exUi ≠ exUi.must_watch
    ∧ verdict_label "mystery" exUi ≠ exUi.skip
    ∧ type_label "mystery" exUi ≠ exUi.canon := by
  refine ⟨rfl, ?_, ?_, ?_, ?_⟩ <;> decide

/-- C3: if the data file for a configured slug is missing, the run's event
trace contains no write at all, reports some missing slug, and ends with exit
code 1 (never the successful exit 0) — all series are loaded before any
rendering or writing. -/
theorem C3 (env : String → Option SeriesRaw) (slug : String)
    (hmem : slug ∈ SERIES) (hmiss : env slug = none) :
    (∀ e ∈ mainTrace env, e.isWrite = false)
    ∧ (∃ s ∈ SERIES, env s = none ∧ Ev.errorMissing s ∈ mainTrace env)
    ∧ Ev.exitCode 1 ∈ mainTrace env
    ∧ Ev.exitCode 0 ∉ mainTrace env :=
  loadPhase_missing env SERIES [] ⟨slug, hmem, hmiss⟩

theorem C3_witness :
    (∀ e ∈ mainTrace (fun _ => none), e.isWrite = false)
    ∧ (∃ s ∈ SERIES, (fun _ => (none : Option SeriesRaw)) s = none
        ∧ Ev.errorMissing s ∈ mainTrace (fun _ => none))
    ∧ Ev.exitCode 1 ∈ mainTrace (fun _ => none)
    ∧ Ev.exitCode 0 ∉ mainTrace (fun _ => none) :=
  C3 (fun _ => none) "dragon-ball" (by decide) rfl

/-- C4: both JSON-LD strings parse back to exactly the structured values they
were printed from; the HowTo value's "step" member lists one `HowToStep`
object per timeline entry in order, with "name" equal to the entry's title;
the FAQ value's "mainEntity" lists one `Question` per FAQ entry in order with
"name" the question and nested answer text the answer. -/
theorem C4 (g : Guide) (slug lang : String) :
    parseJson (build_schema_json g slug lang) = some (howtoSchema g slug lang)
    ∧ parseJson (build_faq_schema g) = some (faqSchemaVal g)
    ∧ jget (howtoSchema g slug lang) "step" = some (.arr (stepsOf g.timeline))
    ∧ jarrList (stepsOf g.timeline) = g.timeline.map stepVal
    ∧ (∀ it : TimelineItem, jget (stepVal it) "@type" = some (.str "HowToStep")
        ∧ jget (stepVal it) "name" = some (.str it.title))
    ∧ jget (faqSchemaVal g) "mainEntity" = some (.arr (faqEntities g.faq))
    ∧ jarrList (faqEntities g.faq) = g.faq.map faqEntity
    ∧ (∀ f : FaqItem, jget (faqEntity f) "@type" = some (.str "Question")
        ∧ jget (faqEntity f) "name" = some (.str f.question)
        ∧ ((jget (faqEntity f) "acceptedAnswer").bind
            (fun a => jget a "text")) = some (.str f.answer)) := by
  refine ⟨parseJson_jdump _, parseJson_jdump _, rfl, jarrList_stepsOf _,
    fun it => ⟨rfl, rfl⟩, rfl, jarrList_faqEntities _,
    fun f => ⟨rfl, rfl, rfl⟩⟩

/-- C5: the generation pipeline is deterministic — the whole event trace of a
run (every page byte written, every path, the exit code) is a function of the
data directory contents alone: two runs over environments that agree on every
configured slug produce identical traces. -/
theorem C5 (env₁ env₂ : String → Option SeriesRaw)
    (h : ∀ s ∈ SERIES, env₁ s = env₂ s) :
    mainTrace env₁ = mainTrace env₂ :=
  loadPhase_congr env₁ env₂ SERIES [] h

theorem C5_witness : mainTrace (fun _ => none) = mainTrace (fun _ => none) :=
  C5 (fun _ => none) (fun _ => none) (fun _ _ => rfl)

/-- C7: for the example guide whose timeline is the single entry of the
specification, the rendered timeline rows contain exactly one `<tr>` row,
carrying class `row--recommended`, the recommended tag span, a
`badge badge--canon` span and a `verdict verdict--must-watch` span whose label
is `ui["must_watch"]`; and these rows appear verbatim in the rendered English
page. -/
theorem C7 :
    countL trPat (build_timeline_rows exGuide exUi).data = 1
    ∧ "<tr class=\"row--recommended\">".data
        <:+: (build_timeline_rows exGuide exUi).data
    ∧ "<span class=\"tag-recommended\">RECOMMENDED</span>".data
        <:+: (build_timeline_rows exGuide exUi).data
    ∧ "<span class=\"badge badge--canon\">".data
        <:+: (build_timeline_rows exGuide exUi).data
    ∧ ("<span class=\"verdict verdict--must-watch\">" ++ exUi.must_watch
        ++ "</span>").data <:+: (build_timeline_rows exGuide exUi).data
    ∧ verdict_label "must_watch" exUi = exUi.must_watch
    ∧ (build_timeline_rows exGuide exUi).data
        <:+: (generate_series_page "dragon-ball" exGuide "en").data := by
  refine ⟨by decide, by decide, by decide, by decide, by decide, by decide, ?_⟩
  apply occurs_in_first
  apply occurs_in_second
  exact @infix_of_part_mem (Part.frag (build_timeline_rows exGuide exGuide.ui))
    _ (by simp [spParts3])

/-- C9: only the first streaming card (index 0 of the enumeration) receives
the `streaming-card__cta--primary` modifier on its CTA anchor; every later
card's CTA carries the empty extra class, and the rendered section is the
first card's html joined ahead of the remaining cards'. -/
theorem C9 (g : Guide) (ui : Ui) (s : StreamingCard)
    (rest : List StreamingCard) (h : g.streaming = s :: rest) :
    streamCtaClass 0 = "streaming-card__cta--primary"
    ∧ (∀ i : Nat, i ≠ 0 → streamCtaClass i = "")
    ∧ build_streaming_html g ui
        = joinNl (partsStr (streamCardParts 0 s) :: streamCardsFrom 1 rest)
    ∧ ("\" class=\"streaming-card__cta streaming-card__cta--primary\" target=\"_blank\" rel=\"noopener noreferrer nofollow\">").data
        <:+: (partsStr (streamCardParts 0 s)).data
    ∧ (∀ x ∈ streamCardsFrom 1 rest,
        ("\" class=\"streaming-card__cta \" target=\"_blank\" rel=\"noopener noreferrer nofollow\">").data
          <:+: x.data) := by
  refine ⟨rfl, ?_, ?_, ?_, streamCardsFrom_cta_empty rest 1 (by omega)⟩
  · intro i hi
    unfold streamCtaClass
    rw [if_neg hi]
  · rw [show build_streaming_html g ui
      = joinNl (streamCardsFrom 0 g.streaming) from rfl, h]
    rfl
  · have h0 := streamCard_cta_loc 0 s
    have he : (("\" class=\"streaming-card__cta " ++ streamCtaClass 0
        ++ "\" target=\"_blank\" rel=\"noopener noreferrer nofollow\">") : String).data
        = ("\" class=\"streaming-card__cta streaming-card__cta--primary\" target=\"_blank\" rel=\"noopener noreferrer nofollow\">" : String).data := by
      decide
    rw [he] at h0
    exact h0

theorem C9_witness :
    streamCtaClass 0 = "streaming-card__cta--primary"
    ∧ (∀ i : Nat, i ≠ 0 → streamCtaClass i = "")
    ∧ build_streaming_html exGuide exUi
        = joinNl (partsStr (streamCardParts 0
            ⟨"CR", "Crunchyroll", ["Dragon Ball", "DBZ"],
             "https://example.com/cr", "Watch on Crunchyroll"⟩)
          :: streamCardsFrom 1
            [⟨"HU", "Hulu", ["DBZ"], "https://example.com/hulu",
              "Watch on Hulu"⟩])
    ∧ ("\" class=\"streaming-card__cta streaming-card__cta--primary\" target=\"_blank\" rel=\"noopener noreferrer nofollow\">").data
        <:+: (partsStr (streamCardParts 0
            ⟨"CR", "Crunchyroll", ["Dragon Ball", "DBZ"],
             "https://example.com/cr", "Watch on Crunchyroll"⟩)).data
    ∧ (∀ x ∈ streamCardsFrom 1
          [⟨"HU", "Hulu", ["DBZ"], "https://example.com/hulu",
            "Watch on Hulu"⟩],
        ("\" class=\"streaming-card__cta \" target=\"_blank\" rel=\"noopener noreferrer nofollow\">").data
          <:+: x.data) :=
  C9 exGuide exUi _ _ rfl

/-- C10: the timeline row's stream-link href is `watch_url` when the entry has
one and the literal `"#"` when it does not; in the missing case the href is
the non-empty `"#"`, so a missing watch url breaks nothing. -/
theorem C10 (item : TimelineItem) (ui : Ui) :
    (item.watch_url = none →
      item.watch_url.getD "#" = "#"
      ∧ item.watch_url.getD "#" ≠ ""
      ∧ ("<a href=\"#\" class=\"stream-link\" rel=\"nofollow noopener\" target=\"_blank\">").data
          <:+: (partsStr (timelineRowParts item ui)).data)
    ∧ (∀ u : String, item.watch_url = some u →
      item.watch_url.getD "#" = u
      ∧ ("<a href=\"".data ++ (u.data
          ++ "\" class=\"stream-link\" rel=\"nofollow noopener\" target=\"_blank\">".data))
          <:+: (partsStr (timelineRowParts item ui)).data) := by
  constructor
  · intro hnone
    have hd : item.watch_url.getD "#" = "#" := by
      rw [hnone]
      rfl
    refine ⟨hd, by rw [hd]; decide, ?_⟩
    have h := row_href_occurs item ui
    rw [hd] at h
    have he : ("<a href=\"#\" class=\"stream-link\" rel=\"nofollow noopener\" target=\"_blank\">" : String).data
        = "<a href=\"".data ++ (("#" : String).data
          ++ "\" class=\"stream-link\" rel=\"nofollow noopener\" target=\"_blank\">".data) := by
      decide
    rw [he]
    exact h
  · intro u hu
    have hd : item.watch_url.getD "#" = u := by
      rw [hu]
      rfl
    refine ⟨hd, ?_⟩
    have h := row_href_occurs item ui
    rw [hd] at h
    exact h

set_option synthInstance.maxSize 2000 in
set_option synthInstance.maxHeartbeats 800000 in
theorem exGuideClean : GuideClean exGuide := by
  simp only [GuideClean, UiClean, ItemClean, PathClean, FaqClean, StatClean,
    CardClean, StreamClean]
  refine ⟨?_, ?_, ?_, ?_, ?_, ?_, ?_, ?_, ?_, ?_, ?_, ?_, ?_, ?_, ?_, ?_, ?_,
    ?_, ?_, ?_, ?_, ?_, ?_, ?_, ?_⟩ <;> decide

/-- C2 (amended): the fixed analytics bootstrap (`GTM_HEAD`) appears verbatim
in every generated page — series pages in either language and both
homepages — but the fixed site-verification meta tag appears only in the
homepages; a series page does not contain it (`C2_counterexample`). -/
theorem C2 (slug : String) (g : Guide) (lang : String)
    (sl : List (String × SeriesRaw)) :
    GTM_HEAD.data <:+: (generate_series_page slug g lang).data
    ∧ GTM_HEAD.data <:+: (generate_homepage lang sl).data
    ∧ GOOGLE_SITE_VERIFICATION.data <:+: (generate_homepage lang sl).data :=
  ⟨gtm_in_series slug g lang, gtm_in_home lang sl, gsv_in_home lang sl⟩

/-- C2, counterexample to the frozen wording: the site-verification meta tag
does not occur in the generated English series page of the example guide, so
it is not "injected verbatim into every page's head". -/
theorem C2_counterexample :
    ¬ (GOOGLE_SITE_VERIFICATION.data
        <:+: (generate_series_page "dragon-ball" exGuide "en").data) := by
  apply not_contains_of_countL_eq_zero (by decide)
  have hp : GOOGLE_SITE_VERIFICATION.data.head? = some '<' := by decide
  have hc := seriesPage_count hp (by decide) (by decide) (by decide) (by decide)
    (by decide) (by decide) "dragon-ball" exGuide "en" (by decide) exGuideClean
    (by decide) (by decide)
  rw [hc]
  decide

/-- C6: the sitemap for a list of n series slugs contains exactly 2(n+1)
`<url>` entries — an English and a French entry for the homepage and for each
series — and exactly 2(n+1) hreflang alternates of each kind (en, fr,
x-default), i.e. three alternates per entry, two of each kind per url-pair
block; the x-default alternate of a pair points at the pair's English URL;
for ["dragon-ball", "naruto"] there are exactly 6 `<url>` entries. -/
theorem C6 (slugs : List String) (h : ∀ s ∈ slugs, '<' ∉ s.data) :
    countL urlPat (generate_sitemap slugs).data = 2 * (slugs.length + 1)
    ∧ countL xhtmlEnPat (generate_sitemap slugs).data = 2 * (slugs.length + 1)
    ∧ countL xhtmlFrPat (generate_sitemap slugs).data = 2 * (slugs.length + 1)
    ∧ countL xhtmlXdPat (generate_sitemap slugs).data = 2 * (slugs.length + 1)
    ∧ (∀ u ∈ urlPairs slugs,
        countL urlPat (partsStr (sitemapEntryParts u)).data = 2
        ∧ countL xhtmlEnPat (partsStr (sitemapEntryParts u)).data = 2
        ∧ countL xhtmlFrPat (partsStr (sitemapEntryParts u)).data = 2
        ∧ countL xhtmlXdPat (partsStr (sitemapEntryParts u)).data = 2
        ∧ ("<xhtml:link rel=\"alternate\" hreflang=\"x-default\" href=\"" ++ u.1
            ++ "\"/>").data <:+: (partsStr (sitemapEntryParts u)).data)
    ∧ countL urlPat (generate_sitemap ["dragon-ball", "naruto"]).data = 6 := by
  have t1 : countL urlPat (generate_sitemap slugs).data
      = (slugs.length + 1) * 2 := by
    apply sitemap_count (by decide) slugs h
    · intro u hu
      have hL : litsOf (sitemapEntryParts u)
          = litsOf (sitemapEntryParts ("", "")) := rfl
      rw [hL]
      decide
    · decide
    · decide
    · decide
    · decide
    · intro u hu
      have hS : ((sitemapEntryParts u).map (litCount urlPat)).sum
          = ((sitemapEntryParts ("", "")).map (litCount urlPat)).sum := rfl
      rw [hS]
      decide
  have t2 : countL xhtmlEnPat (generate_sitemap slugs).data
      = (slugs.length + 1) * 2 := by
    apply sitemap_count (by decide) slugs h
    · intro u hu
      have hL : litsOf (sitemapEntryParts u)
          = litsOf (sitemapEntryParts ("", "")) := rfl
      rw [hL]
      decide
    · decide
    · decide
    · decide
    · decide
    · intro u hu
      have hS : ((sitemapEntryParts u).map (litCount xhtmlEnPat)).sum
          = ((sitemapEntryParts ("", "")).map (litCount xhtmlEnPat)).sum := rfl
      rw [hS]
      decide
  have t3 : countL xhtmlFrPat (generate_sitemap slugs).data
      = (slugs.length + 1) * 2 := by
    apply sitemap_count (by decide) slugs h
    · intro u hu
      have hL : litsOf (sitemapEntryParts u)
          = litsOf (sitemapEntryParts ("", "")) := rfl
      rw [hL]
      decide
    · decide
    · decide
    · decide
    · decide
    · intro u hu
      have hS : ((sitemapEntryParts u).map (litCount xhtmlFrPat)).sum
          = ((sitemapEntryParts ("", "")).map (litCount xhtmlFrPat)).sum := rfl
      rw [hS]
      decide
  have t4 : countL xhtmlXdPat (generate_sitemap slugs).data
      = (slugs.length + 1) * 2 := by
    apply sitemap_count (by decide) slugs h
    · intro u hu
      have hL : litsOf (sitemapEntryParts u)
          = litsOf (sitemapEntryParts ("", "")) := rfl
      rw [hL]
      decide
    · decide
    · decide
    · decide
    · decide
    · intro u hu
      have hS : ((sitemapEntryParts u).map (litCount xhtmlXdPat)).sum
          = ((sitemapEntryParts ("", "")).map (litCount xhtmlXdPat)).sum := rfl
      rw [hS]
      decide
  have t6 : countL urlPat (generate_sitemap ["dragon-ball", "naruto"]).data
      = (2 + 1) * 2 := by
    apply sitemap_count (by decide) _ (by decide)
    · intro u hu
      have hL : litsOf (sitemapEntryParts u)
          = litsOf (sitemapEntryParts ("", "")) := rfl
      rw [hL]
      decide
    · decide
    · decide
    · decide
    · decide
    · intro u hu
      have hS : ((sitemapEntryParts u).map (litCount urlPat)).sum
          = ((sitemapEntryParts ("", "")).map (litCount urlPat)).sum := rfl
      rw [hS]
      decide
  refine ⟨by rw [t1]; omega, by rw [t2]; omega, by rw [t3]; omega,
    by rw [t4]; omega, ?_, by rw [t6]⟩
  intro u hu
  have hcl := urlPairs_clean slugs h u hu
  refine ⟨?_, ?_, ?_, ?_, sitemapEntry_xd_loc u⟩
  · rw [sitemapEntry_count (by decide) u ?_ hcl.1 hcl.2]
    · have hS : ((sitemapEntryParts u).map (litCount urlPat)).sum
          = ((sitemapEntryParts ("", "")).map (litCount urlPat)).sum := rfl
      rw [hS]
      decide
    · have hL : litsOf (sitemapEntryParts u)
          = litsOf (sitemapEntryParts ("", "")) := rfl
      rw [hL]
      decide
  · rw [sitemapEntry_count (by decide) u ?_ hcl.1 hcl.2]
    · have hS : ((sitemapEntryParts u).map (litCount xhtmlEnPat)).sum
          = ((sitemapEntryParts ("", "")).map (litCount xhtmlEnPat)).sum := rfl
      rw [hS]
      decide
    · have hL : litsOf (sitemapEntryParts u)
          = litsOf (sitemapEntryParts ("", "")) := rfl
      rw [hL]
      decide
  · rw [sitemapEntry_count (by decide) u ?_ hcl.1 hcl.2]
    · have hS : ((sitemapEntryParts u).map (litCount xhtmlFrPat)).sum
          = ((sitemapEntryParts ("", "")).map (litCount xhtmlFrPat)).sum := rfl
      rw [hS]
      decide
    · have hL : litsOf (sitemapEntryParts u)
          = litsOf (sitemapEntryParts ("", "")) := rfl
      rw [hL]
      decide
  · rw [sitemapEntry_count (by decide) u ?_ hcl.1 hcl.2]
    · have hS : ((sitemapEntryParts u).map (litCount xhtmlXdPat)).sum
          = ((sitemapEntryParts ("", "")).map (litCount xhtmlXdPat)).sum := rfl
      rw [hS]
      decide
    · have hL : litsOf (sitemapEntryParts u)
          = litsOf (sitemapEntryParts ("", "")) := rfl
      rw [hL]
      decide

theorem C6_witness :
    countL urlPat (generate_sitemap ["dragon-ball", "naruto"]).data = 6 :=
  (C6 ["dragon-ball", "naruto"] (by decide)).2.2.2.2.2

set_option maxHeartbeats 8000000

/-- C8: a rendered series page (clean guide, `<`-free slug and language tag)
contains exactly one `<title>` element, exactly one canonical link and exactly
one hreflang alternate of each of en, fr and x-default, the canonical href
being the language's own URL, the en/fr alternates the English/French URLs
derived from the slug and site base, and x-default the English URL; likewise
for a homepage over a clean series list. -/
theorem C8 (slug lang : String) (g : Guide) (sl : List (String × SeriesRaw))
    (hg : GuideClean g) (hslug : '<' ∉ slug.data) (hlang : '<' ∉ lang.data)
    (hsl : ∀ x ∈ sl, '<' ∉ x.1.data ∧ GuideClean x.2.en ∧ GuideClean x.2.fr) :
    (countL titlePat (generate_series_page slug g lang).data = 1
    ∧ countL canonPat (generate_series_page slug g lang).data = 1
    ∧ countL altEnPat (generate_series_page slug g lang).data = 1
    ∧ countL altFrPat (generate_series_page slug g lang).data = 1
    ∧ countL altXdPat (generate_series_page slug g lang).data = 1
    ∧ ("<link rel=\"canonical\" href=\""
        ++ (if lang = "en" then SITE_URL ++ "/" ++ slug ++ "/"
            else SITE_URL ++ "/fr/" ++ slug ++ "/") ++ "\">").data
        <:+: (generate_series_page slug g lang).data
    ∧ ("<link rel=\"alternate\" hreflang=\"en\" href=\""
        ++ (SITE_URL ++ "/" ++ slug ++ "/") ++ "\">").data
        <:+: (generate_series_page slug g lang).data
    ∧ ("<link rel=\"alternate\" hreflang=\"fr\" href=\""
        ++ (SITE_URL ++ "/fr/" ++ slug ++ "/") ++ "\">").data
        <:+: (generate_series_page slug g lang).data
    ∧ ("<link rel=\"alternate\" hreflang=\"x-default\" href=\""
        ++ (SITE_URL ++ "/" ++ slug ++ "/") ++ "\">").data
        <:+: (generate_series_page slug g lang).data)
    ∧ (countL titlePat (generate_homepage lang sl).data = 1
    ∧ countL canonPat (generate_homepage lang sl).data = 1
    ∧ countL altEnPat (generate_homepage lang sl).data = 1
    ∧ countL altFrPat (generate_homepage lang sl).data = 1
    ∧ countL altXdPat (generate_homepage lang sl).data = 1
    ∧ ("<link rel=\"canonical\" href=\""
        ++ (if lang = "en" then SITE_URL ++ "/" else SITE_URL ++ "/fr/")
        ++ "\">").data <:+: (generate_homepage lang sl).data
    ∧ ("<link rel=\"alternate\" hreflang=\"en\" href=\"" ++ (SITE_URL ++ "/")
        ++ "\">").data <:+: (generate_homepage lang sl).data
    ∧ ("<link rel=\"alternate\" hreflang=\"fr\" href=\"" ++ (SITE_URL ++ "/fr/")
        ++ "\">").data <:+: (generate_homepage lang sl).data
    ∧ ("<link rel=\"alternate\" hreflang=\"x-default\" href=\""
        ++ (SITE_URL ++ "/") ++ "\">").data
        <:+: (generate_homepage lang sl).data) := by
  constructor
  · have hs1 : countL titlePat (generate_series_page slug g lang).data = 1 := by
      have hc := seriesPage_count (show titlePat.head? = some '<' by decide)
        (by decide) (by decide) (by decide) (by decide) (by decide) (by decide)
        slug g lang
        (by
          have hL : litsOf (seriesPageParts slug g lang)
              = litsOf (seriesPageParts "x" exGuide "en") := rfl
          rw [hL]
          decide)
        hg hslug hlang
      rw [hc]
      have hS : ((seriesPageParts slug g lang).map (litCount titlePat)).sum
          = ((seriesPageParts "x" exGuide "en").map (litCount titlePat)).sum := rfl
      rw [hS]
      decide
    have hs2 : countL canonPat (generate_series_page slug g lang).data = 1 := by
      have hc := seriesPage_count (show canonPat.head? = some '<' by decide)
        (by decide) (by decide) (by decide) (by decide) (by decide) (by decide)
        slug g lang
        (by
          have hL : litsOf (seriesPageParts slug g lang)
              = litsOf (seriesPageParts "x" exGuide "en") := rfl
          rw [hL]
          decide)
        hg hslug hlang
      rw [hc]
      have hS : ((seriesPageParts slug g lang).map (litCount canonPat)).sum
          = ((seriesPageParts "x" exGuide "en").map (litCount canonPat)).sum := rfl
      rw [hS]
      decide
    have hs3 : countL altEnPat (generate_series_page slug g lang).data = 1 := by
      have hc := seriesPage_count (show altEnPat.head? = some '<' by decide)
        (by decide) (by decide) (by decide) (by decide) (by decide) (by decide)
        slug g lang
        (by
          have hL : litsOf (seriesPageParts slug g lang)
              = litsOf (seriesPageParts "x" exGuide "en") := rfl
          rw [hL]
          decide)
        hg hslug hlang
      rw [hc]
      have hS : ((seriesPageParts slug g lang).map (litCount altEnPat)).sum
          = ((seriesPageParts "x" exGuide "en").map (litCount altEnPat)).sum := rfl
      rw [hS]
      decide
    have hs4 : countL altFrPat (generate_series_page slug g lang).data = 1 := by
      have hc := seriesPage_count (show altFrPat.head? = some '<' by decide)
        (by decide) (by decide) (by decide) (by decide) (by decide) (by decide)
        slug g lang
        (by
          have hL : litsOf (seriesPageParts slug g lang)
              = litsOf (seriesPageParts "x" exGuide "en") := rfl
          rw [hL]
          decide)
        hg hslug hlang
      rw [hc]
      have hS : ((seriesPageParts slug g lang).map (litCount altFrPat)).sum
          = ((seriesPageParts "x" exGuide "en").map (litCount altFrPat)).sum := rfl
      rw [hS]
      decide
    have hs5 : countL altXdPat (generate_series_page slug g lang).data = 1 := by
      have hc := seriesPage_count (show altXdPat.head? = some '<' by decide)
        (by decide) (by decide) (by decide) (by decide) (by decide) (by decide)
        slug g lang
        (by
          have hL : litsOf (seriesPageParts slug g lang)
              = litsOf (seriesPageParts "x" exGuide "en") := rfl
          rw [hL]
          decide)
        hg hslug hlang
      rw [hc]
      have hS : ((seriesPageParts slug g lang).map (litCount altXdPat)).sum
          = ((seriesPageParts "x" exGuide "en").map (litCount altXdPat)).sum := rfl
      rw [hS]
      decide
    refine ⟨hs1, hs2, hs3, hs4, hs5, ?_, ?_, ?_, ?_⟩
    · exact into_seriesPage slug g lang (spParts1_canonical_loc lang
        g.meta_title g.meta_description
        (if lang = "en" then SITE_URL ++ "/" ++ slug ++ "/"
          else SITE_URL ++ "/fr/" ++ slug ++ "/")
        (SITE_URL ++ "/" ++ slug ++ "/") (SITE_URL ++ "/fr/" ++ slug ++ "/")
        (build_schema_json g slug lang) (build_faq_schema g))
    · exact into_seriesPage slug g lang (spParts1_alt_en_loc lang
        g.meta_title g.meta_description
        (if lang = "en" then SITE_URL ++ "/" ++ slug ++ "/"
          else SITE_URL ++ "/fr/" ++ slug ++ "/")
        (SITE_URL ++ "/" ++ slug ++ "/") (SITE_URL ++ "/fr/" ++ slug ++ "/")
        (build_schema_json g slug lang) (build_faq_schema g))
    · exact into_seriesPage slug g lang (spParts1_alt_fr_loc lang
        g.meta_title g.meta_description
        (if lang = "en" then SITE_URL ++ "/" ++ slug ++ "/"
          else SITE_URL ++ "/fr/" ++ slug ++ "/")
        (SITE_URL ++ "/" ++ slug ++ "/") (SITE_URL ++ "/fr/" ++ slug ++ "/")
        (build_schema_json g slug lang) (build_faq_schema g))
    · exact into_seriesPage slug g lang (spParts1_alt_xd_loc lang
        g.meta_title g.meta_description
        (if lang = "en" then SITE_URL ++ "/" ++ slug ++ "/"
          else SITE_URL ++ "/fr/" ++ slug ++ "/")
        (SITE_URL ++ "/" ++ slug ++ "/") (SITE_URL ++ "/fr/" ++ slug ++ "/")
        (build_schema_json g slug lang) (build_faq_schema g))
  · have hh1 : countL titlePat (generate_homepage lang sl).data = 1 := by
      have hc := homepage_count (show titlePat.head? = some '<' by decide)
        (by decide) lang sl
        (by
          have hL : litsOf (homepageParts lang sl)
              = litsOf (homepageParts "en" []) := rfl
          rw [hL]
          decide)
        hsl hlang
      rw [hc]
      have hS : ((homepageParts lang sl).map (litCount titlePat)).sum
          = ((homepageParts "en" []).map (litCount titlePat)).sum := rfl
      rw [hS]
      decide
    have hh2 : countL canonPat (generate_homepage lang sl).data = 1 := by
      have hc := homepage_count (show canonPat.head? = some '<' by decide)
        (by decide) lang sl
        (by
          have hL : litsOf (homepageParts lang sl)
              = litsOf (homepageParts "en" []) := rfl
          rw [hL]
          decide)
        hsl hlang
      rw [hc]
      have hS : ((homepageParts lang sl).map (litCount canonPat)).sum
          = ((homepageParts "en" []).map (litCount canonPat)).sum := rfl
      rw [hS]
      decide
    have hh3 : countL altEnPat (generate_homepage lang sl).data = 1 := by
      have hc := homepage_count (show altEnPat.head? = some '<' by decide)
        (by decide) lang sl
        (by
          have hL : litsOf (homepageParts lang sl)
              = litsOf (homepageParts "en" []) := rfl
          rw [hL]
          decide)
        hsl hlang
      rw [hc]
      have hS : ((homepageParts lang sl).map (litCount altEnPat)).sum
          = ((homepageParts "en" []).map (litCount altEnPat)).sum := rfl
      rw [hS]
      decide
    have hh4 : countL altFrPat (generate_homepage lang sl).data = 1 := by
      have hc := homepage_count (show altFrPat.head? = some '<' by decide)
        (by decide) lang sl
        (by
          have hL : litsOf (homepageParts lang sl)
              = litsOf (homepageParts "en" []) := rfl
          rw [hL]
          decide)
        hsl hlang
      rw [hc]
      have hS : ((homepageParts lang sl).map (litCount altFrPat)).sum
          = ((homepageParts "en" []).map (litCount altFrPat)).sum := rfl
      rw [hS]
      decide
    have hh5 : countL altXdPat (generate_homepage lang sl).data = 1 := by
      have hc := homepage_count (show altXdPat.head? = some '<' by decide)
        (by decide) lang sl
        (by
          have hL : litsOf (homepageParts lang sl)
              = litsOf (homepageParts "en" []) := rfl
          rw [hL]
          decide)
        hsl hlang
      rw [hc]
      have hS : ((homepageParts lang sl).map (litCount altXdPat)).sum
          = ((homepageParts "en" []).map (litCount altXdPat)).sum := rfl
      rw [hS]
      decide
    refine ⟨hh1, hh2, hh3, hh4, hh5, ?_, ?_, ?_, ?_⟩
    · exact into_homepage lang sl (hpParts1_canonical_loc lang
        (if lang = "en"
          then "AnimeWatchOrder.com — Complete Anime Watch Order Guides"
          else "AnimeWatchOrder.com — Guides d\x27Ordre de Visionnage Anime")
        (if lang = "en"
          then "Clear, structured watch order guides for the most complex anime franchises. Dragon Ball, Naruto, One Piece, and more."
          else "Des guides clairs et structurés pour les franchises anime les plus complexes. Dragon Ball, Naruto, One Piece et plus.")
        (if lang = "en" then SITE_URL ++ "/" else SITE_URL ++ "/fr/")
        (SITE_URL ++ "/") (SITE_URL ++ "/fr/"))
    · exact into_homepage lang sl (hpParts1_alt_en_loc lang
        (if lang = "en"
          then "AnimeWatchOrder.com — Complete Anime Watch Order Guides"
          else "AnimeWatchOrder.com — Guides d\x27Ordre de Visionnage Anime")
        (if lang = "en"
          then "Clear, structured watch order guides for the most complex anime franchises. Dragon Ball, Naruto, One Piece, and more."
          else "Des guides clairs et structurés pour les franchises anime les plus complexes. Dragon Ball, Naruto, One Piece et plus.")
        (if lang = "en" then SITE_URL ++ "/" else SITE_URL ++ "/fr/")
        (SITE_URL ++ "/") (SITE_URL ++ "/fr/"))
    · exact into_homepage lang sl (hpParts1_alt_fr_loc lang
        (if lang = "en"
          then "AnimeWatchOrder.com — Complete Anime Watch Order Guides"
          else "AnimeWatchOrder.com — Guides d\x27Ordre de Visionnage Anime")
        (if lang = "en"
          then "Clear, structured watch order guides for the most complex anime franchises. Dragon Ball, Naruto, One Piece, and more."
          else "Des guides clairs et structurés pour les franchises anime les plus complexes. Dragon Ball, Naruto, One Piece et plus.")
        (if lang = "en" then SITE_URL ++ "/" else SITE_URL ++ "/fr/")
        (SITE_URL ++ "/") (SITE_URL ++ "/fr/"))
    · exact into_homepage lang sl (hpParts1_alt_xd_loc lang
        (if lang = "en"
          then "AnimeWatchOrder.com — Complete Anime Watch Order Guides"
          else "AnimeWatchOrder.com — Guides d\x27Ordre de Visionnage Anime")
        (if lang = "en"
          then "Clear, structured watch order guides for the most complex anime franchises. Dragon Ball, Naruto, One Piece, and more."
          else "Des guides clairs et structurés pour les franchises anime les plus complexes. Dragon Ball, Naruto, One Piece et plus.")
        (if lang = "en" then SITE_URL ++ "/" else SITE_URL ++ "/fr/")
        (SITE_URL ++ "/") (SITE_URL ++ "/fr/"))

theorem C8_witness :
    countL titlePat (generate_series_page "dragon-ball" exGuide "en").data = 1
    ∧ countL titlePat
        (generate_homepage "en" [("dragon-ball", ⟨exGuide, exGuide⟩)]).data
        = 1 := by
  have h := C8 "dragon-ball" "en" exGuide [("dragon-ball", ⟨exGuide, exGuide⟩)]
    exGuideClean (by decide) (by decide)
    (by
      intro x hx
      simp only [List.mem_cons, List.not_mem_nil, or_false] at hx
      subst hx
      exact ⟨by decide, exGuideClean, exGuideClean⟩)
  exact ⟨h.1.1, h.2.1⟩

end AWO
